import Mathlib

/-!
Little Navmap: route string dialog and HTML information builder

A shallow embedding of `src/route/routestringdialog.cpp` and
`src/common/htmlinfobuilder.cpp`.

Conventions of the embedding:
* a C++ `int` is an `Int`, and a sum, difference or product of `int` values
  is wrapped to 32 bit by `int32`; a 32 bit flag word (`QFlags`) is a natural
  number below `2 ^ 32`, and the conversions between the two reduce modulo
  `2 ^ 32`;
* a C++ `float` is a rational number and a `float` constant is the rational
  number it stands for (rounding of results is not modelled);
* a pointer that may be null is an `Option`;
* a method that changes its object takes the object and returns the new one;
* functions, constants and classes that are declared outside the two source
  files are fields of an environment record.
-/

/-! ## Texts of Qt -/

/-- The value an `int` variable holds when the exact result of an operation on
`int` operands is `z`: inside the range of the 32 bit type it is `z` itself,
outside it is `z` wrapped around in two's complement, as the processors the
program is built for compute it. -/
def int32 (z : Int) : Int :=
  (z + 2147483648) % 4294967296 - 2147483648

/-- Embeds `QChar::digitValue` for the digits `0` to `9`; the decimal digits of
other scripts are not in the model. -/
def QChar.digitValue (c : Char) : Option Nat :=
  if c.isDigit then some (c.toNat - 48) else none

/-- The one or two digits of a place marker at the head of a text: the number
they give and how many characters they take. -/
def QString.escapeDigits : List Char → Option (Nat × Nat)
  | [] => none
  | [d₁] => (QChar.digitValue d₁).map fun n₁ => (n₁, 1)
  | d₁ :: d₂ :: _ =>
    match QChar.digitValue d₁, QChar.digitValue d₂ with
    | some n₁, some n₂ => some (10 * n₁ + n₂, 2)
    | some n₁, none => some (n₁, 1)
    | none, _ => none

/-- The place marker at the head of a text, if there is one: `%`, then `L` or
not, then one or two digits. Gives the number of the marker and its length. -/
def QString.escapeAt : List Char → Option (Nat × Nat)
  | '%' :: 'L' :: rest => (QString.escapeDigits rest).map fun e => (e.1, e.2 + 2)
  | '%' :: rest => (QString.escapeDigits rest).map fun e => (e.1, e.2 + 1)
  | _ => none

/-- The lowest number of a place marker in a text, as `findArgEscapes` of
`qstring.cpp` finds it. -/
def QString.minEscape : List Char → Option Nat
  | [] => none
  | c :: rest =>
    match QString.escapeAt (c :: rest), QString.minEscape rest with
    | some e, some m => some (min e.1 m)
    | some e, none => some e.1
    | none, m => m

/-- Replaces every place marker of number `n` by `a`, as `replaceArgEscapes` of
`qstring.cpp` does with a field width of 0; `drop` counts the characters of a
replaced marker that are still to be left out. -/
def QString.replaceEscapes (n : Nat) (a : List Char) : Nat → List Char → List Char
  | _, [] => []
  | drop + 1, _ :: rest => QString.replaceEscapes n a drop rest
  | 0, c :: rest =>
    match QString.escapeAt (c :: rest) with
    | some e =>
      if e.1 = n then a ++ QString.replaceEscapes n a (e.2 - 1) rest
      else c :: QString.replaceEscapes n a 0 rest
    | none => c :: QString.replaceEscapes n a 0 rest

/-- Embeds `QString::arg(const QString &)`: every place marker with the lowest
number in the text is replaced by the argument, also a marker that an earlier
argument has brought in; a text without a place marker stays as it is. -/
def QString.arg (text a : String) : String :=
  match QString.minEscape text.data with
  | some n => String.mk (QString.replaceEscapes n a.data 0 text.data)
  | none => text

/-- Embeds `QString::arg(int)` for a text without a marker `%L`: the argument
is written in decimal digits. -/
def QString.argInt (text : String) (a : Int) : String :=
  QString.arg text (toString a)

/-- The text holds no `%`, so it brings no place marker into a text. -/
def QString.hasNoMarker (a : String) : Prop :=
  ∀ c ∈ a.data, c ≠ '%'

namespace rs

/-- The flag word `rs::RouteStringOptions` (a `QFlags` over a 32 bit integer). -/
structure RouteStringOptions where
  i : Nat
  lt : i < 2 ^ 32
deriving DecidableEq

namespace RouteStringOptions

/-- Embeds `QFlags(QFlag(int))`: the flag word with the bit pattern of a C++ `int`. -/
def ofInt (v : Int) : RouteStringOptions :=
  ⟨(v % 2 ^ 32).toNat, by
    have h1 : (0 : Int) ≤ v % 2 ^ 32 := Int.emod_nonneg _ (by norm_num)
    have h2 : v % 2 ^ 32 < 2 ^ 32 := Int.emod_lt_of_pos _ (by norm_num)
    omega⟩

/-- Embeds `static_cast<int>(flags)`: the two's complement reading of the word. -/
def toInt (o : RouteStringOptions) : Int :=
  if o.i < 2 ^ 31 then (o.i : Int) else (o.i : Int) - 2 ^ 32

/-- Embeds `operator|` of `QFlags`. -/
def or (a b : RouteStringOptions) : RouteStringOptions :=
  ⟨a.i ||| b.i, Nat.or_lt_two_pow a.lt b.lt⟩

/-- Embeds `operator&` of `QFlags`. -/
def and (a b : RouteStringOptions) : RouteStringOptions :=
  ⟨a.i &&& b.i, Nat.lt_of_le_of_lt Nat.and_le_left a.lt⟩

/-- Embeds `operator~` of `QFlags`: the complement within 32 bits. -/
def not (a : RouteStringOptions) : RouteStringOptions :=
  ⟨(2 ^ 32 - 1) ^^^ a.i, Nat.xor_lt_two_pow (by norm_num) a.lt⟩

/-- Conversion of a flag word to `bool`: some bit is set. -/
def toBool (a : RouteStringOptions) : Bool :=
  a.i != 0

/-- Bit `b` of the flag word. -/
def testBit (a : RouteStringOptions) (b : Nat) : Bool :=
  a.i.testBit b

end RouteStringOptions

end rs

namespace atools.settings

/-- The settings of the application, as a key/value store of integers. -/
abbrev Settings := List (String × Int)

/-- Embeds `Settings::valueInt(key, defaultValue)`. -/
def Settings.valueInt (s : Settings) (key : String) (defaultValue : Int) : Int :=
  match s.lookup key with
  | some v => v
  | none => defaultValue

/-- Embeds `Settings::setValue(key, value)`. -/
def Settings.setValue (s : Settings) (key : String) (value : Int) : Settings :=
  (key, value) :: s.filter (fun p => p.1 != key)

/-- Embeds `Settings::contains(key)`. -/
def Settings.contains (s : Settings) (key : String) : Bool :=
  (s.lookup key).isSome

end atools.settings

namespace atools.fs.pln

/-- One entry of a flight plan. -/
structure FlightplanEntry where
  ident : String
  airway : String
deriving DecidableEq

/-- The class `atools::fs::pln::Flightplan`, as far as the dialog reads it. -/
structure Flightplan where
  entries : List FlightplanEntry
  properties : List (String × String)
  departureAiportName : String
  departureIdent : String
  destinationAiportName : String
  destinationIdent : String
deriving DecidableEq

/-- Embeds `Flightplan::clear()`: removes the entries and the names of the plan; the
properties are cleared by the caller. -/
def Flightplan.clear (f : Flightplan) : Flightplan :=
  { f with
    entries := []
    departureAiportName := ""
    departureIdent := ""
    destinationAiportName := ""
    destinationIdent := "" }

end atools.fs.pln

open atools.settings atools.fs.pln

/-- Embeds `QChar::isSpace`. -/
def QChar.isSpace (c : Char) : Bool :=
  (9 ≤ c.toNat && c.toNat ≤ 13) || c.toNat == 0x20 || c.toNat == 0x85 || c.toNat == 0xA0 ||
  c.toNat == 0x1680 || (0x2000 ≤ c.toNat && c.toNat ≤ 0x200A) || c.toNat == 0x2028 ||
  c.toNat == 0x2029 || c.toNat == 0x202F || c.toNat == 0x205F || c.toNat == 0x3000

/-- The words of a text: the maximal runs of characters that are not spaces.
`cur` is the word being read, reversed. -/
def QString.wordsAux : List Char → List Char → List String
  | cur, [] => if cur.isEmpty then [] else [String.mk cur.reverse]
  | cur, c :: cs =>
    if QChar.isSpace c then
      if cur.isEmpty then QString.wordsAux [] cs
      else String.mk cur.reverse :: QString.wordsAux [] cs
    else QString.wordsAux (c :: cur) cs

/-- Embeds `QString::simplified()`: no space at either end, and every run of spaces
inside replaced by one blank. -/
def QString.simplified (s : String) : String :=
  " ".intercalate (QString.wordsAux [] s.data)

/-- Embeds `QStringList::join(separator)`. -/
def QStringList.join (l : List String) (sep : String) : String :=
  sep.intercalate l

/-- A checkable entry of the options menu (`QAction`). -/
structure QAction where
  text : String
  checkable : Bool
  data : Int
  checked : Bool
deriving DecidableEq

/-- Embeds `QAction::setChecked`, with the signals of the action blocked. -/
def QAction.setChecked (a : QAction) (b : Bool) : QAction :=
  { a with checked := b }

/-- The standard buttons of a `QDialogButtonBox` that the dialog asks for. -/
inductive StandardButton where
  | Ok
  | Cancel
  | Help
  | Other (n : Nat)
deriving DecidableEq

/-- A push button: its address, its label and whether it is enabled. -/
structure QPushButton where
  ptr : Nat
  text : String
  enabled : Bool
deriving DecidableEq

/-- The button box of the dialog with its three standard buttons. -/
structure QDialogButtonBox where
  ok : QPushButton
  cancel : QPushButton
  help : QPushButton
deriving DecidableEq

/-- Embeds `QDialogButtonBox::button(which)`: the address of the standard button, or
null when the box has no such button. -/
def QDialogButtonBox.button (box : QDialogButtonBox) : StandardButton → Option Nat
  | .Ok => some box.ok.ptr
  | .Cancel => some box.cancel.ptr
  | .Help => some box.help.ptr
  | .Other _ => none

/-- The widgets of `Ui::RouteStringDialog` that the code reads or writes. -/
structure Ui where
  plainTextEditRouteString : String
  /-- The paragraphs of the message pane. -/
  textEditRouteStringErrors : List String
  pushButtonRouteStringRead : Bool
  pushButtonRouteStringUpdate : Bool
  pushButtonRouteStringToClipboard : Bool
  pushButtonRouteStringFromClipboard : Bool
  buttonBoxRouteString : QDialogButtonBox
  /-- The actions of the options tool button, in menu order. -/
  toolButtonRouteStringOptions : List QAction
  /-- Sizes of the dialog and its splitter, as `WidgetState` stores them. -/
  splitterRouteString : List Int
deriving DecidableEq

/-- The class `RouteString` as the dialog sees it: the messages of the last
parse. -/
structure RouteString where
  messages : List String
deriving DecidableEq

/-- The route of the application (`NavApp::getRoute()`), leg by leg. -/
abbrev Route := List String

/-- What `RouteString::createRouteFromString` hands back: its return value and
the objects it has written. -/
structure ParseOutcome where
  success : Bool
  routeString : RouteString
  flightplan : Flightplan
  speedKts : ℚ

/-- The state of the application around the dialog. -/
structure NavApp where
  settings : Settings
  clipboard : String
  route : Route
  speedKts : ℚ
  hasSidStarInDatabase : Bool
  /-- Stack of `QGuiApplication::setOverrideCursor`. -/
  overrideCursor : List String
  /-- The addresses handed to `HelpHandler::openHelpUrl`, oldest first. -/
  helpUrls : List String

/-- What the dialog uses and the two source files do not define. -/
structure Env where
  START_AND_DEST : rs.RouteStringOptions
  DCT : rs.RouteStringOptions
  ALT_AND_SPEED : rs.RouteStringOptions
  SID_STAR : rs.RouteStringOptions
  SID_STAR_GENERIC : rs.RouteStringOptions
  DEFAULT_OPTIONS : rs.RouteStringOptions
  ROUTE_STRING_DIALOG_OPTIONS : String
  ROUTE_STRING_DIALOG_SPLITTER : String
  HELP_ONLINE_URL : String
  createStringForRoute : Route → ℚ → rs.RouteStringOptions → String
  createRouteFromString : RouteString → String → Flightplan → ℚ → ParseOutcome
  cleanRouteString : String → List String
  getSidAndTransition : List (String × String) → String
  getStarAndTransition : List (String × String) → String
  getDistanceNm : Flightplan → ℚ
  distNm : ℚ → String
  widgetStateSave : String → List Int → Settings → Settings
  widgetStateRestore : String → Settings → List Int → List Int

/-- Embeds `QDialog::DialogCode`. -/
inductive DialogCode where
  | Rejected
  | Accepted
deriving DecidableEq

/-- The dialog `RouteStringDialog`. -/
structure RouteStringDialog where
  ui : Ui
  flightplan : Flightplan
  routeString : RouteString
  options : rs.RouteStringOptions
  speedKts : ℚ
  /-- Set by `QDialog::accept` and `QDialog::reject`, which close the dialog. -/
  result : Option DialogCode

/-- The dialog together with the application state it reads and writes. -/
structure Sys where
  app : NavApp
  dlg : RouteStringDialog

namespace RouteStringDialog

/-- Embeds `RouteStringDialog::updateButtonState`. -/
def updateButtonState (env : Env) (s : Sys) : Sys :=
  let ui := s.dlg.ui
  let text := ui.plainTextEditRouteString
  let box := ui.buttonBoxRouteString
  { s with dlg := { s.dlg with ui := { ui with
      pushButtonRouteStringRead := !text.isEmpty
      pushButtonRouteStringUpdate := !s.app.route.isEmpty
      buttonBoxRouteString :=
        { box with ok := { box.ok with enabled := !s.dlg.flightplan.entries.isEmpty } }
      pushButtonRouteStringToClipboard := !(env.cleanRouteString text).isEmpty
      pushButtonRouteStringFromClipboard := !(QString.simplified s.app.clipboard).isEmpty
      toolButtonRouteStringOptions :=
        ui.toolButtonRouteStringOptions.map fun act =>
          act.setChecked ((rs.RouteStringOptions.ofInt act.data).and s.dlg.options).toBool } } }

/-- Embeds `QPlainTextEdit::setPlainText` on the editor: the text is replaced and the
signal `textChanged`, connected to `updateButtonState` by the constructor,
runs the slot. -/
def setPlainText (env : Env) (s : Sys) (text : String) : Sys :=
  updateButtonState env
    { s with dlg := { s.dlg with ui := { s.dlg.ui with plainTextEditRouteString := text } } }

/-- Embeds `RouteStringDialog::updateButtonClicked`. -/
def updateButtonClicked (env : Env) (s : Sys) : Sys :=
  setPlainText env s (env.createStringForRoute s.app.route s.app.speedKts s.dlg.options)

/-- Embeds `RouteStringDialog::toolButtonOptionsTriggered`. -/
def toolButtonOptionsTriggered (s : Sys) (action : QAction) : Sys :=
  let _ := action
  { s with dlg := { s.dlg with
      options := s.dlg.ui.toolButtonRouteStringOptions.foldl
        (fun options act =>
          let opts := rs.RouteStringOptions.ofInt act.data
          if act.checked then options.or opts else options.and opts.not)
        s.dlg.options } }

/-- Embeds `RouteStringDialog::getFlightplan`. -/
def getFlightplan (s : Sys) : Flightplan :=
  s.dlg.flightplan

/-- Embeds `RouteStringDialog::saveState`. -/
def saveState (env : Env) (s : Sys) : Sys :=
  let st := env.widgetStateSave env.ROUTE_STRING_DIALOG_SPLITTER s.dlg.ui.splitterRouteString
    s.app.settings
  { s with app := { s.app with
      settings := st.setValue env.ROUTE_STRING_DIALOG_OPTIONS s.dlg.options.toInt } }

/-- Embeds `RouteStringDialog::getOptionsFromSettings`. -/
def getOptionsFromSettings (env : Env) (app : NavApp) : rs.RouteStringOptions :=
  rs.RouteStringOptions.ofInt
    (app.settings.valueInt env.ROUTE_STRING_DIALOG_OPTIONS env.DEFAULT_OPTIONS.toInt)

/-- Embeds `RouteStringDialog::restoreState`. -/
def restoreState (env : Env) (s : Sys) : Sys :=
  let s1 : Sys := { s with dlg := { s.dlg with ui := { s.dlg.ui with
    splitterRouteString := env.widgetStateRestore env.ROUTE_STRING_DIALOG_SPLITTER
      s.app.settings s.dlg.ui.splitterRouteString } } }
  let s2 : Sys := { s1 with dlg := { s1.dlg with options := getOptionsFromSettings env s1.app } }
  let s3 := updateButtonState env s2
  setPlainText env s3 (env.createStringForRoute s3.app.route s3.app.speedKts s3.dlg.options)

/-- The text built by `tr("Found %1 waypoints. Flight plan from <b>%3 (%4)</b>
to <b>%5 (%6)</b>. Distance is %2.<br/>")` and its six calls of `arg`, one
after the other, each on the text that the call before has left. -/
def foundMessage (env : Env) (fp : Flightplan) : String :=
  QString.arg (QString.arg (QString.arg (QString.arg (QString.arg (QString.argInt
    "Found %1 waypoints. Flight plan from <b>%3 (%4)</b> to <b>%5 (%6)</b>. Distance is %2.<br/>"
    (fp.entries.length : Int))
    (env.distNm (env.getDistanceNm fp)))
    fp.departureAiportName)
    fp.departureIdent)
    fp.destinationAiportName)
    fp.destinationIdent

/-- The text `tr("Found departure procedure <b>%1</b>.<br/>").arg(sid)`. -/
def departureMessage (sid : String) : String :=
  QString.arg "Found departure procedure <b>%1</b>.<br/>" sid

/-- The text `tr("Found arrival procedure <b>%1</b>.<br/>").arg(star)`. -/
def arrivalMessage (star : String) : String :=
  QString.arg "Found arrival procedure <b>%1</b>.<br/>" star

/-- The local `msg` of `readClicked` at the call of `setHtml`. -/
def successMessage (env : Env) (fp : Flightplan) : String :=
  let msg := foundMessage env fp
  let sid := env.getSidAndTransition fp.properties
  let msg := if !sid.isEmpty then msg ++ departureMessage sid else msg
  let star := env.getStarAndTransition fp.properties
  if !star.isEmpty then msg ++ arrivalMessage star else msg

/-- The call of `RouteString::createRouteFromString` in `readClicked`, on the
text of the editor and the flight plan of the dialog after
`flightplan->clear()` and `flightplan->getProperties().clear()`. -/
def readClickedParse (env : Env) (s : Sys) : ParseOutcome :=
  let fp0 : Flightplan := { s.dlg.flightplan.clear with properties := [] }
  env.createRouteFromString s.dlg.routeString s.dlg.ui.plainTextEditRouteString fp0
    s.dlg.speedKts

/-- Embeds `RouteStringDialog::readClicked`. -/
def readClicked (env : Env) (s : Sys) : Sys :=
  let app1 : NavApp := { s.app with overrideCursor := "WaitCursor" :: s.app.overrideCursor }
  let out := readClickedParse env s
  let pane : List String := []
  let app2 : NavApp := { app1 with overrideCursor := app1.overrideCursor.tail }
  let pane := if out.success then [successMessage env out.flightplan] else pane
  let pane := out.routeString.messages.foldl (fun p err => p ++ [err ++ "<br/>"]) pane
  let s1 : Sys :=
    { app := app2
      dlg := { s.dlg with
        flightplan := out.flightplan
        routeString := out.routeString
        speedKts := out.speedKts
        ui := { s.dlg.ui with textEditRouteStringErrors := pane } } }
  let s2 := setPlainText env s1
    (QStringList.join (env.cleanRouteString s1.dlg.ui.plainTextEditRouteString) " ")
  updateButtonState env s2

/-- Embeds `RouteStringDialog::fromClipboardClicked`. -/
def fromClipboardClicked (env : Env) (s : Sys) : Sys :=
  setPlainText env s (QStringList.join (env.cleanRouteString s.app.clipboard) " ")

/-- Embeds `RouteStringDialog::toClipboardClicked`: the clipboard takes the text of the
editor and its signal `dataChanged`, connected to `updateButtonState` by the
constructor, runs the slot. -/
def toClipboardClicked (env : Env) (s : Sys) : Sys :=
  updateButtonState env
    { s with app := { s.app with clipboard := s.dlg.ui.plainTextEditRouteString } }

/-- Embeds `RouteStringDialog::buttonBoxClicked`; `button` is the address of the button
that was clicked. -/
def buttonBoxClicked (env : Env) (s : Sys) (button : Nat) : Sys :=
  let box := s.dlg.ui.buttonBoxRouteString
  if some button = box.button .Ok then
    { s with dlg := { s.dlg with result := some .Accepted } }
  else if some button = box.button .Help then
    { s with app := { s.app with
        helpUrls := s.app.helpUrls ++ [env.HELP_ONLINE_URL ++ "ROUTEDESCR.html"] } }
  else if some button = box.button .Cancel then
    { s with dlg := { s.dlg with result := some .Rejected } }
  else s

end RouteStringDialog

/-- Embeds `QAction` as the constructor builds it: checkable, unchecked, with the flag
as its data. -/
def newOptionAction (text : String) (flag : rs.RouteStringOptions) : QAction :=
  { text := text, checkable := true, data := flag.toInt, checked := false }

/-- Embeds the constructor `RouteStringDialog::RouteStringDialog`. `setupUi` holds the
widgets as `ui->setupUi(this)` leaves them, `options` and `speedKts` are the
initial values of the two members. -/
def RouteStringDialog.ctor (env : Env) (app : NavApp) (setupUi : Ui)
    (options : rs.RouteStringOptions) (speedKts : ℚ) : Sys :=
  let box := setupUi.buttonBoxRouteString
  let box := { box with ok := { box.ok with text := "Create Flight &Plan" } }
  let actions := setupUi.toolButtonRouteStringOptions
  let actions := actions ++
    [newOptionAction "Add departure and destination airport" env.START_AND_DEST]
  let actions := actions ++ [newOptionAction "Add DCT (direct) instructions" env.DCT]
  let actions := actions ++
    [newOptionAction "Add cruise speed and altitude instruction" env.ALT_AND_SPEED]
  let actions :=
    if app.hasSidStarInDatabase then actions ++ [newOptionAction "Add SID and STAR" env.SID_STAR]
    else actions
  let actions := actions ++ [newOptionAction "Add generic SID and STAR" env.SID_STAR_GENERIC]
  { app := app
    dlg :=
      { ui := { setupUi with buttonBoxRouteString := box, toolButtonRouteStringOptions := actions }
        flightplan :=
          { entries := [], properties := [], departureAiportName := "", departureIdent := "",
            destinationAiportName := "", destinationIdent := "" }
        routeString := { messages := [] }
        options := options
        speedKts := speedKts
        result := none } }

namespace Example

/-- Sample flag values and stand-ins for the functions of other files. -/
def env : Env :=
  { START_AND_DEST := rs.RouteStringOptions.ofInt 2
    DCT := rs.RouteStringOptions.ofInt 1
    ALT_AND_SPEED := rs.RouteStringOptions.ofInt 4
    SID_STAR := rs.RouteStringOptions.ofInt 8
    SID_STAR_GENERIC := rs.RouteStringOptions.ofInt 16
    DEFAULT_OPTIONS := rs.RouteStringOptions.ofInt 14
    ROUTE_STRING_DIALOG_OPTIONS := "RouteStringDialog/Options"
    ROUTE_STRING_DIALOG_SPLITTER := "RouteStringDialog/Splitter"
    HELP_ONLINE_URL := "https://help/"
    createStringForRoute := fun r _ _ => QStringList.join r " "
    createRouteFromString := fun rstr text fp speed =>
      { success := !text.isEmpty
        routeString := { rstr with messages := if text.isEmpty then ["No text"] else [] }
        flightplan := { fp with entries := if text.isEmpty then [] else [⟨text, ""⟩] }
        speedKts := speed }
    cleanRouteString := fun text => QString.wordsAux [] text.data
    getSidAndTransition := fun _ => ""
    getStarAndTransition := fun _ => ""
    getDistanceNm := fun _ => 0
    distNm := fun _ => "0 nm"
    widgetStateSave := fun key g st => st.setValue key (g.headD 0)
    widgetStateRestore := fun key st g => [st.valueInt key (g.headD 0)] }

/-- A sample application state. -/
def app : NavApp :=
  { settings := []
    clipboard := ""
    route := ["EDDF", "LIRF"]
    speedKts := 120
    hasSidStarInDatabase := true
    overrideCursor := []
    helpUrls := [] }

/-- Sample widgets as `setupUi` may leave them. -/
def setupUi : Ui :=
  { plainTextEditRouteString := ""
    textEditRouteStringErrors := []
    pushButtonRouteStringRead := true
    pushButtonRouteStringUpdate := true
    pushButtonRouteStringToClipboard := true
    pushButtonRouteStringFromClipboard := true
    buttonBoxRouteString :=
      { ok := { ptr := 1, text := "OK", enabled := true }
        cancel := { ptr := 2, text := "Cancel", enabled := true }
        help := { ptr := 3, text := "Help", enabled := true } }
    toolButtonRouteStringOptions := []
    splitterRouteString := [300] }

/-- A sample dialog in a sample application. -/
def sys : Sys :=
  RouteStringDialog.ctor env app setupUi (rs.RouteStringOptions.ofInt 5) 0

/-- The sample dialog with a menu of two actions, the first one checked. -/
def menuSys : Sys :=
  { sys with dlg := { sys.dlg with ui := { sys.dlg.ui with
      toolButtonRouteStringOptions :=
        [{ text := "Add departure and destination airport", checkable := true, data := 2,
           checked := true },
         { text := "Add DCT (direct) instructions", checkable := true, data := 1,
           checked := false }] } } }

/-- The sample dialog with a route text in the editor. -/
def routeSys : Sys :=
  { sys with dlg := { sys.dlg with ui := { sys.dlg.ui with
      plainTextEditRouteString := "EDDF" } } }

/-- The sample environment with a parser that fails and says nothing. -/
def silentEnv : Env :=
  { env with
    createRouteFromString := fun rstr _ fp speed =>
      { success := false, routeString := { rstr with messages := [] }, flightplan := fp,
        speedKts := speed } }

end Example

/-! ## The HTML information builder -/

namespace atools.util

/-- The text attributes `atools::util::html::Flags`. -/
structure Flags where
  bold : Bool
  italic : Bool
  strikeout : Bool
  big : Bool
deriving DecidableEq

/-- The value `atools::util::html::NONE`. -/
def Flags.NONE : Flags := ⟨false, false, false, false⟩

/-- The value `atools::util::html::BOLD`. -/
def Flags.BOLD : Flags := ⟨true, false, false, false⟩

/-- One call of a method of `HtmlBuilder`, with its arguments. -/
inductive HtmlCall where
  | img (src alt style : String) (width height : Int)
  | nbsp
  | text (str : String) (flags : Flags)
  | table
  | tableEnd
  | row2 (name value : String)
  | row2Int (name : String) (value : Int)
  | h3 (str : String) (flags : Flags)
  | h4 (str : String) (flags : Flags)
  | b (str : String)
  | br
  | brText (str : String)
  | tr (color : Option String)
  | trEnd
  | td (str : String) (flags : Flags)
deriving DecidableEq

/-- The builder `HtmlBuilder`, as the sequence of the calls made on it, oldest
first. -/
abbrev HtmlBuilder := List HtmlCall

end atools.util

open atools.util

namespace atools.sql

/-- A record of a query result (`atools::sql::SqlRecord`) with the answers of
its accessors by column name. -/
structure SqlRecord where
  contains : String → Bool
  isNull : String → Bool
  valueInt : String → Int
  valueFloat : String → ℚ
  valueStr : String → String
  valueBool : String → Bool

/-- The type `SqlRecordVector`. -/
abbrev SqlRecordVector := List SqlRecord

end atools.sql

open atools.sql

namespace atools.geo

/-- A position (`atools::geo::Pos`). -/
structure Pos where
  lonx : ℚ
  laty : ℚ
  altitude : ℚ
deriving DecidableEq

end atools.geo

open atools.geo

namespace maptypes

/-- The airport `maptypes::MapAirport`: its fields, the answers of its test
methods and of `flags.testFlag` for the flags the builder asks for. -/
structure MapAirport where
  id : Int
  name : String
  ident : String
  routeIndex : Int
  magvar : ℚ
  position : Pos
  longestRunwayLength : Int
  towerFrequency : Int
  atisFrequency : Int
  awosFrequency : Int
  asosFrequency : Int
  unicomFrequency : Int
  closed : Bool
  addon : Bool
  apron : Bool
  taxiway : Bool
  towerObject : Bool
  parking : Bool
  helipad : Bool
  vasi : Bool
  als : Bool
  fence : Bool
  hard : Bool
  soft : Bool
  water : Bool
  closedRunways : Bool
  AP_MIL : Bool
  AP_AVGAS : Bool
  AP_JETFUEL : Bool
  AP_APPR : Bool
  AP_ILS : Bool
  AP_LIGHT : Bool

/-- The navaid `maptypes::MapVor`. -/
structure MapVor where
  id : Int
  name : String
  ident : String
  region : String
  type : String
  routeIndex : Int
  frequency : Int
  magvar : ℚ
  range : Int
  dmeOnly : Bool
  position : Pos

/-- The navaid `maptypes::MapNdb`. -/
structure MapNdb where
  id : Int
  name : String
  ident : String
  region : String
  type : String
  routeIndex : Int
  frequency : Int
  magvar : ℚ
  range : Int
  position : Pos

/-- The waypoint `maptypes::MapWaypoint`. -/
structure MapWaypoint where
  id : Int
  ident : String
  region : String
  type : String
  routeIndex : Int
  magvar : ℚ
  position : Pos

/-- The airway `maptypes::MapAirway`. -/
structure MapAirway where
  name : String
  type : Int
  minalt : Int
  fragment : Int

/-- The marker `maptypes::MapMarker`. -/
structure MapMarker where
  type : String

/-- The parking spot `maptypes::MapParking`. -/
structure MapParking where
  type : String
  name : String
  number : Int
  radius : Int
  jetway : Bool
  airlineCodes : String

/-- The helipad `maptypes::MapHelipad`. -/
structure MapHelipad where
  surface : String
  type : String
  width : Int
  closed : Bool

/-- The flight plan point `maptypes::MapUserpoint`. -/
structure MapUserpoint where
  name : String

end maptypes

open maptypes

/-- A time of day (`QTime`), in seconds since midnight. -/
structure QTime where
  secs : Int
deriving DecidableEq

/-- A date and time (`QDateTime`): seconds on its own clock and the
abbreviation of its time zone. -/
structure QDateTime where
  secs : Int
  timeZoneAbbreviation : String
deriving DecidableEq

/-- Embeds `QDateTime::addSecs`. -/
def QDateTime.addSecs (d : QDateTime) (s : Int) : QDateTime :=
  { d with secs := d.secs + s }

/-- Embeds `QDateTime::time`. -/
def QDateTime.time (d : QDateTime) : QTime :=
  ⟨d.secs % 86400⟩

/-- The conversion `static_cast<int>(x)` of a `float`: the fraction is cut off. -/
def truncToInt (x : ℚ) : Int :=
  if 0 ≤ x then Rat.floor x else -Rat.floor (-x)

namespace atools.fs.sc

/-- The simulator data `atools::fs::sc::SimConnectData`: the answers of its
getters and of the tests of its flags. -/
structure SimConnectData where
  airplaneTitle : String
  airplaneAirline : String
  airplaneFlightnumber : String
  airplaneModel : String
  airplaneReg : String
  airplaneType : String
  airplaneMaxGrossWeightLbs : ℚ
  airplaneTotalWeightLbs : ℚ
  airplaneEmptyWeightLbs : ℚ
  fuelTotalWeightLbs : ℚ
  fuelTotalQuantityGallons : ℚ
  position : Pos
  localTime : QDateTime
  zuluTime : QDateTime
  groundSpeedKts : ℚ
  headingDegMag : ℚ
  headingDegTrue : ℚ
  trackDegMag : ℚ
  trackDegTrue : ℚ
  fuelFlowPPH : ℚ
  fuelFlowGPH : ℚ
  pitotIcePercent : ℚ
  structuralIcePercent : ℚ
  indicatedAltitudeFt : ℚ
  altitudeAboveGroundFt : ℚ
  groundAltitudeFt : ℚ
  indicatedSpeedKts : ℚ
  trueSpeedKts : ℚ
  machSpeed : ℚ
  verticalSpeedFeetPerMin : ℚ
  windSpeedKts : ℚ
  windDirectionDegT : ℚ
  magVarDeg : ℚ
  totalAirTemperatureCelsius : ℚ
  ambientTemperatureCelsius : ℚ
  seaLevelPressureMbar : ℚ
  ambientVisibilityMeter : ℚ
  ON_GROUND : Bool
  IN_RAIN : Bool
  IN_SNOW : Bool

end atools.fs.sc

open atools.fs.sc

/-- One leg of the route (`RouteMapObject`): the answers of its getters. -/
structure RouteMapObject where
  position : Pos
  magvar : ℚ
  ident : String
  mapObjectTypeName : String
  courseToRhumb : ℚ

/-- The values `RouteMapObjectList::getRouteDistances` returns and leaves in the
variables it is given, which `aircraftProgressText` has set to zero before
(the index of the nearest leg has no value before the call). -/
structure RouteDistances where
  found : Bool
  distFromStartNm : ℚ
  distToDestNm : ℚ
  nearestLegDistance : ℚ
  crossTrackDistance : ℚ
  nearestLegIndex : Int

/-- The route `RouteMapObjectList`. -/
structure RouteMapObjectList where
  objects : List RouteMapObject
  getRouteDistances : Pos → RouteDistances

/-- Embeds `RouteMapObjectList::size`. -/
def RouteMapObjectList.size (l : RouteMapObjectList) : Int :=
  l.objects.length

/-- Embeds `RouteMapObjectList::isEmpty`. -/
def RouteMapObjectList.isEmpty (l : RouteMapObjectList) : Bool :=
  l.objects.isEmpty

/-- Embeds `RouteMapObjectList::at`: no object for an index out of range. -/
def RouteMapObjectList.at (l : RouteMapObjectList) (i : Int) : Option RouteMapObject :=
  if 0 ≤ i then l.objects.get? i.toNat else none

/-- The database queries of `InfoQuery`: the answers by argument. A null
pointer as answer is `none`. -/
structure InfoQuery where
  getAirportInformation : Int → Option SqlRecord
  getComInformation : Int → Option SqlRecordVector
  getRunwayInformation : Int → Option SqlRecordVector
  getRunwayEndInformation : Int → Option SqlRecord
  getIlsInformation : Int → Option SqlRecord
  getApproachInformation : Int → Option SqlRecordVector
  getTransitionInformation : Int → Option SqlRecordVector
  getVorInformation : Int → Option SqlRecord
  getNdbInformation : Int → Option SqlRecord
  getWaypointInformation : Int → Option SqlRecord
  getAirwayWaypointInformation : String → Int → SqlRecordVector

/-- The database queries of `MapQuery`: the answers by argument. The answer of
`getAirportAdminById` is city, state and country. -/
structure MapQuery where
  getAirportAdminById : Int → String × String × String
  getAirwaysForWaypoint : Int → List MapAirway

/-- The weather sources of `WeatherReporter`: the answers by airport. -/
structure WeatherReporter where
  hasAsnWeather : Bool
  getAsnMetar : String → String
  getNoaaMetar : String → String
  getVatsimMetar : String → String

/-- The number and date formats of a `QLocale`; numbers with a precision are in
format `f`, dates and times in `QLocale::ShortFormat`. -/
structure QLocale where
  toStringInt : Int → String
  toStringFloat : ℚ → Nat → String
  toStringDateTime : QDateTime → String
  toStringTime : QTime → String

/-- The encoder `atools::util::MorseCode` with its two separators. -/
structure MorseCode where
  signSeparator : String
  charSeparator : String
deriving DecidableEq

/-- The constant `SYMBOL_SIZE`. -/
def SYMBOL_SIZE : Int := 20

/-- The values of the enumeration `atools::fs::bgl::rw::RunwayMarkings` that
`runwayText` tests. -/
structure RunwayMarkings where
  EDGES : Nat
  THRESHOLD : Nat
  FIXED_DISTANCE : Nat
  TOUCHDOWN : Nat
  DASHES : Nat
  IDENT : Nat
  PRECISION : Nat
  EDGE_PAVEMENT : Nat
  SINGLE_END : Nat
  ALTERNATE_THRESHOLD : Nat
  ALTERNATE_FIXEDDISTANCE : Nat
  ALTERNATE_TOUCHDOWN : Nat
  ALTERNATE_PRECISION : Nat
  LEADING_ZERO_IDENT : Nat
  NO_THRESHOLD_END_ARROWS : Nat
deriving DecidableEq

/-- The flag word `RunwayMarkingFlags` (a `QFlags` over a 32 bit integer) built
from an `int`. -/
def RunwayMarkingFlags (v : Int) : Nat :=
  (v % 2 ^ 32).toNat

/-- The test `flags & marking` of a flag word, as a `bool`. -/
def testMarking (flags marking : Nat) : Bool :=
  (flags &&& (marking % 2 ^ 32)) != 0

/-- Functions and constants of other files that the builder calls. -/
structure HtmlEnv where
  createAirportIcon : String → MapAirport → Int → String
  createVorIcon : String → MapVor → Int → String
  createNdbIcon : String → MapNdb → Int → String
  createWaypointIcon : String → MapWaypoint → Int → String
  getEncodedImageHref : String → Int → Int → String
  getCode : MorseCode → String → String
  magvarText : ℚ → String
  surfaceName : String → String
  comTypeName : String → String
  navTypeName : String → String
  vorType : MapVor → String
  airwayTypeToString : Int → String
  parkingName : String → String
  parkingTypeName : String → String
  parkingRampName : String → String
  ratingString : Int → Int → String
  capString : String → String
  capNavString : String → String
  formatMinutesHoursLong : ℚ → String
  normalizeCourse : ℚ → ℚ
  opposedCourseDeg : ℚ → ℚ
  toRadians : ℚ → ℚ
  cos : ℚ → ℚ
  sin : ℚ → ℚ
  degCToDegF : ℚ → ℚ
  mbarToInHg : ℚ → ℚ
  meterToNm : ℚ → ℚ
  roundToPrecision : ℚ → Int → Int
  angleDegToRhumb : Pos → Pos → ℚ
  toHumanReadableString : Pos → String
  INVALID_DISTANCE_VALUE : ℚ
  rw : RunwayMarkings
  defaultLocale : QLocale

/-- The fields of the class `HtmlInfoBuilder`. -/
structure HtmlInfoBuilder where
  mapQuery : MapQuery
  infoQuery : Option InfoQuery
  info : Bool
  morse : MorseCode
  aircraftEncodedIcon : String
  aircraftGroundEncodedIcon : String
  locale : QLocale

/-- What a method that dereferences a null pointer or reads a list outside its
bounds runs into. -/
inductive Fault where
  | nullPointer
  | outOfRange
deriving DecidableEq

/-- The objects a method of the builder works on: the builder itself and the
`HtmlBuilder` it is handed by reference. -/
structure Ctx where
  self : HtmlInfoBuilder
  html : HtmlBuilder

/-- A method of the builder: it reads and writes the two objects and returns
a value, unless it runs into a fault. -/
abbrev Method := StateT Ctx (Except Fault)

namespace HtmlInfoBuilder

/-- One call on the `HtmlBuilder`. -/
def call (c : HtmlCall) : Method Unit :=
  modify fun s => { s with html := s.html ++ [c] }

/-- The fields of the builder as the method finds them. -/
def this : Method HtmlInfoBuilder :=
  fun s => pure (s.self, s)

/-- The constructor `HtmlInfoBuilder::HtmlInfoBuilder`. -/
def ctor (env : HtmlEnv) (mapDbQuery : MapQuery) (infoDbQuery : Option InfoQuery)
    (formatInfo : Bool) : HtmlInfoBuilder :=
  { mapQuery := mapDbQuery
    infoQuery := infoDbQuery
    info := formatInfo
    morse := { signSeparator := "&nbsp;", charSeparator := "&nbsp;&nbsp;&nbsp;" }
    aircraftEncodedIcon :=
      env.getEncodedImageHref ":/littlenavmap/resources/icons/aircraft.svg" 24 24
    aircraftGroundEncodedIcon :=
      env.getEncodedImageHref ":/littlenavmap/resources/icons/aircraftground.svg" 24 24
    locale := env.defaultLocale }

/-- The use `p->` of a pointer: a fault when the pointer is null. -/
def deref {α : Type} (p : Option α) : Method α :=
  match p with
  | some a => pure a
  | none => throw Fault.nullPointer

/-- The value `atools::util::html::STRIKEOUT` when `b` holds, `NONE` otherwise. -/
def strikeoutIf (b : Bool) : Flags :=
  if b then { Flags.NONE with strikeout := true } else Flags.NONE

/-- Embeds `HtmlInfoBuilder::head`. -/
def head (text : String) : Method Unit := do
  let self ← this
  (if self.info then call (.h4 text Flags.NONE) else call (.b text))

/-- Embeds `HtmlInfoBuilder::title`. -/
def title (text : String) : Method Unit := do
  let self ← this
  (if self.info then call (.text text { Flags.BOLD with big := true }) else call (.b text))

/-- Embeds `HtmlInfoBuilder::airportTitle`. -/
def airportTitle (env : HtmlEnv) (airport : MapAirport) (background : String) :
    Method Unit := do
  call (.img (env.createAirportIcon background airport SYMBOL_SIZE) "" "" SYMBOL_SIZE SYMBOL_SIZE)
  call .nbsp
  call .nbsp
  let titleFlags := Flags.BOLD
  let titleFlags := if airport.closed then { titleFlags with strikeout := true } else titleFlags
  let titleFlags := if airport.addon then { titleFlags with italic := true } else titleFlags
  let self ← this
  (if self.info then
    call (.text (airport.name ++ " (" ++ airport.ident ++ ")") { titleFlags with big := true })
  else
    call (.text (airport.name ++ " (" ++ airport.ident ++ ")") titleFlags))

/-- Embeds `HtmlInfoBuilder::addScenery`. -/
def addScenery (rec : SqlRecord) : Method Unit := do
  head "Scenery"
  call .table
  call (.row2 "Title:" (rec.valueStr "title"))
  call (.row2 "BGL Filepath:" (rec.valueStr "filepath"))
  call .tableEnd

/-- Embeds `HtmlInfoBuilder::addCoordinates`. -/
def addCoordinates (env : HtmlEnv) (rec : Option SqlRecord) : Method Unit :=
  match rec with
  | some rec =>
    call (.row2 "Coordinates:" (env.toHumanReadableString
      ⟨rec.valueFloat "lonx", rec.valueFloat "laty",
        if rec.contains "altitude" then rec.valueFloat "altitude" else 0⟩))
  | none => pure ()

/-- Embeds `HtmlInfoBuilder::rowForFloat`. -/
def rowForFloat (rec : SqlRecord) (colName msg val : String) (precision : Nat) :
    Method Unit := do
  let self ← this
  (if !rec.isNull colName then
    (if rec.valueFloat colName > 0 then
      call (.row2 msg (QString.arg val (self.locale.toStringFloat (rec.valueFloat colName)
        precision)))
    else pure ())
  else pure ())

/-- Embeds `HtmlInfoBuilder::rowForInt`. -/
def rowForInt (rec : SqlRecord) (colName msg val : String) : Method Unit := do
  let self ← this
  (if !rec.isNull colName then
    (if rec.valueInt colName > 0 then
      call (.row2 msg (QString.arg val (self.locale.toStringInt (rec.valueInt colName))))
    else pure ())
  else pure ())

/-- Embeds `HtmlInfoBuilder::rowForBool`. -/
def rowForBool (rec : SqlRecord) (colName msg : String) (expected : Bool) : Method Unit :=
  if !rec.isNull colName then
    (if rec.valueBool colName != expected then call (.row2 msg "") else pure ())
  else pure ()

/-- Embeds `HtmlInfoBuilder::rowForStr`. -/
def rowForStr (rec : SqlRecord) (colName msg val : String) : Method Unit :=
  if !rec.isNull colName then
    (if !(rec.valueStr colName).isEmpty then
      call (.row2 msg (QString.arg val (rec.valueStr colName)))
    else pure ())
  else pure ()

/-- Embeds `HtmlInfoBuilder::rowForStrCap`. -/
def rowForStrCap (env : HtmlEnv) (rec : SqlRecord) (colName msg val : String) : Method Unit :=
  if !rec.isNull colName then
    (if !(rec.valueStr colName).isEmpty then
      call (.row2 msg (QString.arg val (env.capString (rec.valueStr colName))))
    else pure ())
  else pure ()

/-- The list `facilities` of `airportText` before the test for emptiness. -/
def facilitiesList (airport : MapAirport) : List String :=
  let facilities : List String := []
  let facilities := if airport.closed then facilities ++ ["Closed"] else facilities
  let facilities := if airport.addon then facilities ++ ["Add-on"] else facilities
  let facilities := if airport.AP_MIL then facilities ++ ["Military"] else facilities
  let facilities := if airport.apron then facilities ++ ["Aprons"] else facilities
  let facilities := if airport.taxiway then facilities ++ ["Taxiways"] else facilities
  let facilities := if airport.towerObject then facilities ++ ["Tower Object"] else facilities
  let facilities := if airport.parking then facilities ++ ["Parking"] else facilities
  let facilities := if airport.helipad then facilities ++ ["Helipads"] else facilities
  let facilities := if airport.AP_AVGAS then facilities ++ ["Avgas"] else facilities
  let facilities := if airport.AP_JETFUEL then facilities ++ ["Jetfuel"] else facilities
  let facilities := if airport.AP_APPR then facilities ++ ["Approaches"] else facilities
  let facilities := if airport.AP_ILS then facilities ++ ["ILS"] else facilities
  let facilities := if airport.vasi then facilities ++ ["VASI"] else facilities
  let facilities := if airport.als then facilities ++ ["ALS"] else facilities
  if airport.fence then facilities ++ ["Boundary Fence"] else facilities

/-- The list `runways` of `airportText`. -/
def runwaysList (airport : MapAirport) : List String :=
  let runways : List String := []
  let runways := if airport.hard then runways ++ ["Hard"] else runways
  let runways := if airport.soft then runways ++ ["Soft"] else runways
  let runways := if airport.water then runways ++ ["Water"] else runways
  let runways := if airport.closedRunways then runways ++ ["Closed"] else runways
  if airport.AP_LIGHT then runways ++ ["Lighted"] else runways

/-- The three weather sources of a `WeatherReporter`. -/
inductive WeatherSource where
  | asn
  | noaa
  | vatsim
  deriving DecidableEq, Repr

/-- The locals `asnMetar`, `noaaMetar` and `vatsimMetar` of `airportText`,
together with the calls of `getAsnMetar`, `getNoaaMetar` and `getVatsimMetar`
made on the weather reporter so far, in their order. -/
structure MetarLocals where
  asnMetar : String
  noaaMetar : String
  vatsimMetar : String
  calls : List WeatherSource
deriving DecidableEq

/-- The statements of `airportText` that fill the three METAR locals from a
weather reporter that is not null: a local is assigned where the code calls the
source, and the call is recorded with it. -/
def metarLocals (info : Bool) (airport : MapAirport) (weather : WeatherReporter) :
    MetarLocals :=
  let m : MetarLocals := { asnMetar := "", noaaMetar := "", vatsimMetar := "", calls := [] }
  let m :=
    if weather.hasAsnWeather then
      { m with asnMetar := weather.getAsnMetar airport.ident,
               calls := m.calls ++ [WeatherSource.asn] }
    else m
  if !weather.hasAsnWeather || info then
    let m := { m with noaaMetar := weather.getNoaaMetar airport.ident,
                      calls := m.calls ++ [WeatherSource.noaa] }
    if m.noaaMetar.isEmpty || info then
      { m with vatsimMetar := weather.getVatsimMetar airport.ident,
               calls := m.calls ++ [WeatherSource.vatsim] }
    else m
  else m

/-- The weather section of `airportText`, for a weather reporter that is not
null. -/
def airportWeather (airport : MapAirport) (weather : WeatherReporter) : Method Unit := do
  let metars := metarLocals (← this).info airport weather
  let asnMetar := metars.asnMetar
  let noaaMetar := metars.noaaMetar
  let vatsimMetar := metars.vatsimMetar
  (if !asnMetar.isEmpty || !noaaMetar.isEmpty || !vatsimMetar.isEmpty then do
    (if (← this).info then head "Weather" else pure ())
    call .table
    (if !asnMetar.isEmpty then do
      call (.row2 ("ASN" ++ (if (← this).info then ":" else " Metar:")) asnMetar)
    else pure ())
    (if !noaaMetar.isEmpty then do
      call (.row2 ("NOAA" ++ (if (← this).info then ":" else " Metar:")) noaaMetar)
    else pure ())
    (if !vatsimMetar.isEmpty then do
      call (.row2 ("Vatsim" ++ (if (← this).info then ":" else " Metar:")) vatsimMetar)
    else pure ())
    call .tableEnd
  else pure ())

/-- The rows of the parking section of `airportText` when the airport has
parking. -/
def airportParkingRows (env : HtmlEnv) (rec : SqlRecord) : Method Unit := do
  (if rec.valueInt "num_parking_gate" > 0 then
    call (.row2Int "Gates:" (rec.valueInt "num_parking_gate")) else pure ())
  (if rec.valueInt "num_jetway" > 0 then
    call (.row2Int "Jetways:" (rec.valueInt "num_jetway")) else pure ())
  (if rec.valueInt "num_parking_ga_ramp" > 0 then
    call (.row2Int "GA Ramp:" (rec.valueInt "num_parking_ga_ramp")) else pure ())
  (if rec.valueInt "num_parking_cargo" > 0 then
    call (.row2Int "Cargo:" (rec.valueInt "num_parking_cargo")) else pure ())
  (if rec.valueInt "num_parking_mil_cargo" > 0 then
    call (.row2Int "Military Cargo:" (rec.valueInt "num_parking_mil_cargo")) else pure ())
  (if rec.valueInt "num_parking_mil_combat" > 0 then
    call (.row2Int "Military Combat:" (rec.valueInt "num_parking_mil_combat")) else pure ())
  (if !rec.isNull "largest_parking_ramp" then
    call (.row2 "Largest Ramp:" (env.parkingRampName (rec.valueStr "largest_parking_ramp")))
  else pure ())
  (if !rec.isNull "largest_parking_gate" then
    call (.row2 "Largest Gate:" (env.parkingRampName (rec.valueStr "largest_parking_gate")))
  else pure ())
  (if rec.valueInt "num_helipad" > 0 then
    call (.row2Int "Helipads:" (rec.valueInt "num_helipad")) else pure ())

/-- The parking section of `airportText`, for a record that is not null. -/
def airportParking (env : HtmlEnv) (rec : SqlRecord) : Method Unit := do
  (if (← this).info then head "Parking" else pure ())
  call .table
  (if rec.valueInt "num_parking_gate" > 0 || rec.valueInt "num_jetway" > 0 ||
      rec.valueInt "num_parking_ga_ramp" > 0 || rec.valueInt "num_parking_cargo" > 0 ||
      rec.valueInt "num_parking_mil_cargo" > 0 || rec.valueInt "num_parking_mil_combat" > 0 ||
      !rec.isNull "largest_parking_ramp" || !rec.isNull "largest_parking_gate" then
    airportParkingRows env rec
  else
    call (.row2 "" "None"))
  call .tableEnd

/-- Embeds `HtmlInfoBuilder::airportText`. -/
def airportText (env : HtmlEnv) (airport : MapAirport)
    (routeMapObjects : Option RouteMapObjectList) (weather : Option WeatherReporter)
    (background : String) : Method Unit := do
  let self ← this
  let record : Option SqlRecord :=
    if self.info then
      (match self.infoQuery with
      | some infoQuery => infoQuery.getAirportInformation airport.id
      | none => none)
    else none
  airportTitle env airport background
  let admin := (← this).mapQuery.getAirportAdminById airport.id
  let city := admin.1
  let state := admin.2.1
  let country := admin.2.2
  call .table
  (match routeMapObjects with
  | some routeMapObjects =>
    (if airport.routeIndex != -1 then
      (if airport.routeIndex == 0 then call (.row2 "Departure Airport" "")
      else if airport.routeIndex == int32 (routeMapObjects.size - 1) then
        call (.row2 "Destination Airport" "")
      else do
        call (.row2 "Flight Plan position:"
          ((← this).locale.toStringInt (int32 (airport.routeIndex + 1)))))
    else pure ())
  | none => pure ())
  call (.row2 "City:" city)
  (if !state.isEmpty then call (.row2 "State or Province:" state) else pure ())
  call (.row2 "Country:" country)
  call (.row2 "Altitude:" ((← this).locale.toStringFloat airport.position.altitude 0 ++ " ft"))
  call (.row2 "Magvar:" (env.magvarText airport.magvar))
  (match record with
  | some rec => do
    call (.row2 "Rating:" (env.ratingString (rec.valueInt "rating") 5))
    addCoordinates env (some rec)
  | none => pure ())
  call .tableEnd
  (if (← this).info then head "Facilities" else pure ())
  call .table
  let facilities := facilitiesList airport
  let facilities := if facilities.isEmpty then facilities ++ ["None"] else facilities
  call (.row2 (if (← this).info then "" else "Facilities:") (QStringList.join facilities ", "))
  call .tableEnd
  (if (← this).info then head "Runways" else pure ())
  call .table
  let runways := runwaysList airport
  call (.row2 (if (← this).info then "" else "Runways:") (QStringList.join runways ", "))
  call .tableEnd
  (if !(← this).info then do
    call .table
    call (.row2 "Longest Runway Length:"
      ((← this).locale.toStringInt airport.longestRunwayLength ++ " ft"))
    call .tableEnd
  else pure ())
  (match weather with
  | some weather => airportWeather airport weather
  | none => pure ())
  (if (← this).info then do
    head "Longest Runway"
    call .table
    call (.row2 "Length:" ((← this).locale.toStringInt airport.longestRunwayLength ++ " ft"))
    (match record with
    | some rec => do
      call (.row2 "Width:"
        ((← this).locale.toStringInt (rec.valueInt "longest_runway_width") ++ " ft"))
      let hdg := rec.valueFloat "longest_runway_heading" - airport.magvar
      let hdg := env.normalizeCourse hdg
      let otherHdg := env.normalizeCourse (env.opposedCourseDeg hdg)
      call (.row2 "Heading:" ((← this).locale.toStringFloat hdg 0 ++ "°M, " ++
        (← this).locale.toStringFloat otherHdg 0 ++ "°M"))
      call (.row2 "Surface:" (env.surfaceName (rec.valueStr "longest_runway_surface")))
    | none => pure ())
    call .tableEnd
  else pure ())
  (if airport.towerFrequency > 0 || airport.atisFrequency > 0 || airport.awosFrequency > 0 ||
      airport.asosFrequency > 0 || airport.unicomFrequency > 0 then do
    (if (← this).info then head "COM Frequencies" else pure ())
    call .table
    (if airport.towerFrequency > 0 then do
      call (.row2 "Tower:" ((← this).locale.toStringFloat ((airport.towerFrequency : ℚ) / 1000) 3))
    else pure ())
    (if airport.atisFrequency > 0 then do
      call (.row2 "ATIS:" ((← this).locale.toStringFloat ((airport.atisFrequency : ℚ) / 1000) 3))
    else pure ())
    (if airport.awosFrequency > 0 then do
      call (.row2 "AWOS:" ((← this).locale.toStringFloat ((airport.awosFrequency : ℚ) / 1000) 3))
    else pure ())
    (if airport.asosFrequency > 0 then do
      call (.row2 "ASOS:" ((← this).locale.toStringFloat ((airport.asosFrequency : ℚ) / 1000) 3))
    else pure ())
    (if airport.unicomFrequency > 0 then do
      call (.row2 "Unicom:"
        ((← this).locale.toStringFloat ((airport.unicomFrequency : ℚ) / 1000) 3))
    else pure ())
    call .tableEnd
  else pure ())
  (match record with
  | some rec => airportParking env rec
  | none => pure ())
  (match record with
  | some rec => addScenery rec
  | none => pure ())

/-- The body of the loop of `comText` over the records. -/
def comRow (env : HtmlEnv) (rec : SqlRecord) : Method Unit := do
  call (.tr none)
  call (.td (env.comTypeName (rec.valueStr "type")) Flags.NONE)
  call (.td ((← this).locale.toStringFloat ((rec.valueInt "frequency" : ℚ) / 1000) 3 ++ " MHz")
    Flags.NONE)
  (if rec.valueStr "type" != "ATIS" then
    call (.td (env.capString (rec.valueStr "name")) Flags.NONE)
  else
    call (.td (rec.valueStr "name") Flags.NONE))
  call .trEnd

/-- Embeds `HtmlInfoBuilder::comText`. -/
def comText (env : HtmlEnv) (airport : MapAirport) (background : String) : Method Unit := do
  let self ← this
  (if self.info then
    (match self.infoQuery with
    | some infoQuery => do
      airportTitle env airport background
      call (.h3 "COM Frequencies" Flags.NONE)
      (match infoQuery.getComInformation airport.id with
      | some recVector => do
        call .table
        call (.tr (some "lightGray"))
        call (.td "Type" Flags.BOLD)
        call (.td "Frequency" Flags.BOLD)
        call (.td "Name" Flags.BOLD)
        call .trEnd
        recVector.forM (comRow env)
        call .tableEnd
      | none => call (.text "None" Flags.NONE))
    | none => pure ())
  else pure ())

/-- The list `markings` of `runwayText` before the test for emptiness. -/
def markingsList (env : HtmlEnv) (flags : Nat) : List String :=
  let markings : List String := []
  let markings := if testMarking flags env.rw.EDGES then markings ++ ["Edges"] else markings
  let markings :=
    if testMarking flags env.rw.THRESHOLD then markings ++ ["Threshold"] else markings
  let markings :=
    if testMarking flags env.rw.FIXED_DISTANCE then markings ++ ["Fixed Distance"] else markings
  let markings :=
    if testMarking flags env.rw.TOUCHDOWN then markings ++ ["Touchdown"] else markings
  let markings := if testMarking flags env.rw.DASHES then markings ++ ["Dashes"] else markings
  let markings := if testMarking flags env.rw.IDENT then markings ++ ["Ident"] else markings
  let markings :=
    if testMarking flags env.rw.PRECISION then markings ++ ["Precision"] else markings
  let markings :=
    if testMarking flags env.rw.EDGE_PAVEMENT then markings ++ ["Edge Pavement"] else markings
  let markings :=
    if testMarking flags env.rw.SINGLE_END then markings ++ ["Single End"] else markings
  let markings :=
    if testMarking flags env.rw.ALTERNATE_THRESHOLD then markings ++ ["Alternate Threshold"]
    else markings
  let markings :=
    if testMarking flags env.rw.ALTERNATE_FIXEDDISTANCE then
      markings ++ ["Alternate Fixed Distance"]
    else markings
  let markings :=
    if testMarking flags env.rw.ALTERNATE_TOUCHDOWN then markings ++ ["Alternate Touchdown"]
    else markings
  let markings :=
    if testMarking flags env.rw.ALTERNATE_PRECISION then markings ++ ["Alternate Precision"]
    else markings
  let markings :=
    if testMarking flags env.rw.LEADING_ZERO_IDENT then markings ++ ["Leading Zero Ident"]
    else markings
  if testMarking flags env.rw.NO_THRESHOLD_END_ARROWS then
    markings ++ ["No Threshold End Arrows"]
  else markings

/-- The list `lights` of `runwayEndText`. -/
def lightsList (rec : SqlRecord) : List String :=
  let lights : List String := []
  let lights := if rec.valueBool "has_end_lights" then lights ++ ["Lights"] else lights
  let lights := if rec.valueBool "has_reils" then lights ++ ["Strobes"] else lights
  if rec.valueBool "has_touchdown_lights" then lights ++ ["Touchdown"] else lights

/-- The section of `runwayEndText` for an ILS record that is not null. -/
def runwayEndIls (env : HtmlEnv) (ilsRec : SqlRecord) : Method Unit := do
  let dme := !ilsRec.isNull "dme_altitude"
  let gs := !ilsRec.isNull "gs_altitude"
  call .br
  call (.h4 (ilsRec.valueStr "name" ++ " (" ++ ilsRec.valueStr "ident" ++ ") - " ++
    "ILS" ++ (if gs then ", GS" else "") ++ (if dme then ", DME" else "")) Flags.NONE)
  call .table
  call (.row2 "Frequency:"
    ((← this).locale.toStringFloat (ilsRec.valueFloat "frequency" / 1000) 2 ++ " MHz"))
  call (.row2 "Range:" ((← this).locale.toStringInt (ilsRec.valueInt "range") ++ " nm"))
  let magvar := ilsRec.valueFloat "mag_var"
  call (.row2 "Magvar:" (env.magvarText magvar))
  rowForBool ilsRec "has_backcourse" "Has Backcourse" false
  let hdg := ilsRec.valueFloat "loc_heading" - magvar
  let hdg := env.normalizeCourse hdg
  call (.row2 "Localizer Heading:" ((← this).locale.toStringFloat hdg 0 ++ "°M"))
  call (.row2 "Localizer Width:"
    ((← this).locale.toStringFloat (ilsRec.valueFloat "loc_width") 0 ++ "°"))
  (if gs then do
    call (.row2 "Glideslope Pitch:"
      ((← this).locale.toStringFloat (ilsRec.valueFloat "gs_pitch") 1 ++ "°"))
  else pure ())
  call .tableEnd

/-- Embeds `HtmlInfoBuilder::runwayEndText`. -/
def runwayEndText (env : HtmlEnv) (rec : Option SqlRecord) (hdgPrim : ℚ) (length : Int) :
    Method Unit := do
  let rec ← deref rec
  let closed := rec.valueBool "has_closed_markings"
  call (.h3 (rec.valueStr "name") (strikeoutIf closed))
  call .table
  (if closed then call (.row2 "Closed" "") else pure ())
  call (.row2 "Heading:" ((← this).locale.toStringFloat hdgPrim 0 ++ "°M"))
  let threshold := rec.valueInt "offset_threshold"
  (if threshold > 0 then do
    call (.row2 "Offset Threshold:" (QString.argInt "%1 ft" threshold))
    call (.row2 "Effective Landing Distance:"
      (QString.argInt "%1 ft" (int32 (length - threshold))))
  else pure ())
  rowForInt rec "blast_pad" "Blast Pad:" "%1 ft"
  rowForInt rec "overrun" "Overrun:" "%1 ft"
  rowForBool rec "has_stol_markings" "Has STOL Markings" false
  rowForStrCap env rec "is_pattern" "Pattern:" "%1"
  rowForStr rec "left_vasi_type" "Left VASI Type:" "%1"
  rowForFloat rec "left_vasi_pitch" "Left VASI Pitch:" "%1°" 1
  rowForStr rec "right_vasi_type" "Right VASI Type:" "%1"
  rowForFloat rec "right_vasi_pitch" "Right VASI Pitch:" "%1°" 1
  rowForStr rec "app_light_system_type" "ALS Type:" "%1"
  let lights := lightsList rec
  (if !lights.isEmpty then call (.row2 "Runway End Lights:" (QStringList.join lights ", "))
  else pure ())
  call .tableEnd
  let infoQuery ← deref (← this).infoQuery
  (match infoQuery.getIlsInformation (rec.valueInt "runway_end_id") with
  | some ilsRec => runwayEndIls env ilsRec
  | none => pure ())

/-- The body of the loop of `runwayText` over the runway records. -/
def runwayRow (env : HtmlEnv) (airport : MapAirport) (infoQuery : InfoQuery)
    (rec : SqlRecord) : Method Unit := do
  let recPrim := infoQuery.getRunwayEndInformation (rec.valueInt "primary_end_id")
  let recSec := infoQuery.getRunwayEndInformation (rec.valueInt "secondary_end_id")
  let hdgPrim := env.normalizeCourse (rec.valueFloat "heading" - airport.magvar)
  let hdgSec := env.normalizeCourse (env.opposedCourseDeg hdgPrim)
  let closedPrim := (← deref recPrim).valueBool "has_closed_markings"
  let closedSec := (← deref recSec).valueBool "has_closed_markings"
  call (.h3 ("Runway " ++ (← deref recPrim).valueStr "name" ++ ", " ++
    (← deref recSec).valueStr "name") (strikeoutIf (closedPrim && closedSec)))
  call .table
  let length := rec.valueInt "length"
  call (.row2 "Size:" ((← this).locale.toStringInt length ++ " x " ++
    (← this).locale.toStringInt (rec.valueInt "width") ++ " ft"))
  call (.row2 "Surface:" (env.surfaceName (rec.valueStr "surface")))
  call (.row2 "Pattern Altitude:"
    ((← this).locale.toStringInt (rec.valueInt "pattern_altitude") ++ " ft"))
  rowForStrCap env rec "edge_light" "Edge Lights:" "%1"
  rowForStrCap env rec "center_light" "Center Lights:" "%1"
  rowForBool rec "has_center_red" "Has red Center Lights" false
  let flags := RunwayMarkingFlags (rec.valueInt "marking_flags")
  let markings := markingsList env flags
  let markings := if markings.isEmpty then markings ++ ["None"] else markings
  call (.row2 "Runway Markings:" (QStringList.join markings ", "))
  call .tableEnd
  runwayEndText env recPrim hdgPrim length
  runwayEndText env recSec hdgSec length

/-- Embeds `HtmlInfoBuilder::runwayText`. -/
def runwayText (env : HtmlEnv) (airport : MapAirport) (background : String) : Method Unit := do
  let self ← this
  (if self.info then
    (match self.infoQuery with
    | some infoQuery => do
      airportTitle env airport background
      (match infoQuery.getRunwayInformation airport.id with
      | some recVector => recVector.forM (runwayRow env airport infoQuery)
      | none => pure ())
    | none => pure ())
  else pure ())

/-- The body of the loop of `approachText` over the transition records. -/
def transitionRow (env : HtmlEnv) (runway : String) (recTrans : SqlRecord) : Method Unit := do
  call (.h4 ("Transition " ++ recTrans.valueStr "fix_ident" ++ runway) Flags.NONE)
  call .table
  call (.row2 "Type:" (env.capNavString (recTrans.valueStr "type")))
  call (.row2 "Fix Ident and Region:" (recTrans.valueStr "fix_ident" ++ ", " ++
    recTrans.valueStr "fix_region"))
  call (.row2 "Fix Type:" (env.capNavString (recTrans.valueStr "fix_type")))
  call (.row2 "Altitude:"
    ((← this).locale.toStringFloat (recTrans.valueFloat "altitude") 0 ++ " ft"))
  (if !recTrans.isNull "dme_ident" then
    call (.row2 "DME Ident and Region:" (recTrans.valueStr "dme_ident" ++ ", " ++
      recTrans.valueStr "dme_region"))
  else pure ())
  rowForFloat recTrans "dme_radial" "DME Radial:" "%1" 0
  rowForFloat recTrans "dme_distance" "DME Distance:" "%1 nm" 0
  call .tableEnd

/-- The body of the loop of `approachText` over the approach records. -/
def approachRow (env : HtmlEnv) (airport : MapAirport) (infoQuery : InfoQuery)
    (recApp : SqlRecord) : Method Unit := do
  let runway :=
    if !recApp.isNull "runway_name" then " - Runway " ++ recApp.valueStr "runway_name" else ""
  call (.h4 ("Approach " ++ recApp.valueStr "type" ++ runway) Flags.NONE)
  call .table
  rowForBool recApp "has_gps_overlay" "Has GPS Overlay" false
  call (.row2 "Fix Ident and Region:" (recApp.valueStr "fix_ident" ++ ", " ++
    recApp.valueStr "fix_region"))
  call (.row2 "Fix Type:" (env.capNavString (recApp.valueStr "fix_type")))
  let hdg := recApp.valueFloat "heading" - airport.magvar
  let hdg := env.normalizeCourse hdg
  call (.row2 "Heading:" ((← this).locale.toStringFloat hdg 0 ++ "°M, " ++
    (← this).locale.toStringFloat (recApp.valueFloat "heading") 0 ++ "°T"))
  call (.row2 "Altitude:"
    ((← this).locale.toStringFloat (recApp.valueFloat "altitude") 0 ++ " ft"))
  call (.row2 "Missed Altitude:"
    ((← this).locale.toStringFloat (recApp.valueFloat "missed_altitude") 0 ++ " ft"))
  call .tableEnd
  (match infoQuery.getTransitionInformation (recApp.valueInt "approach_id") with
  | some recTransVector => recTransVector.forM (transitionRow env runway)
  | none => pure ())

/-- Embeds `HtmlInfoBuilder::approachText`. -/
def approachText (env : HtmlEnv) (airport : MapAirport) (background : String) :
    Method Unit := do
  let self ← this
  (if self.info then
    (match self.infoQuery with
    | some infoQuery => do
      airportTitle env airport background
      (match infoQuery.getApproachInformation airport.id with
      | some recAppVector => recAppVector.forM (approachRow env airport infoQuery)
      | none => pure ())
    | none => pure ())
  else pure ())

/-- The record a navaid method asks `InfoQuery` for: null unless the builder
formats for the information panel and has an `InfoQuery`. -/
def infoRecord (self : HtmlInfoBuilder) (query : InfoQuery → Option SqlRecord) :
    Option SqlRecord :=
  if self.info then
    (match self.infoQuery with
    | some infoQuery => query infoQuery
    | none => none)
  else none

/-- Embeds `HtmlInfoBuilder::vorText`. -/
def vorText (env : HtmlEnv) (vor : MapVor) (background : String) : Method Unit := do
  let record := infoRecord (← this) (fun infoQuery => infoQuery.getVorInformation vor.id)
  call (.img (env.createVorIcon background vor SYMBOL_SIZE) "" "" SYMBOL_SIZE SYMBOL_SIZE)
  call .nbsp
  call .nbsp
  let type := env.vorType vor
  title (type ++ ": " ++ env.capString vor.name ++ " (" ++ vor.ident ++ ")")
  call .table
  (if vor.routeIndex >= 0 then do
    call (.row2 "Flight Plan position:" ((← this).locale.toStringInt (int32 (vor.routeIndex + 1))))
  else pure ())
  call (.row2 "Type:" (env.navTypeName vor.type))
  call (.row2 "Region:" vor.region)
  call (.row2 "Frequency:"
    ((← this).locale.toStringFloat ((vor.frequency : ℚ) / 1000) 2 ++ " MHz"))
  (if !vor.dmeOnly then call (.row2 "Magvar:" (env.magvarText vor.magvar)) else pure ())
  call (.row2 "Altitude:" ((← this).locale.toStringFloat vor.position.altitude 0 ++ " ft"))
  call (.row2 "Range:" ((← this).locale.toStringInt vor.range ++ " nm"))
  call (.row2 "Morse:" ("<b>" ++ env.getCode (← this).morse vor.ident ++ "</b>"))
  addCoordinates env record
  call .tableEnd
  (match record with
  | some rec => addScenery rec
  | none => pure ())

/-- Embeds `HtmlInfoBuilder::ndbText`. -/
def ndbText (env : HtmlEnv) (ndb : MapNdb) (background : String) : Method Unit := do
  let record := infoRecord (← this) (fun infoQuery => infoQuery.getNdbInformation ndb.id)
  call (.img (env.createNdbIcon background ndb SYMBOL_SIZE) "" "" SYMBOL_SIZE SYMBOL_SIZE)
  call .nbsp
  call .nbsp
  title ("NDB: " ++ env.capString ndb.name ++ " (" ++ ndb.ident ++ ")")
  call .table
  (if ndb.routeIndex >= 0 then do
    call (.row2 "Flight Plan position " ((← this).locale.toStringInt (int32 (ndb.routeIndex + 1))))
  else pure ())
  call (.row2 "Type:" (env.navTypeName ndb.type))
  call (.row2 "Region:" ndb.region)
  call (.row2 "Frequency:"
    ((← this).locale.toStringFloat ((ndb.frequency : ℚ) / 100) 2 ++ " kHz"))
  call (.row2 "Magvar:" (env.magvarText ndb.magvar))
  call (.row2 "Altitude:" ((← this).locale.toStringFloat ndb.position.altitude 0 ++ " ft"))
  call (.row2 "Range:" ((← this).locale.toStringInt ndb.range ++ " nm"))
  call (.row2 "Morse:" ("<b>" ++ env.getCode (← this).morse ndb.ident ++ "</b>"))
  addCoordinates env record
  call .tableEnd
  (match record with
  | some rec => addScenery rec
  | none => pure ())

/-- Inserts `x` into a list sorted by `lt`, behind the elements that are not
greater. -/
def insertSorted {α : Type} (lt : α → α → Bool) (x : α) : List α → List α
  | [] => [x]
  | y :: ys => if lt x y then x :: y :: ys else y :: insertSorted lt x ys

/-- Embeds `std::sort` with the comparison `lt` for sequences of up to 16
entries, as the insertion sort that the library runs on them: entries that
compare equal keep their order. On longer sequences the library leaves the
order of such entries open, and the model does not follow it there. -/
def stdSort {α : Type} (lt : α → α → Bool) (l : List α) : List α :=
  l.foldl (fun sorted x => insertSorted lt x sorted) []

/-- Embeds `std::unique` with `erase`: of every run of equal neighbours the
first one stays. -/
def stdUnique {α : Type} [DecidableEq α] : List α → List α
  | [] => []
  | [x] => [x]
  | x :: y :: rest => if x = y then stdUnique (y :: rest) else x :: stdUnique (y :: rest)

/-- The pair of texts `waypointText` builds for an airway. -/
def airwayTextPair (env : HtmlEnv) (locale : QLocale) (aw : MapAirway) : String × String :=
  let txt := env.airwayTypeToString aw.type
  let txt := if aw.minalt > 0 then txt ++ ", " ++ locale.toStringInt aw.minalt ++ " ft" else txt
  (aw.name, txt)

/-- The vector `airwayTexts` of `waypointText` after `std::sort` and
`std::unique`. -/
def sortedAirwayTexts (env : HtmlEnv) (locale : QLocale) (airways : List MapAirway) :
    List (String × String) :=
  stdUnique (stdSort (fun item1 item2 => decide (item1.1 < item2.1))
    (airways.map (airwayTextPair env locale)))

/-- Embeds `HtmlInfoBuilder::waypointText`. -/
def waypointText (env : HtmlEnv) (waypoint : MapWaypoint) (background : String) :
    Method Unit := do
  let record := infoRecord (← this) (fun infoQuery => infoQuery.getWaypointInformation waypoint.id)
  call (.img (env.createWaypointIcon background waypoint SYMBOL_SIZE) "" "" SYMBOL_SIZE
    SYMBOL_SIZE)
  call .nbsp
  call .nbsp
  title ("Waypoint: " ++ waypoint.ident)
  call .table
  (if waypoint.routeIndex >= 0 then do
    call (.row2 "Flight Plan position:"
      ((← this).locale.toStringInt (int32 (waypoint.routeIndex + 1))))
  else pure ())
  call (.row2 "Type:" (env.navTypeName waypoint.type))
  call (.row2 "Region:" waypoint.region)
  call (.row2 "Magvar:" (env.magvarText waypoint.magvar))
  addCoordinates env record
  call .tableEnd
  let airways := (← this).mapQuery.getAirwaysForWaypoint waypoint.id
  (if !airways.isEmpty then do
    let airwayTexts := airways.map (airwayTextPair env (← this).locale)
    (if !airwayTexts.isEmpty then do
      let airwayTexts := sortedAirwayTexts env (← this).locale airways
      (if (← this).info then head "Airways:"
      else do
        call .br
        call (.b "Airways: "))
      call .table
      airwayTexts.forM (fun aw => call (.row2 aw.1 aw.2))
      call .tableEnd
    else pure ())
  else pure ())
  (match record with
  | some rec => addScenery rec
  | none => pure ())

/-- The list `waypointTexts` of `airwayText`, for records that are not empty:
a text for every record and one more for the last record. -/
def airwayWaypointTexts (waypoints : SqlRecordVector) : List String :=
  waypoints.map (fun wprec => wprec.valueStr "from_ident" ++ ", " ++
    wprec.valueStr "from_region") ++
  (match waypoints.getLast? with
  | some last => [last.valueStr "to_ident" ++ ", " ++ last.valueStr "to_region"]
  | none => [])

/-- Embeds `HtmlInfoBuilder::airwayText`. -/
def airwayText (env : HtmlEnv) (airway : MapAirway) : Method Unit := do
  title ("Airway: " ++ airway.name)
  call .table
  call (.row2 "Type:" (env.airwayTypeToString airway.type))
  (if airway.minalt > 0 then do
    call (.row2 "Min altitude:" ((← this).locale.toStringInt airway.minalt ++ " ft"))
  else pure ())
  let self ← this
  (match self.infoQuery with
  | some infoQuery =>
    (if self.info then
      (if !(infoQuery.getAirwayWaypointInformation airway.name airway.fragment).isEmpty then
        call (.row2 "Waypoints Ident and Region:" (QStringList.join
          (airwayWaypointTexts
            (infoQuery.getAirwayWaypointInformation airway.name airway.fragment)) ", "))
      else pure ())
    else pure ())
  | none => pure ())
  call .tableEnd

/-- Embeds `HtmlInfoBuilder::markerText`. -/
def markerText (m : MapMarker) : Method Unit :=
  head ("Marker: " ++ m.type)

/-- Embeds `HtmlInfoBuilder::towerText`. -/
def towerText (airport : MapAirport) : Method Unit := do
  (if airport.towerFrequency > 0 then do
    head ("Tower: " ++ (← this).locale.toStringFloat ((airport.towerFrequency : ℚ) / 1000) 3)
  else head "Tower")

/-- Embeds `HtmlInfoBuilder::parkingText`. -/
def parkingText (env : HtmlEnv) (parking : MapParking) : Method Unit := do
  (if parking.type != "FUEL" then do
    head (env.parkingName parking.name ++ " " ++ (← this).locale.toStringInt parking.number)
    call (.brText (env.parkingTypeName parking.type))
    call (.brText ((← this).locale.toStringInt (int32 (parking.radius * 2)) ++ " ft"))
    (if parking.jetway then call (.brText "Has Jetway") else pure ())
    (if !parking.airlineCodes.isEmpty then
      call (.brText ("Airline Codes: " ++ parking.airlineCodes))
    else pure ())
  else call (.text "Fuel" Flags.NONE))

/-- Embeds `HtmlInfoBuilder::helipadText`. -/
def helipadText (env : HtmlEnv) (helipad : MapHelipad) : Method Unit := do
  head "Helipad:"
  call (.brText ("Surface: " ++ env.surfaceName helipad.surface))
  call (.brText ("Type: " ++ helipad.type))
  call (.brText ((← this).locale.toStringInt helipad.width ++ " ft"))
  (if helipad.closed then call (.brText "Is Closed") else pure ())

/-- Embeds `HtmlInfoBuilder::userpointText`. -/
def userpointText (userpoint : MapUserpoint) : Method Unit := do
  head "Flight Plan Point:"
  call (.brText userpoint.name)

/-- Embeds `HtmlInfoBuilder::aircraftTitle`. -/
def aircraftTitle (data : SimConnectData) : Method Unit := do
  let self ← this
  let icon := if data.ON_GROUND then self.aircraftGroundEncodedIcon else self.aircraftEncodedIcon
  call (.img icon "Aircraft" "" 24 24)
  call .nbsp
  call .nbsp
  let title := data.airplaneReg
  let title2 := ""
  let title2 := if !data.airplaneType.isEmpty then title2 ++ data.airplaneType else title2
  let title2 :=
    if !data.airplaneModel.isEmpty then
      title2 ++ ((if title2.isEmpty then "" else ", ") ++ data.airplaneModel)
    else title2
  let title := if !title2.isEmpty then title ++ (" (" ++ title2 ++ ")") else title
  call (.text title { Flags.BOLD with big := true })

/-- Embeds `HtmlInfoBuilder::aircraftText`. -/
def aircraftText (data : SimConnectData) : Method Unit := do
  aircraftTitle data
  head "Aircraft"
  call .table
  (if !data.airplaneTitle.isEmpty then call (.row2 "Title:" data.airplaneTitle) else pure ())
  (if !data.airplaneAirline.isEmpty then call (.row2 "Airline:" data.airplaneAirline)
  else pure ())
  (if !data.airplaneFlightnumber.isEmpty then
    call (.row2 "Flight Number:" data.airplaneFlightnumber)
  else pure ())
  (if !data.airplaneModel.isEmpty then call (.row2 "Model:" data.airplaneModel) else pure ())
  (if !data.airplaneReg.isEmpty then call (.row2 "Registration:" data.airplaneReg)
  else pure ())
  (if !data.airplaneType.isEmpty then call (.row2 "Type:" data.airplaneType) else pure ())
  call .tableEnd
  head "Weight and Fuel"
  call .table
  call (.row2 "Max Gross Weight:"
    ((← this).locale.toStringFloat data.airplaneMaxGrossWeightLbs 0 ++ " lbs"))
  call (.row2 "Gross Weight:"
    ((← this).locale.toStringFloat data.airplaneTotalWeightLbs 0 ++ " lbs"))
  call (.row2 "Empty Weight:"
    ((← this).locale.toStringFloat data.airplaneEmptyWeightLbs 0 ++ " lbs"))
  call (.row2 "Fuel:" ((← this).locale.toStringFloat data.fuelTotalWeightLbs 0 ++ " lbs, " ++
    (← this).locale.toStringFloat data.fuelTotalQuantityGallons 0 ++ " gallons"))
  call .tableEnd

/-- The values `aircraftProgressText` holds in its five route variables after
the flight plan section. -/
def routeDistancesOf (data : SimConnectData) (rmoList : RouteMapObjectList) : RouteDistances :=
  if !rmoList.isEmpty then rmoList.getRouteDistances data.position
  else ⟨false, 0, 0, 0, 0, 0⟩

/-- The sections "Flight Plan Progress" and "Next Waypoint" of
`aircraftProgressText`, written when `getRouteDistances` has returned true. -/
def progressTables (env : HtmlEnv) (data : SimConnectData) (rmoList : RouteMapObjectList)
    (d : RouteDistances) : Method Unit := do
  head "Flight Plan Progress"
  call .table
  call (.row2 "To Destination:" ((← this).locale.toStringFloat d.distToDestNm 0 ++ " nm"))
  call (.row2 "Time and Date:" ((← this).locale.toStringDateTime data.localTime ++
    " " ++ data.localTime.timeZoneAbbreviation ++ ", " ++
    (← this).locale.toStringTime data.zuluTime.time ++
    " " ++ data.zuluTime.timeZoneAbbreviation))
  (if data.groundSpeedKts > 20 then do
    let timeToDestination := d.distToDestNm / data.groundSpeedKts
    let arrival := data.zuluTime.addSecs (truncToInt (timeToDestination * 3600))
    call (.row2 "Arrival Time:" ((← this).locale.toStringTime arrival.time ++ " " ++
      arrival.timeZoneAbbreviation))
    call (.row2 "En route Time:" (env.formatMinutesHoursLong timeToDestination))
  else pure ())
  call .tableEnd
  head "Next Waypoint"
  call .table
  let rmo ← (match rmoList.at d.nearestLegIndex with
    | some rmo => pure rmo
    | none => throw Fault.outOfRange)
  let crs := env.normalizeCourse (env.angleDegToRhumb data.position rmo.position - rmo.magvar)
  call (.row2 "Name and Type:" (rmo.ident ++
    (if rmo.mapObjectTypeName.isEmpty then "" else ", " ++ rmo.mapObjectTypeName)))
  let timeStr :=
    if data.groundSpeedKts > 20 then
      ", " ++ env.formatMinutesHoursLong (d.nearestLegDistance / data.groundSpeedKts)
    else ""
  call (.row2 "Distance, Course and Time:"
    ((← this).locale.toStringFloat d.nearestLegDistance 0 ++ " nm, " ++
    (← this).locale.toStringFloat crs 0 ++ "°M" ++ timeStr))
  call (.row2 "Leg Course:" ((← this).locale.toStringFloat rmo.courseToRhumb 0 ++ "°M"))
  (if d.crossTrackDistance != env.INVALID_DISTANCE_VALUE then do
    let ctd := env.roundToPrecision (d.crossTrackDistance * 10) 0
    let crossDirection :=
      if ctd >= 1 then "<b>►</b>" else if ctd <= -1 then "<b>◄</b>" else ""
    call (.row2 "Cross Track Distance:"
      ((← this).locale.toStringFloat |(ctd : ℚ) / 10| 1 ++ " nm " ++ crossDirection))
  else call (.row2 "Cross Track Distance:" "Not along Track"))
  call .tableEnd

/-- The `float` constant `0.4f`: the number 13421773 / 2 ^ 25 that is nearest
to 0.4 among the values of the type. -/
def float_0_4 : ℚ :=
  13421773 / 33554432

/-- The local `ice` of `aircraftProgressText` at the row "Ice:". -/
def iceText (locale : QLocale) (data : SimConnectData) : String :=
  let ice := ""
  let ice :=
    if data.pitotIcePercent >= 1 then
      ice ++ ("Pitot " ++ locale.toStringFloat data.pitotIcePercent 0 ++ " %")
    else ice
  let ice :=
    if data.structuralIcePercent >= 1 then
      (if !ice.isEmpty then ice ++ ", " else ice) ++
        ("Structure " ++ locale.toStringFloat data.structuralIcePercent 0 ++ " %")
    else ice
  if ice.isEmpty then "None" else ice

/-- The local `value` of `aircraftProgressText` at the row below the wind. -/
def windText (locale : QLocale) (headWind crossWind : ℚ) : String :=
  let value := ""
  let value :=
    if |headWind| >= 1 then
      value ++ (locale.toStringFloat |headWind| 0 ++ " kts ") ++
        (if headWind <= -1 then "<b>▲</b>" else "<b>▼</b>")
    else value
  if |crossWind| >= 1 then
    (if !value.isEmpty then value ++ ", " else value) ++
      (locale.toStringFloat |crossWind| 0 ++ " kts ") ++
      (if crossWind >= 1 then "<b>◄</b>" else if crossWind <= -1 then "<b>►</b>" else "")
  else value

/-- The local `visibilityMeterStr` of `aircraftProgressText`. -/
def visibilityMeterStr (env : HtmlEnv) (locale : QLocale) (visibilityMeter : ℚ) : String :=
  if visibilityMeter > 5000 then locale.toStringFloat (visibilityMeter / 1000) 0 ++ " km"
  else
    locale.toStringInt
      (env.roundToPrecision visibilityMeter (if visibilityMeter > 1000 then 2 else 1)) ++ " m"

/-- The list `precip` of `aircraftProgressText` at the row "Conditions:". -/
def precipList (data : SimConnectData) : List String :=
  let precip : List String := []
  let precip := if data.IN_RAIN then precip ++ ["Rain"] else precip
  let precip := if data.IN_SNOW then precip ++ ["Snow"] else precip
  if precip.isEmpty then precip ++ ["None"] else precip

/-- Embeds `HtmlInfoBuilder::aircraftProgressText`. -/
def aircraftProgressText (env : HtmlEnv) (data : SimConnectData)
    (rmoList : RouteMapObjectList) : Method Unit := do
  aircraftTitle data
  let d := routeDistancesOf data rmoList
  let distToDestNm := d.distToDestNm
  (if !rmoList.isEmpty then
    (if d.found then progressTables env data rmoList d
    else call (.h4 "No Active Flight Plan Leg found." Flags.BOLD))
  else call (.h4 "No Flight Plan loaded." Flags.BOLD))
  head "Aircraft"
  call .table
  call (.row2 "Heading:" ((← this).locale.toStringFloat data.headingDegMag 0 ++ "°M, " ++
    (← this).locale.toStringFloat data.headingDegTrue 0 ++ "°T"))
  call (.row2 "Track:" ((← this).locale.toStringFloat data.trackDegMag 0 ++ "°M, " ++
    (← this).locale.toStringFloat data.trackDegTrue 0 ++ "°T"))
  call (.row2 "Fuel Flow:" ((← this).locale.toStringFloat data.fuelFlowPPH 0 ++ " pph, " ++
    (← this).locale.toStringFloat data.fuelFlowGPH 0 ++ " gph, "))
  (if data.fuelFlowPPH > 1 && data.groundSpeedKts > 20 then do
    let hoursRemaining := data.fuelTotalWeightLbs / data.fuelFlowPPH
    let distanceRemaining := hoursRemaining * data.groundSpeedKts
    call (.row2 "Endurance:" (env.formatMinutesHoursLong hoursRemaining ++ ", " ++
      (← this).locale.toStringFloat distanceRemaining 0 ++ " nm"))
  else pure ())
  (if distToDestNm > 1 && data.fuelFlowPPH > 1 && data.groundSpeedKts > 20 then do
    let neededFuel := distToDestNm / data.groundSpeedKts * data.fuelFlowPPH
    call (.row2 "Fuel at Destination:"
      ((← this).locale.toStringFloat (data.fuelTotalWeightLbs - neededFuel) 0 ++ " lbs"))
  else pure ())
  call (.row2 "Ice:" (iceText (← this).locale data))
  call .tableEnd
  head "Altitude"
  call .table
  call (.row2 "Indicated:" ((← this).locale.toStringFloat data.indicatedAltitudeFt 0 ++ " ft"))
  call (.row2 "Actual:" ((← this).locale.toStringFloat data.position.altitude 0 ++ " ft"))
  call (.row2 "Above Ground:"
    ((← this).locale.toStringFloat data.altitudeAboveGroundFt 0 ++ " ft"))
  call (.row2 "Ground Elevation:"
    ((← this).locale.toStringFloat data.groundAltitudeFt 0 ++ " ft"))
  call .tableEnd
  head "Speed"
  call .table
  call (.row2 "Indicated:" ((← this).locale.toStringFloat data.indicatedSpeedKts 0 ++ " kts"))
  call (.row2 "Ground:" ((← this).locale.toStringFloat data.groundSpeedKts 0 ++ " kts"))
  call (.row2 "True Airspeed:" ((← this).locale.toStringFloat data.trueSpeedKts 0 ++ " kts"))
  let mach := data.machSpeed
  (if mach > float_0_4 then do
    call (.row2 "Mach:" ((← this).locale.toStringFloat mach 2))
  else call (.row2 "Mach:" "-"))
  let vspeed := env.roundToPrecision data.verticalSpeedFeetPerMin 0
  let upDown :=
    if vspeed >= 100 then " <b>▲</b>" else if vspeed <= -100 then " <b>▼</b>" else ""
  call (.row2 "Vertical:" ((← this).locale.toStringInt vspeed ++ " ft/min " ++ upDown))
  call .tableEnd
  head "Environment"
  call .table
  let windSpeed := data.windSpeedKts
  let windDir := env.normalizeCourse (data.windDirectionDegT - data.magVarDeg)
  (if windSpeed >= 1 then do
    call (.row2 "Wind Direction and Speed:" ((← this).locale.toStringFloat windDir 0 ++
      "°M, " ++ (← this).locale.toStringFloat windSpeed 0 ++ " kts"))
  else call (.row2 "Wind Direction and Speed:" "None"))
  let diffRad := env.toRadians (windDir - data.headingDegMag)
  let headWind := windSpeed * env.cos diffRad
  let crossWind := windSpeed * env.sin diffRad
  call (.row2 "" (windText (← this).locale headWind crossWind))
  let temp := data.totalAirTemperatureCelsius
  call (.row2 "Total Air Temperature:" ((← this).locale.toStringFloat temp 0 ++ "°C, " ++
    (← this).locale.toStringFloat (env.degCToDegF temp) 0 ++ "°F"))
  let temp := data.ambientTemperatureCelsius
  call (.row2 "Static Air Temperature:" ((← this).locale.toStringFloat temp 0 ++ "°C, " ++
    (← this).locale.toStringFloat (env.degCToDegF temp) 0 ++ "°F"))
  let slp := data.seaLevelPressureMbar
  call (.row2 "Sea Level Pressure:" ((← this).locale.toStringFloat slp 0 ++ " mbar, " ++
    (← this).locale.toStringFloat (env.mbarToInHg slp) 2 ++ " inHg"))
  call (.row2 "Conditions:" (QStringList.join (precipList data) ", "))
  let visibilityMeter := data.ambientVisibilityMeter
  let visibilityNm := env.meterToNm visibilityMeter
  (if visibilityNm > 20 then call (.row2 "Visibility:" "> 20 nm")
  else do
    call (.row2 "Visibility:"
      ((← this).locale.toStringFloat visibilityNm (if visibilityNm < 5 then 1 else 0) ++
      " nm, " ++ visibilityMeterStr env (← this).locale visibilityMeter)))
  call .tableEnd
  head "Position"
  call (.row2 "Coordinates:" (env.toHumanReadableString data.position))
  call .tableEnd

/-- The public text operations of the builder with their arguments. -/
inductive TextOp where
  | airportText (airport : MapAirport) (routeMapObjects : Option RouteMapObjectList)
      (weather : Option WeatherReporter) (background : String)
  | comText (airport : MapAirport) (background : String)
  | runwayText (airport : MapAirport) (background : String)
  | approachText (airport : MapAirport) (background : String)
  | vorText (vor : MapVor) (background : String)
  | ndbText (ndb : MapNdb) (background : String)
  | waypointText (waypoint : MapWaypoint) (background : String)
  | airwayText (airway : MapAirway)
  | markerText (m : MapMarker)
  | towerText (airport : MapAirport)
  | parkingText (parking : MapParking)
  | helipadText (helipad : MapHelipad)
  | userpointText (userpoint : MapUserpoint)
  | aircraftText (data : SimConnectData)
  | aircraftProgressText (data : SimConnectData) (rmoList : RouteMapObjectList)

/-- The method a text operation names, applied to the arguments. -/
def TextOp.method (env : HtmlEnv) : TextOp → Method Unit
  | .airportText airport routeMapObjects weather background =>
    HtmlInfoBuilder.airportText env airport routeMapObjects weather background
  | .comText airport background => HtmlInfoBuilder.comText env airport background
  | .runwayText airport background => HtmlInfoBuilder.runwayText env airport background
  | .approachText airport background => HtmlInfoBuilder.approachText env airport background
  | .vorText vor background => HtmlInfoBuilder.vorText env vor background
  | .ndbText ndb background => HtmlInfoBuilder.ndbText env ndb background
  | .waypointText waypoint background => HtmlInfoBuilder.waypointText env waypoint background
  | .airwayText airway => HtmlInfoBuilder.airwayText env airway
  | .markerText m => HtmlInfoBuilder.markerText m
  | .towerText airport => HtmlInfoBuilder.towerText airport
  | .parkingText parking => HtmlInfoBuilder.parkingText env parking
  | .helipadText helipad => HtmlInfoBuilder.helipadText env helipad
  | .userpointText userpoint => HtmlInfoBuilder.userpointText userpoint
  | .aircraftText data => HtmlInfoBuilder.aircraftText data
  | .aircraftProgressText data rmoList => HtmlInfoBuilder.aircraftProgressText env data rmoList

/-- A method keeps the builder and only adds calls: on every pair of objects it
either runs into the fault `f` gives for the builder, or returns the value `f`
gives, leaves the builder as it was and appends the calls `f` gives to the
`HtmlBuilder`. -/
def KeepsBuilder {α : Type} (m : Method α) : Prop :=
  ∃ f : HtmlInfoBuilder → Except Fault (α × List HtmlCall), ∀ c : Ctx,
    m.run c = (f c.self).map fun r => (r.1, { self := c.self, html := c.html ++ r.2 })

end HtmlInfoBuilder

namespace Example

/-- A sample locale: integers in decimal digits, other values by a fixed text. -/
def locale : QLocale :=
  { toStringInt := fun i => toString i
    toStringFloat := fun _ _ => "0"
    toStringDateTime := fun _ => "1/1/17 12:00"
    toStringTime := fun _ => "12:00" }

/-- Stand-ins for the functions of other files that the builder calls. -/
def htmlEnv : HtmlEnv :=
  { createAirportIcon := fun _ _ _ => "airport.png"
    createVorIcon := fun _ _ _ => "vor.png"
    createNdbIcon := fun _ _ _ => "ndb.png"
    createWaypointIcon := fun _ _ _ => "waypoint.png"
    getEncodedImageHref := fun path _ _ => path
    getCode := fun _ ident => ident
    magvarText := fun _ => "0°"
    surfaceName := fun s => s
    comTypeName := fun s => s
    navTypeName := fun s => s
    vorType := fun _ => "VOR"
    airwayTypeToString := fun _ => "Victor"
    parkingName := fun s => s
    parkingTypeName := fun s => s
    parkingRampName := fun s => s
    ratingString := fun _ _ => "***"
    capString := fun s => s
    capNavString := fun s => s
    formatMinutesHoursLong := fun _ => "0 h 0 m"
    normalizeCourse := fun x => x
    opposedCourseDeg := fun x => x + 180
    toRadians := fun x => x
    cos := fun _ => 1
    sin := fun _ => 0
    degCToDegF := fun x => x
    mbarToInHg := fun x => x
    meterToNm := fun x => x
    roundToPrecision := fun x _ => truncToInt x
    angleDegToRhumb := fun _ _ => 0
    toHumanReadableString := fun _ => "N 0° E 0°"
    INVALID_DISTANCE_VALUE := -1
    rw :=
      { EDGES := 1, THRESHOLD := 2, FIXED_DISTANCE := 4, TOUCHDOWN := 8, DASHES := 16,
        IDENT := 32, PRECISION := 64, EDGE_PAVEMENT := 128, SINGLE_END := 256,
        ALTERNATE_THRESHOLD := 1024, ALTERNATE_FIXEDDISTANCE := 2048,
        ALTERNATE_TOUCHDOWN := 4096, ALTERNATE_PRECISION := 8192,
        LEADING_ZERO_IDENT := 16384, NO_THRESHOLD_END_ARROWS := 32768 }
    defaultLocale := locale }

/-- A sample `MapQuery` that knows no airways. -/
def mapQuery : MapQuery :=
  { getAirportAdminById := fun _ => ("Frankfurt", "", "Germany")
    getAirwaysForWaypoint := fun _ => [] }

/-- A sample `InfoQuery` that finds no record. -/
def infoQuery : InfoQuery :=
  { getAirportInformation := fun _ => none
    getComInformation := fun _ => none
    getRunwayInformation := fun _ => none
    getRunwayEndInformation := fun _ => none
    getIlsInformation := fun _ => none
    getApproachInformation := fun _ => none
    getTransitionInformation := fun _ => none
    getVorInformation := fun _ => none
    getNdbInformation := fun _ => none
    getWaypointInformation := fun _ => none
    getAirwayWaypointInformation := fun _ _ => [] }

/-- A sample builder for tooltips: an `InfoQuery` is there, the information
format is off. -/
def tooltipBuilder : HtmlInfoBuilder :=
  HtmlInfoBuilder.ctor htmlEnv mapQuery (some infoQuery) false

/-- A sample builder for the information panel. -/
def infoBuilder : HtmlInfoBuilder :=
  HtmlInfoBuilder.ctor htmlEnv mapQuery (some infoQuery) true

/-- A sample airport with a tower frequency. -/
def airport : MapAirport :=
  { id := 1, name := "Frankfurt am Main", ident := "EDDF", routeIndex := -1, magvar := 2,
    position := ⟨8, 50, 364⟩, longestRunwayLength := 13123, towerFrequency := 119900,
    atisFrequency := 118020, awosFrequency := 0, asosFrequency := 0, unicomFrequency := 0,
    closed := false, addon := false, apron := true, taxiway := true, towerObject := true,
    parking := true, helipad := false, vasi := true, als := true, fence := false,
    hard := true, soft := false, water := false, closedRunways := false,
    AP_MIL := false, AP_AVGAS := true, AP_JETFUEL := true, AP_APPR := true, AP_ILS := true,
    AP_LIGHT := true }

end Example

namespace HtmlInfoBuilder

/-- The number of open tables after one call, when `d` tables were open before
it: `table()` opens one, `tableEnd()` closes one, a row needs an open table,
every other call leaves the tables as they are. No number when the call closes
a table that is not open or writes a row outside a table. -/
def tableStep (d : Nat) : HtmlCall → Option Nat
  | .table => some (d + 1)
  | .tableEnd => if d = 0 then none else some (d - 1)
  | .row2 _ _ => if d = 0 then none else some d
  | .row2Int _ _ => if d = 0 then none else some d
  | _ => some d

/-- The number of open tables after a sequence of calls that starts with `d`
open tables. -/
def tableDepth (d : Nat) : List HtmlCall → Option Nat
  | [] => some d
  | c :: rest => (tableStep d c).bind fun d' => tableDepth d' rest

/-- A sequence of calls has well-formed tables: `table()` and `tableEnd()` are
properly nested and equal in number, and every row is written while a table is
open. -/
def wellFormedTables (calls : List HtmlCall) : Bool :=
  tableDepth 0 calls == some 0

/-- The calls a method makes on an empty `HtmlBuilder`, when it returns. -/
def callsOf (m : Method Unit) (self : HtmlInfoBuilder) : Option (List HtmlCall) :=
  match m.run { self := self, html := [] } with
  | .ok r => some r.2.html
  | .error _ => none

/-- On the builder `self` the method returns, whatever the `HtmlBuilder` holds,
leaves the builder as it is and appends a sequence of calls with the property
`P`. -/
def Emits (self : HtmlInfoBuilder) (P : List HtmlCall → Prop) (m : Method Unit) : Prop :=
  ∀ html : HtmlBuilder, ∃ calls : List HtmlCall,
    m.run { self := self, html := html } = .ok ((), { self := self, html := html ++ calls }) ∧
    P calls

/-- On every builder the method returns and appends calls that take the number
of open tables from `d` to `e`. -/
def Runs (d e : Nat) (m : Method Unit) : Prop :=
  ∀ self : HtmlInfoBuilder, Emits self (fun calls => tableDepth d calls = some e) m

/-- On the builder `self` the method runs into the fault `e`, whatever the
`HtmlBuilder` holds. -/
def Faults (self : HtmlInfoBuilder) (e : Fault) (m : Method Unit) : Prop :=
  ∀ html : HtmlBuilder, m.run { self := self, html := html } = .error e

/-- On every builder the method returns, and the calls it appends, read from
`d` open tables, close a table that is not open or write a row outside a
table. -/
def Breaks (d : Nat) (m : Method Unit) : Prop :=
  ∀ self : HtmlInfoBuilder, Emits self (fun calls => tableDepth d calls = none) m

/-- The rows "Offset Threshold:" and "Effective Landing Distance:" among the
calls. -/
def isThresholdRow : HtmlCall → Bool
  | .row2 name _ =>
    decide (name = "Offset Threshold:" ∨ name = "Effective Landing Distance:")
  | _ => false

/-- The exact result `z` is a value of the 32 bit type `int`. -/
@[reducible] def fitsInt32 (z : Int) : Prop :=
  -2147483648 ≤ z ∧ z ≤ 2147483647

/-- The rows of a METAR among the calls, in either format. -/
def isMetarRow : HtmlCall → Bool
  | .row2 name _ =>
    decide (name = "ASN:" ∨ name = "NOAA:" ∨ name = "Vatsim:" ∨
      name = "ASN Metar:" ∨ name = "NOAA Metar:" ∨ name = "Vatsim Metar:")
  | _ => false

/-- The METAR rows as the amended description of the weather section gives
them. In the information format every source that is queried and has a METAR
gets its own row; ASN is queried only when ASN weather is available, NOAA and
Vatsim always. In the tooltip format there is at most one row: the ASN METAR
when ASN weather is available, and no row when that METAR is empty; without ASN
weather the NOAA METAR if it is not empty, otherwise the Vatsim METAR if it is
not empty. -/
def metarRowsSpec (info : Bool) (airport : MapAirport) (weather : WeatherReporter) :
    List HtmlCall :=
  let asn := weather.getAsnMetar airport.ident
  let noaa := weather.getNoaaMetar airport.ident
  let vatsim := weather.getVatsimMetar airport.ident
  if info then
    (if weather.hasAsnWeather && !asn.isEmpty then [HtmlCall.row2 "ASN:" asn] else []) ++
    (if !noaa.isEmpty then [HtmlCall.row2 "NOAA:" noaa] else []) ++
    (if !vatsim.isEmpty then [HtmlCall.row2 "Vatsim:" vatsim] else [])
  else if weather.hasAsnWeather then
    (if !asn.isEmpty then [HtmlCall.row2 "ASN Metar:" asn] else [])
  else if !noaa.isEmpty then [HtmlCall.row2 "NOAA Metar:" noaa]
  else if !vatsim.isEmpty then [HtmlCall.row2 "Vatsim Metar:" vatsim]
  else []

/-- The calls of the weather section as the amended description gives them:
nothing when there is no METAR row, otherwise the heading "Weather" in the
information format only, and one table around the METAR rows. -/
def weatherSectionSpec (info : Bool) (airport : MapAirport) (weather : WeatherReporter) :
    List HtmlCall :=
  let rows := metarRowsSpec info airport weather
  if rows.isEmpty then []
  else (if info then [HtmlCall.h4 "Weather" Flags.NONE] else []) ++ [HtmlCall.table] ++ rows ++
    [HtmlCall.tableEnd]

/-- The labels of the facilities an airport has, as the specification lists
them: one label for every flag that is set, in the fixed order of the flags. -/
def facilityLabels (airport : MapAirport) : List String :=
  (if airport.closed then ["Closed"] else []) ++
  (if airport.addon then ["Add-on"] else []) ++
  (if airport.AP_MIL then ["Military"] else []) ++
  (if airport.apron then ["Aprons"] else []) ++
  (if airport.taxiway then ["Taxiways"] else []) ++
  (if airport.towerObject then ["Tower Object"] else []) ++
  (if airport.parking then ["Parking"] else []) ++
  (if airport.helipad then ["Helipads"] else []) ++
  (if airport.AP_AVGAS then ["Avgas"] else []) ++
  (if airport.AP_JETFUEL then ["Jetfuel"] else []) ++
  (if airport.AP_APPR then ["Approaches"] else []) ++
  (if airport.AP_ILS then ["ILS"] else []) ++
  (if airport.vasi then ["VASI"] else []) ++
  (if airport.als then ["ALS"] else []) ++
  (if airport.fence then ["Boundary Fence"] else [])

/-- On the builder `self` the method returns and only appends calls. -/
def Completes (self : HtmlInfoBuilder) (m : Method Unit) : Prop :=
  Emits self (fun _ => True) m

/-- On the builder `self` the method returns, and the calls it appends hold the
calls `seg` as one piece, in this order. -/
def Around (self : HtmlInfoBuilder) (seg : List HtmlCall) (m : Method Unit) : Prop :=
  Emits self (fun calls => ∃ pre post, calls = pre ++ seg ++ post) m

/-- On the builder `self` both methods return; the calls of the second are the
calls of the first with the calls `seg` put in at one place. -/
def Splice (self : HtmlInfoBuilder) (seg : List HtmlCall) (m₀ m₁ : Method Unit) : Prop :=
  ∀ html : HtmlBuilder, ∃ pre post : List HtmlCall,
    m₀.run { self := self, html := html } =
      .ok ((), { self := self, html := html ++ (pre ++ post) }) ∧
    m₁.run { self := self, html := html } =
      .ok ((), { self := self, html := html ++ (pre ++ seg ++ post) })

/-- On the builder `self` the method returns, and of the calls it appends
those with the property `p` are, in order, the calls `sel`. -/
def Selects (self : HtmlInfoBuilder) (p : HtmlCall → Bool) (sel : List HtmlCall)
    (m : Method Unit) : Prop :=
  Emits self (fun calls => calls.filter p = sel) m

/-- On the builder `self` the method returns and appends no call with the
property `p`. -/
def Avoids (self : HtmlInfoBuilder) (p : HtmlCall → Bool) (m : Method Unit) : Prop :=
  Emits self (fun calls => calls.filter p = []) m

end HtmlInfoBuilder

namespace Example

/-- A sample builder without `InfoQuery`, formatting for the information
panel. -/
def noQueryBuilder : HtmlInfoBuilder :=
  HtmlInfoBuilder.ctor htmlEnv mapQuery none true

/-- Sample simulator data: an aircraft in cruise. -/
def aircraft : SimConnectData :=
  { airplaneTitle := "Beech Baron 58", airplaneAirline := "", airplaneFlightnumber := "",
    airplaneModel := "BE58", airplaneReg := "N71FS", airplaneType := "Beech",
    airplaneMaxGrossWeightLbs := 5500, airplaneTotalWeightLbs := 5000,
    airplaneEmptyWeightLbs := 3900, fuelTotalWeightLbs := 800,
    fuelTotalQuantityGallons := 133, position := ⟨8, 50, 9000⟩,
    localTime := ⟨43200, "CET"⟩, zuluTime := ⟨39600, "UTC"⟩, groundSpeedKts := 180,
    headingDegMag := 90, headingDegTrue := 92, trackDegMag := 91, trackDegTrue := 93,
    fuelFlowPPH := 180, fuelFlowGPH := 30, pitotIcePercent := 0, structuralIcePercent := 0,
    indicatedAltitudeFt := 9000, altitudeAboveGroundFt := 8000, groundAltitudeFt := 1000,
    indicatedSpeedKts := 160, trueSpeedKts := 185, machSpeed := 3 / 10,
    verticalSpeedFeetPerMin := 0, windSpeedKts := 10, windDirectionDegT := 270,
    magVarDeg := 2, totalAirTemperatureCelsius := 5, ambientTemperatureCelsius := 3,
    seaLevelPressureMbar := 1013, ambientVisibilityMeter := 9000,
    ON_GROUND := false, IN_RAIN := false, IN_SNOW := false }

/-- A sample record of a runway end with an offset threshold of 1 ft and no
other column set. -/
def runwayEnd : SqlRecord :=
  { contains := fun _ => true, isNull := fun _ => true, valueStr := fun _ => "", valueFloat := fun _ => 0,
    valueBool := fun _ => false,
    valueInt := fun col => if col = "offset_threshold" then 1 else 0 }

/-- A sample weather reporter without ASN weather: the ASN source has no
METAR, the two other sources have one. -/
def weatherNoAsn : WeatherReporter :=
  { hasAsnWeather := false, getAsnMetar := fun _ => "",
    getNoaaMetar := fun _ => "EDDF 301150Z 23007KT", getVatsimMetar := fun _ => "EDDF 301200Z" }

/-- A route without legs. -/
def noRoute : RouteMapObjectList :=
  { objects := [], getRouteDistances := fun _ => ⟨false, 0, 0, 0, 0, 0⟩ }

/-- A sample waypoint. -/
def waypoint : MapWaypoint :=
  { id := 7, ident := "ABTAL", region := "ED", type := "WN", routeIndex := -1, magvar := 2,
    position := ⟨8, 50, 0⟩ }

/-- A sample `MapQuery` that knows three airway segments at a waypoint: two
segments of airway A of type 1 and, between them, one of type 2. -/
def airwayQuery : MapQuery :=
  { mapQuery with
    getAirwaysForWaypoint := fun _ =>
      [{ name := "A", type := 1, minalt := 0, fragment := 1 },
       { name := "A", type := 2, minalt := 0, fragment := 1 },
       { name := "A", type := 1, minalt := 0, fragment := 2 }] }

/-- The sample environment with two airway types, Victor for 1 and Jet for the
others. -/
def airwayEnv : HtmlEnv :=
  { htmlEnv with airwayTypeToString := fun t => if t = 1 then "Victor" else "Jet" }

end Example

namespace Example

/-- The sample tooltip builder on the `MapQuery` with the three airway
segments. -/
def airwayBuilder : HtmlInfoBuilder :=
  HtmlInfoBuilder.ctor htmlEnv airwayQuery (some infoQuery) false

end Example
set_option linter.unusedTactic false
set_option linter.unreachableTactic false

/-! ## The flag word -/

namespace rs.RouteStringOptions

theorem ext_i {a b : RouteStringOptions} (h : a.i = b.i) : a = b := by
  cases a; cases b; simp_all

/-- Reading a flag word as an `int` and building a flag word from that `int`
gives the word back. -/
theorem ofInt_toInt (o : RouteStringOptions) : ofInt o.toInt = o := by
  apply ext_i
  have h := o.lt
  unfold ofInt toInt
  simp only
  split
  · have : ((o.i : Int) % 2 ^ 32) = (o.i : Int) := Int.emod_eq_of_lt (by omega) (by omega)
    rw [this]; simp
  · have : (((o.i : Int) - 2 ^ 32) % 2 ^ 32) = (o.i : Int) := by
      rw [Int.sub_emod, Int.emod_self, sub_zero, Int.emod_emod]
      exact Int.emod_eq_of_lt (by omega) (by omega)
    rw [this]; simp

theorem testBit_or (a b : RouteStringOptions) (n : Nat) :
    (a.or b).testBit n = (a.testBit n || b.testBit n) := by
  simp [testBit, RouteStringOptions.or]

theorem testBit_and (a b : RouteStringOptions) (n : Nat) :
    (a.and b).testBit n = (a.testBit n && b.testBit n) := by
  simp [testBit, RouteStringOptions.and]

theorem testBit_of_ge (a : RouteStringOptions) (n : Nat) (h : 32 ≤ n) :
    a.testBit n = false := by
  unfold testBit
  apply Nat.testBit_lt_two_pow
  calc a.i < 2 ^ 32 := a.lt
    _ ≤ 2 ^ n := Nat.pow_le_pow_right (by norm_num) h

theorem testBit_not (a : RouteStringOptions) (n : Nat) :
    a.not.testBit n = (decide (n < 32) && !a.testBit n) := by
  have hm : Nat.testBit 4294967295 n = decide (n < 32) := Nat.testBit_two_pow_sub_one 32 n
  by_cases hn : n < 32
  · simp [testBit, RouteStringOptions.not, Nat.testBit_xor, hm, hn]
  · have ha := testBit_of_ge a n (by omega)
    unfold testBit at ha
    simp [testBit, RouteStringOptions.not, Nat.testBit_xor, hm, hn, ha]

theorem eq_of_testBit {a b : RouteStringOptions} (h : ∀ n, a.testBit n = b.testBit n) :
    a = b :=
  ext_i (Nat.eq_of_testBit_eq h)

end rs.RouteStringOptions

/-! ## The route string dialog -/

namespace RouteStringDialog

theorem lookup_setValue (st : Settings) (key : String) (v : Int) :
    (Settings.setValue st key v).lookup key = some v := by
  simp [Settings.setValue, List.lookup]

theorem updateButtonState_options (env : Env) (s : Sys) :
    (updateButtonState env s).dlg.options = s.dlg.options := rfl

theorem updateButtonState_app (env : Env) (s : Sys) :
    (updateButtonState env s).app = s.app := rfl

theorem setPlainText_options (env : Env) (s : Sys) (text : String) :
    (setPlainText env s text).dlg.options = s.dlg.options := rfl

theorem restoreState_options (env : Env) (s : Sys) :
    (restoreState env s).dlg.options = getOptionsFromSettings env s.app := rfl

/-- C1: when the dialog `s` saves its state and a dialog `t` restores its state
from settings in which the value under the options key is still the one that
`saveState` wrote, the options of `t` are the options `s` had at `saveState`. -/
theorem C1_saveState_restoreState_options (env : Env) (s t : Sys)
    (hkeep : t.app.settings.lookup env.ROUTE_STRING_DIALOG_OPTIONS =
      (saveState env s).app.settings.lookup env.ROUTE_STRING_DIALOG_OPTIONS) :
    (restoreState env t).dlg.options = s.dlg.options := by
  rw [restoreState_options]
  unfold getOptionsFromSettings Settings.valueInt
  rw [hkeep]
  simp only [saveState, lookup_setValue]
  exact rs.RouteStringOptions.ofInt_toInt _

/-- Witness of C1: the sample dialog saves and at once restores its state. -/
theorem C1_saveState_restoreState_options_witness :
    (saveState Example.env Example.sys).app.settings.lookup
        Example.env.ROUTE_STRING_DIALOG_OPTIONS =
      (saveState Example.env Example.sys).app.settings.lookup
        Example.env.ROUTE_STRING_DIALOG_OPTIONS ∧
    (restoreState Example.env (saveState Example.env Example.sys)).dlg.options =
      Example.sys.dlg.options :=
  ⟨rfl, C1_saveState_restoreState_options Example.env Example.sys
    (saveState Example.env Example.sys) rfl⟩

/-- C2: after `updateButtonState` the Ok button is disabled exactly when the
flight plan of the dialog has no entries; the call leaves the flight plan as
it was, and the state of the button is a function of the entries alone. -/
theorem C2_updateButtonState_ok_button (env : Env) (s : Sys) :
    (updateButtonState env s).dlg.flightplan = s.dlg.flightplan ∧
    ((updateButtonState env s).dlg.ui.buttonBoxRouteString.ok.enabled = false ↔
      (updateButtonState env s).dlg.flightplan.entries = []) ∧
    (updateButtonState env s).dlg.ui.buttonBoxRouteString.ok.enabled =
      !s.dlg.flightplan.entries.isEmpty := by
  refine ⟨rfl, ?_, rfl⟩
  show (!s.dlg.flightplan.entries.isEmpty) = false ↔ s.dlg.flightplan.entries = []
  cases s.dlg.flightplan.entries <;> simp

/-- The loop of `toolButtonOptionsTriggered` over the actions. -/
theorem toolButtonOptionsTriggered_options (s : Sys) (action : QAction) :
    (toolButtonOptionsTriggered s action).dlg.options =
      s.dlg.ui.toolButtonRouteStringOptions.foldl
        (fun options act =>
          if act.checked then options.or (rs.RouteStringOptions.ofInt act.data)
          else options.and (rs.RouteStringOptions.ofInt act.data).not)
        s.dlg.options := rfl

/-- A bit that is in the flag of no action goes through the loop unchanged. -/
theorem foldl_options_testBit_of_not_mem (acts : List QAction) (o : rs.RouteStringOptions)
    (n : Nat) (h : ∀ a ∈ acts, (rs.RouteStringOptions.ofInt a.data).testBit n = false) :
    (acts.foldl
        (fun options act =>
          if act.checked then options.or (rs.RouteStringOptions.ofInt act.data)
          else options.and (rs.RouteStringOptions.ofInt act.data).not) o).testBit n =
      o.testBit n := by
  induction acts generalizing o with
  | nil => rfl
  | cons x rest ih =>
    rw [List.foldl_cons, ih _ (fun a ha => h a (List.mem_cons_of_mem _ ha))]
    have hx := h x (List.mem_cons_self _ _)
    by_cases hc : x.checked
    · simp [hc, rs.RouteStringOptions.testBit_or, hx]
    · simp only [hc, Bool.false_eq_true, if_false, rs.RouteStringOptions.testBit_and,
        rs.RouteStringOptions.testBit_not, hx]
      by_cases hn : n < 32
      · simp [hn]
      · simp [rs.RouteStringOptions.testBit_of_ge o n (by omega)]

/-- A bit of the flag of an action ends as the check mark of that action, when
the flags of the actions are pairwise disjoint. -/
theorem foldl_options_testBit_of_mem (acts : List QAction) (o : rs.RouteStringOptions)
    (n : Nat)
    (hdis : acts.Pairwise fun a b =>
      (rs.RouteStringOptions.ofInt a.data).and (rs.RouteStringOptions.ofInt b.data) =
        rs.RouteStringOptions.ofInt 0)
    (a : QAction) (ha : a ∈ acts) (hbit : (rs.RouteStringOptions.ofInt a.data).testBit n = true) :
    (acts.foldl
        (fun options act =>
          if act.checked then options.or (rs.RouteStringOptions.ofInt act.data)
          else options.and (rs.RouteStringOptions.ofInt act.data).not) o).testBit n =
      a.checked := by
  induction acts generalizing o with
  | nil => cases ha
  | cons x rest ih =>
    rw [List.pairwise_cons] at hdis
    rw [List.foldl_cons]
    by_cases hxbit : (rs.RouteStringOptions.ofInt x.data).testBit n = true
    · -- the bit belongs to the head: no later action has it
      have hrest : ∀ b ∈ rest, (rs.RouteStringOptions.ofInt b.data).testBit n = false := by
        intro b hb
        have h0 := congrArg (fun w => rs.RouteStringOptions.testBit w n) (hdis.1 b hb)
        simp only [rs.RouteStringOptions.testBit_and, hxbit, Bool.true_and] at h0
        rw [h0]
        simp [rs.RouteStringOptions.testBit, rs.RouteStringOptions.ofInt]
      rw [foldl_options_testBit_of_not_mem rest _ n hrest]
      have hax : a.checked = x.checked := by
        rcases List.mem_cons.mp ha with h | h
        · rw [h]
        · rw [hrest a h] at hbit; cases hbit
      rw [hax]
      have hn : n < 32 := by
        by_contra hge
        rw [rs.RouteStringOptions.testBit_of_ge _ n (by omega)] at hxbit
        cases hxbit
      by_cases hc : x.checked
      · simp [hc, rs.RouteStringOptions.testBit_or, hxbit]
      · simp [hc, rs.RouteStringOptions.testBit_and, rs.RouteStringOptions.testBit_not, hxbit]
    · rcases List.mem_cons.mp ha with h | h
      · rw [h] at hbit; exact absurd hbit hxbit
      · exact ih _ hdis.2 h

/-- C3: `toolButtonOptionsTriggered` copies the menu into the options. When the
flags of the actions are pairwise disjoint, the flag of every checked action is
fully set afterwards and the flag of every unchecked action fully cleared, a bit
in the flag of no action keeps its value, the triggered action passed in makes
no difference, and nothing but the options changes. -/
theorem C3_toolButtonOptionsTriggered_copies_menu (s : Sys) (action : QAction)
    (hdis : s.dlg.ui.toolButtonRouteStringOptions.Pairwise fun a b =>
      (rs.RouteStringOptions.ofInt a.data).and (rs.RouteStringOptions.ofInt b.data) =
        rs.RouteStringOptions.ofInt 0) :
    (∀ a ∈ s.dlg.ui.toolButtonRouteStringOptions,
      (toolButtonOptionsTriggered s action).dlg.options.and (rs.RouteStringOptions.ofInt a.data) =
        if a.checked then rs.RouteStringOptions.ofInt a.data
        else rs.RouteStringOptions.ofInt 0) ∧
    (∀ n : Nat,
      (∀ a ∈ s.dlg.ui.toolButtonRouteStringOptions,
        (rs.RouteStringOptions.ofInt a.data).testBit n = false) →
      (toolButtonOptionsTriggered s action).dlg.options.testBit n = s.dlg.options.testBit n) ∧
    (∀ other : QAction, toolButtonOptionsTriggered s other = toolButtonOptionsTriggered s action) ∧
    toolButtonOptionsTriggered s action =
      { s with dlg := { s.dlg with options := (toolButtonOptionsTriggered s action).dlg.options } } := by
  refine ⟨?_, ?_, fun _ => rfl, rfl⟩
  · intro a ha
    apply rs.RouteStringOptions.eq_of_testBit
    intro n
    rw [rs.RouteStringOptions.testBit_and, toolButtonOptionsTriggered_options]
    have hzero : (rs.RouteStringOptions.ofInt 0).testBit n = false := by
      simp [rs.RouteStringOptions.testBit, rs.RouteStringOptions.ofInt]
    by_cases hbit : (rs.RouteStringOptions.ofInt a.data).testBit n = true
    · rw [foldl_options_testBit_of_mem _ _ n hdis a ha hbit]
      by_cases hc : a.checked
      · simp [hc, hbit]
      · simp [hc, hzero]
    · have hb : (rs.RouteStringOptions.ofInt a.data).testBit n = false := by
        simpa using hbit
      by_cases hc : a.checked
      · simp [hc, hb]
      · simp [hc, hb, hzero]
  · intro n hn
    rw [toolButtonOptionsTriggered_options]
    exact foldl_options_testBit_of_not_mem _ _ n hn

/-- Witness of C3: in the sample menu (flags 2 and 1, the first checked) and
options 5, bit 2 belongs to no action and keeps its value, and the flag of the
checked action is set. -/
theorem C3_toolButtonOptionsTriggered_copies_menu_witness :
    (Example.menuSys.dlg.ui.toolButtonRouteStringOptions.Pairwise fun a b =>
      (rs.RouteStringOptions.ofInt a.data).and (rs.RouteStringOptions.ofInt b.data) =
        rs.RouteStringOptions.ofInt 0) ∧
    (toolButtonOptionsTriggered Example.menuSys
        (newOptionAction "" Example.env.DCT)).dlg.options.testBit 2 =
      Example.menuSys.dlg.options.testBit 2 ∧
    (toolButtonOptionsTriggered Example.menuSys
        (newOptionAction "" Example.env.DCT)).dlg.options.and (rs.RouteStringOptions.ofInt 2) =
      rs.RouteStringOptions.ofInt 2 :=
  ⟨by decide,
   (C3_toolButtonOptionsTriggered_copies_menu Example.menuSys
      (newOptionAction "" Example.env.DCT) (by decide)).2.1 2 (by decide),
   (C3_toolButtonOptionsTriggered_copies_menu Example.menuSys
      (newOptionAction "" Example.env.DCT) (by decide)).1
      { text := "Add departure and destination airport", checkable := true, data := 2,
        checked := true } (by decide)⟩

/-- C4: `updateButtonState` copies the options to the menu. The menu keeps its
actions, in order, with their texts and data; afterwards an action is checked
exactly when the bitwise AND of its flag and the options is not zero; the
options are left as they were. -/
theorem C4_updateButtonState_copies_options (env : Env) (s : Sys) :
    (updateButtonState env s).dlg.options = s.dlg.options ∧
    (updateButtonState env s).dlg.ui.toolButtonRouteStringOptions.map
        (fun a => (a.text, a.checkable, a.data)) =
      s.dlg.ui.toolButtonRouteStringOptions.map (fun a => (a.text, a.checkable, a.data)) ∧
    ∀ a ∈ (updateButtonState env s).dlg.ui.toolButtonRouteStringOptions,
      (a.checked = true ↔
        ((rs.RouteStringOptions.ofInt a.data).and
          (updateButtonState env s).dlg.options).i ≠ 0) := by
  refine ⟨rfl, ?_, ?_⟩
  · simp [updateButtonState, QAction.setChecked, Function.comp_def]
  · intro a ha
    simp only [updateButtonState, List.mem_map] at ha
    obtain ⟨b, _, rfl⟩ := ha
    simp [updateButtonState, QAction.setChecked, rs.RouteStringOptions.toBool]

/-- The loop of `readClicked` over the messages appends one paragraph each. -/
theorem foldl_append_messages (msgs : List String) (pane : List String) :
    msgs.foldl (fun p err => p ++ [err ++ "<br/>"]) pane =
      pane ++ msgs.map (fun err => err ++ "<br/>") := by
  induction msgs generalizing pane with
  | nil => simp
  | cons m rest ih => simp [List.foldl_cons, ih]

/-- A character other than `%` starts no place marker. -/
theorem escapeAt_cons_of_ne (c : Char) (rest : List Char) (h : c ≠ '%') :
    QString.escapeAt (c :: rest) = none := by
  unfold QString.escapeAt
  split <;> simp_all

theorem minEscape_append_clean (p r : List Char) (hp : ∀ c ∈ p, c ≠ '%') :
    QString.minEscape (p ++ r) = QString.minEscape r := by
  induction p with
  | nil => rfl
  | cons c rest ih =>
    have hc : c ≠ '%' := hp c (List.mem_cons_self _ _)
    rw [List.cons_append, QString.minEscape, escapeAt_cons_of_ne c _ hc,
      ih (fun x hx => hp x (List.mem_cons_of_mem _ hx))]

theorem replaceEscapes_append_clean (n : Nat) (a p r : List Char) (hp : ∀ c ∈ p, c ≠ '%') :
    QString.replaceEscapes n a 0 (p ++ r) = p ++ QString.replaceEscapes n a 0 r := by
  induction p with
  | nil => rfl
  | cons c rest ih =>
    have hc : c ≠ '%' := hp c (List.mem_cons_self _ _)
    rw [List.cons_append, QString.replaceEscapes, escapeAt_cons_of_ne c _ hc,
      ih (fun x hx => hp x (List.mem_cons_of_mem _ hx))]
    rfl

theorem minEscape_data_append (a : String) (r : List Char) (ha : QString.hasNoMarker a) :
    QString.minEscape (a.data ++ r) = QString.minEscape r :=
  minEscape_append_clean _ _ ha

theorem replaceEscapes_data_append (n : Nat) (x : List Char) (a : String) (r : List Char)
    (ha : QString.hasNoMarker a) :
    QString.replaceEscapes n x 0 (a.data ++ r) = a.data ++ QString.replaceEscapes n x 0 r :=
  replaceEscapes_append_clean _ _ _ _ ha

theorem digitChar_ne_percent : ∀ m, m < 10 → Nat.digitChar m ≠ '%' := by
  decide

theorem toDigitsCore_clean (fuel n : Nat) (ds : List Char) (hds : ∀ c ∈ ds, c ≠ '%') :
    ∀ c ∈ Nat.toDigitsCore 10 fuel n ds, c ≠ '%' := by
  induction fuel generalizing n ds with
  | zero => exact hds
  | succ fuel ih =>
    have hcons : ∀ c ∈ Nat.digitChar (n % 10) :: ds, c ≠ '%' := by
      intro c hc
      rcases List.mem_cons.mp hc with rfl | hc
      · exact digitChar_ne_percent _ (Nat.mod_lt _ (by decide))
      · exact hds c hc
    by_cases h : n / 10 = 0
    · simpa [Nat.toDigitsCore, h] using hcons
    · simpa [Nat.toDigitsCore, h] using ih (n / 10) _ hcons

/-- The decimal digits of a number hold no `%`. -/
theorem natToString_clean (n : Nat) : QString.hasNoMarker (toString n) := by
  show ∀ c ∈ (Nat.repr n).data, c ≠ '%'
  exact toDigitsCore_clean _ _ _ (by simp)

theorem arg_data (t a : String) :
    (QString.arg t a).data =
      match QString.minEscape t.data with
      | some n => QString.replaceEscapes n a.data 0 t.data
      | none => t.data := by
  unfold QString.arg
  split <;> simp_all

/-- A call of `arg` leaves the text in front of the first `%` as it is. -/
theorem arg_keeps_clean_prefix (t a : String) (p r : List Char) (ht : t.data = p ++ r)
    (hp : ∀ c ∈ p, c ≠ '%') : ∃ q, (QString.arg t a).data = p ++ q := by
  rw [arg_data, ht]
  split
  · exact ⟨_, replaceEscapes_append_clean _ _ _ _ hp⟩
  · exact ⟨r, rfl⟩

/-- The text for a single place marker `%1` between two texts without `%`. -/
theorem departureMessage_eq (sid : String) :
    RouteStringDialog.departureMessage sid =
      "Found departure procedure <b>" ++ sid ++ "</b>.<br/>" := by
  apply String.ext
  simp [RouteStringDialog.departureMessage, QString.arg, QString.minEscape, QString.escapeAt,
    QString.escapeDigits, QChar.digitValue, QString.replaceEscapes]

theorem arrivalMessage_eq (star : String) :
    RouteStringDialog.arrivalMessage star =
      "Found arrival procedure <b>" ++ star ++ "</b>.<br/>" := by
  apply String.ext
  simp [RouteStringDialog.arrivalMessage, QString.arg, QString.minEscape, QString.escapeAt,
    QString.escapeDigits, QChar.digitValue, QString.replaceEscapes]

theorem argInt_template (n : Nat) :
    (QString.argInt
      "Found %1 waypoints. Flight plan from <b>%3 (%4)</b> to <b>%5 (%6)</b>. Distance is %2.<br/>"
      (n : Int)).data =
      "Found ".data ++ (toString n).data ++ " waypoints. Flight plan from <b>".data ++
        "%3 (%4)</b> to <b>%5 (%6)</b>. Distance is %2.<br/>".data := by
  simp [QString.argInt, QString.arg, QString.minEscape, QString.escapeAt, QString.escapeDigits,
    QChar.digitValue, QString.replaceEscapes]
  rfl

/-- Whatever the five texts hold, the summary starts with the number of
entries. -/
theorem foundMessage_prefix (env : Env) (fp : atools.fs.pln.Flightplan) :
    ∃ rest : String, RouteStringDialog.foundMessage env fp =
      "Found " ++ toString fp.entries.length ++ " waypoints. Flight plan from <b>" ++ rest := by
  have hp : ∀ c ∈ "Found ".data ++ (toString fp.entries.length).data ++
      " waypoints. Flight plan from <b>".data, c ≠ '%' := by
    intro c hc
    simp only [List.mem_append] at hc
    rcases hc with (hc | hc) | hc
    · revert c
      decide
    · exact natToString_clean fp.entries.length c hc
    · revert c
      decide
  obtain ⟨q₂, h₂⟩ := arg_keeps_clean_prefix _ (env.distNm (env.getDistanceNm fp)) _ _
    (argInt_template fp.entries.length) hp
  obtain ⟨q₃, h₃⟩ := arg_keeps_clean_prefix _ fp.departureAiportName _ _ h₂ hp
  obtain ⟨q₄, h₄⟩ := arg_keeps_clean_prefix _ fp.departureIdent _ _ h₃ hp
  obtain ⟨q₅, h₅⟩ := arg_keeps_clean_prefix _ fp.destinationAiportName _ _ h₄ hp
  obtain ⟨q₆, h₆⟩ := arg_keeps_clean_prefix _ fp.destinationIdent _ _ h₅ hp
  refine ⟨String.mk q₆, ?_⟩
  apply String.ext
  unfold RouteStringDialog.foundMessage
  rw [h₆]
  simp [String.data_append]

/-- With no `%` in the distance, the names and the departure ident, every place
marker takes the argument of its number. -/
theorem foundMessage_clean (env : Env) (fp : atools.fs.pln.Flightplan)
    (h2 : QString.hasNoMarker (env.distNm (env.getDistanceNm fp)))
    (h3 : QString.hasNoMarker fp.departureAiportName)
    (h4 : QString.hasNoMarker fp.departureIdent)
    (h5 : QString.hasNoMarker fp.destinationAiportName) :
    RouteStringDialog.foundMessage env fp =
      "Found " ++ toString fp.entries.length ++ " waypoints. Flight plan from <b>" ++
        fp.departureAiportName ++ " (" ++ fp.departureIdent ++ ")</b> to <b>" ++
        fp.destinationAiportName ++ " (" ++ fp.destinationIdent ++ ")</b>. Distance is " ++
        env.distNm (env.getDistanceNm fp) ++ ".<br/>" := by
  have h1 : QString.hasNoMarker (toString fp.entries.length) := natToString_clean _
  have e1 := argInt_template fp.entries.length
  have e2 : (QString.arg (QString.argInt
      "Found %1 waypoints. Flight plan from <b>%3 (%4)</b> to <b>%5 (%6)</b>. Distance is %2.<br/>"
      (fp.entries.length : Int)) (env.distNm (env.getDistanceNm fp))).data =
      "Found ".data ++ (toString fp.entries.length).data ++
        " waypoints. Flight plan from <b>".data ++
        "%3 (%4)</b> to <b>%5 (%6)</b>. Distance is ".data ++
        (env.distNm (env.getDistanceNm fp)).data ++ ".<br/>".data := by
    rw [arg_data, e1]
    simp [QString.minEscape, QString.escapeAt, QString.escapeDigits, QChar.digitValue,
      QString.replaceEscapes, minEscape_data_append, replaceEscapes_data_append, h1,
      escapeAt_cons_of_ne]
  have e3 : (QString.arg (QString.arg (QString.argInt
      "Found %1 waypoints. Flight plan from <b>%3 (%4)</b> to <b>%5 (%6)</b>. Distance is %2.<br/>"
      (fp.entries.length : Int)) (env.distNm (env.getDistanceNm fp)))
      fp.departureAiportName).data =
      "Found ".data ++ (toString fp.entries.length).data ++
        " waypoints. Flight plan from <b>".data ++
        fp.departureAiportName.data ++ " (%4)</b> to <b>%5 (%6)</b>. Distance is ".data ++
        (env.distNm (env.getDistanceNm fp)).data ++ ".<br/>".data := by
    rw [arg_data, e2]
    simp [QString.minEscape, QString.escapeAt, QString.escapeDigits, QChar.digitValue,
      QString.replaceEscapes, minEscape_data_append, replaceEscapes_data_append, h1, h2,
      escapeAt_cons_of_ne]
  have e4 : (QString.arg (QString.arg (QString.arg (QString.argInt
      "Found %1 waypoints. Flight plan from <b>%3 (%4)</b> to <b>%5 (%6)</b>. Distance is %2.<br/>"
      (fp.entries.length : Int)) (env.distNm (env.getDistanceNm fp)))
      fp.departureAiportName) fp.departureIdent).data =
      "Found ".data ++ (toString fp.entries.length).data ++
        " waypoints. Flight plan from <b>".data ++
        fp.departureAiportName.data ++ " (".data ++ fp.departureIdent.data ++
        ")</b> to <b>%5 (%6)</b>. Distance is ".data ++
        (env.distNm (env.getDistanceNm fp)).data ++ ".<br/>".data := by
    rw [arg_data, e3]
    simp [QString.minEscape, QString.escapeAt, QString.escapeDigits, QChar.digitValue,
      QString.replaceEscapes, minEscape_data_append, replaceEscapes_data_append, h1, h2, h3,
      escapeAt_cons_of_ne]
  have e5 : (QString.arg (QString.arg (QString.arg (QString.arg (QString.argInt
      "Found %1 waypoints. Flight plan from <b>%3 (%4)</b> to <b>%5 (%6)</b>. Distance is %2.<br/>"
      (fp.entries.length : Int)) (env.distNm (env.getDistanceNm fp)))
      fp.departureAiportName) fp.departureIdent) fp.destinationAiportName).data =
      "Found ".data ++ (toString fp.entries.length).data ++
        " waypoints. Flight plan from <b>".data ++
        fp.departureAiportName.data ++ " (".data ++ fp.departureIdent.data ++
        ")</b> to <b>".data ++ fp.destinationAiportName.data ++
        " (%6)</b>. Distance is ".data ++
        (env.distNm (env.getDistanceNm fp)).data ++ ".<br/>".data := by
    rw [arg_data, e4]
    simp [QString.minEscape, QString.escapeAt, QString.escapeDigits, QChar.digitValue,
      QString.replaceEscapes, minEscape_data_append, replaceEscapes_data_append, h1, h2, h3, h4,
      escapeAt_cons_of_ne]
  have e6 : (RouteStringDialog.foundMessage env fp).data =
      "Found ".data ++ (toString fp.entries.length).data ++
        " waypoints. Flight plan from <b>".data ++
        fp.departureAiportName.data ++ " (".data ++ fp.departureIdent.data ++
        ")</b> to <b>".data ++ fp.destinationAiportName.data ++ " (".data ++
        fp.destinationIdent.data ++ ")</b>. Distance is ".data ++
        (env.distNm (env.getDistanceNm fp)).data ++ ".<br/>".data := by
    unfold RouteStringDialog.foundMessage
    rw [arg_data, e5]
    simp [QString.minEscape, QString.escapeAt, QString.escapeDigits, QChar.digitValue,
      QString.replaceEscapes, minEscape_data_append, replaceEscapes_data_append, h1, h2, h3, h4,
      h5, escapeAt_cons_of_ne]
  apply String.ext
  rw [e6]
  simp [String.data_append]

/-- A place marker in an argument is filled by a later call of `arg`: with the
departure name `%5` the summary shows the destination name in its place. -/
theorem foundMessage_marker_in_name :
    RouteStringDialog.foundMessage Example.env
      { entries := [], properties := [], departureAiportName := "%5", departureIdent := "EDDF",
        destinationAiportName := "Rome", destinationIdent := "LIRF" } =
      "Found 0 waypoints. Flight plan from <b>Rome (EDDF)</b> to <b>Rome (LIRF)</b>. " ++
        "Distance is 0 nm.<br/>" := by
  decide

/-- C5: after `readClicked` the message pane holds the success summary exactly
when `RouteString::createRouteFromString`, called on the text of the editor
and the cleared flight plan, returned true, and then every parser message in
order with `<br/>` appended; it is empty when the parser fails without a
message. The summary is the text of the six calls of `arg`, then the line for
the departure procedure and the line for the arrival procedure, each exactly
when the respective text is not empty. The text of the six calls always starts
with the number of entries of the flight plan, and when the distance, the two
airport names and the departure ident hold no `%`, every place marker of it
holds the argument of its number. -/
theorem C5_readClicked_reports_parse_result (env : Env) (s : Sys) :
    (readClicked env s).dlg.ui.textEditRouteStringErrors =
      (if (env.createRouteFromString s.dlg.routeString s.dlg.ui.plainTextEditRouteString
            { s.dlg.flightplan.clear with properties := [] } s.dlg.speedKts).success
        then [successMessage env
          (env.createRouteFromString s.dlg.routeString s.dlg.ui.plainTextEditRouteString
            { s.dlg.flightplan.clear with properties := [] } s.dlg.speedKts).flightplan]
        else []) ++
      (env.createRouteFromString s.dlg.routeString s.dlg.ui.plainTextEditRouteString
        { s.dlg.flightplan.clear with properties := [] }
        s.dlg.speedKts).routeString.messages.map (fun err => err ++ "<br/>") ∧
    ((env.createRouteFromString s.dlg.routeString s.dlg.ui.plainTextEditRouteString
        { s.dlg.flightplan.clear with properties := [] } s.dlg.speedKts).success = false →
      (env.createRouteFromString s.dlg.routeString s.dlg.ui.plainTextEditRouteString
        { s.dlg.flightplan.clear with properties := [] }
        s.dlg.speedKts).routeString.messages = [] →
      (readClicked env s).dlg.ui.textEditRouteStringErrors = []) ∧
    (readClicked env s).dlg.flightplan =
      (env.createRouteFromString s.dlg.routeString s.dlg.ui.plainTextEditRouteString
        { s.dlg.flightplan.clear with properties := [] } s.dlg.speedKts).flightplan ∧
    (∀ fp : Flightplan,
      successMessage env fp =
        foundMessage env fp ++
        (if (env.getSidAndTransition fp.properties).isEmpty then ""
          else "Found departure procedure <b>" ++ env.getSidAndTransition fp.properties ++
            "</b>.<br/>") ++
        (if (env.getStarAndTransition fp.properties).isEmpty then ""
          else "Found arrival procedure <b>" ++ env.getStarAndTransition fp.properties ++
            "</b>.<br/>")) ∧
    (∀ fp : Flightplan, ∃ rest : String,
      foundMessage env fp =
        "Found " ++ toString fp.entries.length ++ " waypoints. Flight plan from <b>" ++ rest) ∧
    (∀ fp : Flightplan,
      QString.hasNoMarker (env.distNm (env.getDistanceNm fp)) →
      QString.hasNoMarker fp.departureAiportName →
      QString.hasNoMarker fp.departureIdent →
      QString.hasNoMarker fp.destinationAiportName →
      foundMessage env fp =
        "Found " ++ toString fp.entries.length ++ " waypoints. Flight plan from <b>" ++
          fp.departureAiportName ++ " (" ++ fp.departureIdent ++ ")</b> to <b>" ++
          fp.destinationAiportName ++ " (" ++ fp.destinationIdent ++ ")</b>. Distance is " ++
          env.distNm (env.getDistanceNm fp) ++ ".<br/>") := by
  have hpane : (readClicked env s).dlg.ui.textEditRouteStringErrors =
      (if (readClickedParse env s).success
        then [successMessage env (readClickedParse env s).flightplan] else []) ++
      (readClickedParse env s).routeString.messages.map (fun err => err ++ "<br/>") := by
    show ((readClickedParse env s).routeString.messages.foldl
        (fun p err => p ++ [err ++ "<br/>"])
        (if (readClickedParse env s).success
          then [successMessage env (readClickedParse env s).flightplan] else [])) = _
    exact foldl_append_messages _ _
  refine ⟨hpane, ?_, rfl, ?_, foundMessage_prefix env, foundMessage_clean env⟩
  · intro hs hm
    rw [hpane]
    unfold readClickedParse
    rw [hs, hm]
    rfl
  · intro fp
    unfold successMessage
    simp only [departureMessage_eq, arrivalMessage_eq]
    cases h1 : (env.getSidAndTransition fp.properties).isEmpty <;>
    cases h2 : (env.getStarAndTransition fp.properties).isEmpty <;>
    simp [h1, h2, String.append_assoc]

/-- Witness of C5: with a parser that fails without a message the pane of the
sample dialog is empty after `readClicked`; with the sample parser and a text
in the editor the pane holds the summary for one entry. -/
theorem C5_readClicked_reports_parse_result_witness :
    (Example.silentEnv.createRouteFromString Example.sys.dlg.routeString
      Example.sys.dlg.ui.plainTextEditRouteString
      { Example.sys.dlg.flightplan.clear with properties := [] }
      Example.sys.dlg.speedKts).success = false ∧
    (Example.silentEnv.createRouteFromString Example.sys.dlg.routeString
      Example.sys.dlg.ui.plainTextEditRouteString
      { Example.sys.dlg.flightplan.clear with properties := [] }
      Example.sys.dlg.speedKts).routeString.messages = [] ∧
    (readClicked Example.silentEnv Example.sys).dlg.ui.textEditRouteStringErrors = [] ∧
    (readClicked Example.env Example.routeSys).dlg.ui.textEditRouteStringErrors =
      ["Found 1 waypoints. Flight plan from <b> ()</b> to <b> ()</b>. Distance is 0 nm.<br/>"] :=
  ⟨rfl, rfl,
   (C5_readClicked_reports_parse_result Example.silentEnv Example.sys).2.1 rfl rfl,
   (C5_readClicked_reports_parse_result Example.env Example.routeSys).1.trans (by decide)⟩

/-- C6: after `updateButtonState` the Read button is enabled exactly when the
text of the editor is not empty, the Update button exactly when the route of
the application is not empty, the To-Clipboard button is disabled exactly when
`cleanRouteString` of the text of the editor is the empty list, and the
From-Clipboard button is disabled exactly when the simplified text of the
clipboard is empty. The call changes neither the text, the route nor the
clipboard. -/
theorem C6_updateButtonState_buttons (env : Env) (s : Sys) :
    ((updateButtonState env s).dlg.ui.pushButtonRouteStringRead = true ↔
      (updateButtonState env s).dlg.ui.plainTextEditRouteString ≠ "") ∧
    ((updateButtonState env s).dlg.ui.pushButtonRouteStringUpdate = true ↔
      (updateButtonState env s).app.route ≠ []) ∧
    ((updateButtonState env s).dlg.ui.pushButtonRouteStringToClipboard = false ↔
      env.cleanRouteString (updateButtonState env s).dlg.ui.plainTextEditRouteString = []) ∧
    ((updateButtonState env s).dlg.ui.pushButtonRouteStringFromClipboard = false ↔
      QString.simplified (updateButtonState env s).app.clipboard = "") ∧
    (updateButtonState env s).dlg.ui.plainTextEditRouteString =
      s.dlg.ui.plainTextEditRouteString ∧
    (updateButtonState env s).app = s.app := by
  refine ⟨?_, ?_, ?_, ?_, rfl, rfl⟩
  · show (!s.dlg.ui.plainTextEditRouteString.isEmpty) = true ↔
      s.dlg.ui.plainTextEditRouteString ≠ ""
    rw [Ne, ← String.isEmpty_iff]
    cases s.dlg.ui.plainTextEditRouteString.isEmpty <;> simp
  · show (!s.app.route.isEmpty) = true ↔ s.app.route ≠ []
    cases s.app.route <;> simp
  · show (!(env.cleanRouteString s.dlg.ui.plainTextEditRouteString).isEmpty) = false ↔
      env.cleanRouteString s.dlg.ui.plainTextEditRouteString = []
    cases env.cleanRouteString s.dlg.ui.plainTextEditRouteString <;> simp
  · show (!(QString.simplified s.app.clipboard).isEmpty) = false ↔
      QString.simplified s.app.clipboard = ""
    rw [← String.isEmpty_iff]
    cases (QString.simplified s.app.clipboard).isEmpty <;> simp

/-- C9: `getOptionsFromSettings` is the flag word of the integer stored under
the options key when there is one and `rs::DEFAULT_OPTIONS` when there is none,
and `restoreState` sets the options of the dialog to it. -/
theorem C9_getOptionsFromSettings (env : Env) (s : Sys) :
    getOptionsFromSettings env s.app =
      (match s.app.settings.lookup env.ROUTE_STRING_DIALOG_OPTIONS with
        | some v => rs.RouteStringOptions.ofInt v
        | none => env.DEFAULT_OPTIONS) ∧
    (restoreState env s).dlg.options = getOptionsFromSettings env s.app := by
  refine ⟨?_, rfl⟩
  unfold getOptionsFromSettings Settings.valueInt
  cases s.app.settings.lookup env.ROUTE_STRING_DIALOG_OPTIONS with
  | some v => rfl
  | none => exact rs.RouteStringOptions.ofInt_toInt _

/-- C10: `buttonBoxClicked` on a box whose three standard buttons are three
different widgets: the Ok button accepts the dialog, the Cancel button rejects
it, the Help button opens the online help and leaves the dialog as it is, and
every other button changes nothing. -/
theorem C10_buttonBoxClicked_outcome (env : Env) (s : Sys)
    (hoh : s.dlg.ui.buttonBoxRouteString.ok.ptr ≠ s.dlg.ui.buttonBoxRouteString.help.ptr)
    (hoc : s.dlg.ui.buttonBoxRouteString.ok.ptr ≠ s.dlg.ui.buttonBoxRouteString.cancel.ptr)
    (hhc : s.dlg.ui.buttonBoxRouteString.help.ptr ≠ s.dlg.ui.buttonBoxRouteString.cancel.ptr) :
    buttonBoxClicked env s s.dlg.ui.buttonBoxRouteString.ok.ptr =
      { s with dlg := { s.dlg with result := some DialogCode.Accepted } } ∧
    buttonBoxClicked env s s.dlg.ui.buttonBoxRouteString.cancel.ptr =
      { s with dlg := { s.dlg with result := some DialogCode.Rejected } } ∧
    buttonBoxClicked env s s.dlg.ui.buttonBoxRouteString.help.ptr =
      { s with app := { s.app with
          helpUrls := s.app.helpUrls ++ [env.HELP_ONLINE_URL ++ "ROUTEDESCR.html"] } } ∧
    ∀ button : Nat,
      button ≠ s.dlg.ui.buttonBoxRouteString.ok.ptr →
      button ≠ s.dlg.ui.buttonBoxRouteString.cancel.ptr →
      button ≠ s.dlg.ui.buttonBoxRouteString.help.ptr →
      buttonBoxClicked env s button = s := by
  refine ⟨?_, ?_, ?_, ?_⟩
  · simp [buttonBoxClicked, QDialogButtonBox.button]
  · simp [buttonBoxClicked, QDialogButtonBox.button, Ne.symm hoc, Ne.symm hhc]
  · simp [buttonBoxClicked, QDialogButtonBox.button, Ne.symm hoh]
  · intro button h1 h2 h3
    simp [buttonBoxClicked, QDialogButtonBox.button, h1, h2, h3]

/-- Witness of C10: the three standard buttons of the sample dialog are
different widgets, Ok accepts and a fourth button does nothing. -/
theorem C10_buttonBoxClicked_outcome_witness :
    Example.sys.dlg.ui.buttonBoxRouteString.ok.ptr ≠
      Example.sys.dlg.ui.buttonBoxRouteString.help.ptr ∧
    Example.sys.dlg.ui.buttonBoxRouteString.ok.ptr ≠
      Example.sys.dlg.ui.buttonBoxRouteString.cancel.ptr ∧
    Example.sys.dlg.ui.buttonBoxRouteString.help.ptr ≠
      Example.sys.dlg.ui.buttonBoxRouteString.cancel.ptr ∧
    (buttonBoxClicked Example.env Example.sys 1).dlg.result = some DialogCode.Accepted ∧
    buttonBoxClicked Example.env Example.sys 7 = Example.sys :=
  ⟨by decide, by decide, by decide,
   congrArg (fun t => t.dlg.result)
     (C10_buttonBoxClicked_outcome Example.env Example.sys (by decide) (by decide)
       (by decide)).1,
   (C10_buttonBoxClicked_outcome Example.env Example.sys (by decide) (by decide)
       (by decide)).2.2.2 7 (by decide) (by decide) (by decide)⟩

end RouteStringDialog


/-! ## The route string dialog: menu and flight plan -/

namespace RouteStringDialog

/-- C11: the constructor appends to the actions of the tool button one checkable,
unchecked action for `START_AND_DEST`, `DCT` and `ALT_AND_SPEED`, then one for
`SID_STAR` exactly when the database has SID and STAR, then one for
`SID_STAR_GENERIC`; the data of each action is the `int` of its flag, and, the
five flags being five different values, no flag is on two of these actions. -/
theorem C11_constructor_builds_options_menu (env : Env) (app : NavApp) (setupUi : Ui)
    (options : rs.RouteStringOptions) (speedKts : ℚ)
    (hdistinct : [env.START_AND_DEST, env.DCT, env.ALT_AND_SPEED, env.SID_STAR,
      env.SID_STAR_GENERIC].Nodup) :
    ∃ built : List QAction,
      (ctor env app setupUi options speedKts).dlg.ui.toolButtonRouteStringOptions =
        setupUi.toolButtonRouteStringOptions ++ built ∧
      built.map (fun a => a.data) =
        [env.START_AND_DEST.toInt, env.DCT.toInt, env.ALT_AND_SPEED.toInt] ++
        (if app.hasSidStarInDatabase then [env.SID_STAR.toInt] else []) ++
        [env.SID_STAR_GENERIC.toInt] ∧
      built.map (fun a => rs.RouteStringOptions.ofInt a.data) =
        [env.START_AND_DEST, env.DCT, env.ALT_AND_SPEED] ++
        (if app.hasSidStarInDatabase then [env.SID_STAR] else []) ++
        [env.SID_STAR_GENERIC] ∧
      (∀ a ∈ built, a.checkable = true ∧ a.checked = false) ∧
      (built.map (fun a => rs.RouteStringOptions.ofInt a.data)).Nodup ∧
      ((∃ a ∈ built, rs.RouteStringOptions.ofInt a.data = env.SID_STAR) ↔
        app.hasSidStarInDatabase = true) := by
  simp only [List.nodup_cons, List.mem_cons, List.mem_singleton, not_or, List.not_mem_nil,
    not_false_eq_true, List.nodup_nil, and_true] at hdistinct
  obtain ⟨⟨h12, h13, h14, h15⟩, ⟨h23, h24, h25⟩, ⟨h34, h35⟩, h45⟩ := hdistinct
  cases hs : app.hasSidStarInDatabase
  · refine ⟨[newOptionAction "Add departure and destination airport" env.START_AND_DEST,
      newOptionAction "Add DCT (direct) instructions" env.DCT,
      newOptionAction "Add cruise speed and altitude instruction" env.ALT_AND_SPEED,
      newOptionAction "Add generic SID and STAR" env.SID_STAR_GENERIC], ?_, ?_, ?_, ?_, ?_, ?_⟩
    · simp [ctor, hs]
    · simp [newOptionAction]
    · simp [newOptionAction, rs.RouteStringOptions.ofInt_toInt]
    · simp [newOptionAction]
    · simp [newOptionAction, rs.RouteStringOptions.ofInt_toInt, h12, h13, h15, h23, h25, h35]
    · simp [newOptionAction, rs.RouteStringOptions.ofInt_toInt, h14, h24, h34, Ne.symm h45]
  · refine ⟨[newOptionAction "Add departure and destination airport" env.START_AND_DEST,
      newOptionAction "Add DCT (direct) instructions" env.DCT,
      newOptionAction "Add cruise speed and altitude instruction" env.ALT_AND_SPEED,
      newOptionAction "Add SID and STAR" env.SID_STAR,
      newOptionAction "Add generic SID and STAR" env.SID_STAR_GENERIC], ?_, ?_, ?_, ?_, ?_, ?_⟩
    · simp [ctor, hs]
    · simp [newOptionAction]
    · simp [newOptionAction, rs.RouteStringOptions.ofInt_toInt]
    · simp [newOptionAction]
    · simp [newOptionAction, rs.RouteStringOptions.ofInt_toInt, h12, h13, h14, h15, h23, h24,
        h25, h34, h35, h45]
    · simp [newOptionAction, rs.RouteStringOptions.ofInt_toInt]

/-- Witness of C11: the five sample flags are different, and the menu of the
sample dialog, built with SID and STAR in the database, carries the data
2, 1, 4, 8 and 16. -/
theorem C11_constructor_builds_options_menu_witness :
    [Example.env.START_AND_DEST, Example.env.DCT, Example.env.ALT_AND_SPEED,
      Example.env.SID_STAR, Example.env.SID_STAR_GENERIC].Nodup ∧
    ∃ built : List QAction,
      (ctor Example.env Example.app Example.setupUi (rs.RouteStringOptions.ofInt 5)
          0).dlg.ui.toolButtonRouteStringOptions =
        Example.setupUi.toolButtonRouteStringOptions ++ built ∧
      built.map (fun a => a.data) =
        [Example.env.START_AND_DEST.toInt, Example.env.DCT.toInt,
          Example.env.ALT_AND_SPEED.toInt] ++
        (if Example.app.hasSidStarInDatabase then [Example.env.SID_STAR.toInt] else []) ++
        [Example.env.SID_STAR_GENERIC.toInt] :=
  ⟨by decide,
   (C11_constructor_builds_options_menu Example.env Example.app Example.setupUi
      (rs.RouteStringOptions.ofInt 5) 0 (by decide)).imp fun _ h => ⟨h.1, h.2.1⟩⟩

/-- C12: `readClicked` hands the parser a flight plan without entries and
without properties, whatever the dialog held before, and keeps what the parser
returns; when the parser adds no entry, the flight plan of the dialog has no
entries after `readClicked` and the Ok button is disabled. -/
theorem C12_readClicked_drops_earlier_entries (env : Env) (s : Sys) :
    (∃ fp0 : Flightplan, fp0.entries = [] ∧ fp0.properties = [] ∧
      readClickedParse env s =
        env.createRouteFromString s.dlg.routeString s.dlg.ui.plainTextEditRouteString fp0
          s.dlg.speedKts) ∧
    (∀ (entries : List FlightplanEntry) (properties : List (String × String)),
      readClickedParse env
          { s with dlg := { s.dlg with
              flightplan := { s.dlg.flightplan with
                entries := entries, properties := properties } } } =
        readClickedParse env s) ∧
    (readClicked env s).dlg.flightplan = (readClickedParse env s).flightplan ∧
    ((readClickedParse env s).flightplan.entries = [] →
      (readClicked env s).dlg.flightplan.entries = [] ∧
      (readClicked env s).dlg.ui.buttonBoxRouteString.ok.enabled = false) := by
  refine ⟨⟨{ s.dlg.flightplan.clear with properties := [] }, rfl, rfl, rfl⟩, fun _ _ => rfl,
    rfl, fun h => ⟨h, ?_⟩⟩
  show (!(readClickedParse env s).flightplan.entries.isEmpty) = false
  rw [h]
  rfl

/-- Witness of C12: the sample dialog, holding an entry of an earlier read, has
an empty flight plan and a disabled Ok button after `readClicked` with a parser
that adds nothing. -/
theorem C12_readClicked_drops_earlier_entries_witness :
    (readClickedParse Example.silentEnv
        { Example.sys with dlg := { Example.sys.dlg with
            flightplan := { Example.sys.dlg.flightplan with
              entries := [⟨"EDDF", ""⟩] } } }).flightplan.entries = [] ∧
    (readClicked Example.silentEnv
        { Example.sys with dlg := { Example.sys.dlg with
            flightplan := { Example.sys.dlg.flightplan with
              entries := [⟨"EDDF", ""⟩] } } }).dlg.flightplan.entries = [] ∧
    (readClicked Example.silentEnv
        { Example.sys with dlg := { Example.sys.dlg with
            flightplan := { Example.sys.dlg.flightplan with
              entries := [⟨"EDDF", ""⟩] } } }).dlg.ui.buttonBoxRouteString.ok.enabled = false :=
  ⟨rfl,
   (C12_readClicked_drops_earlier_entries Example.silentEnv
      { Example.sys with dlg := { Example.sys.dlg with
          flightplan := { Example.sys.dlg.flightplan with
            entries := [⟨"EDDF", ""⟩] } } }).2.2.2 rfl⟩

/-- One turn of the loop of `toolButtonOptionsTriggered` on an action that
`updateButtonState` has just checked or unchecked leaves the options as they
are, when the flag of the action has at most one bit. -/
theorem step_setChecked_eq (o : rs.RouteStringOptions) (act : QAction)
    (hbit : (rs.RouteStringOptions.ofInt act.data).i = 0 ∨
      ∃ k, (rs.RouteStringOptions.ofInt act.data).i = 2 ^ k) :
    (if (act.setChecked ((rs.RouteStringOptions.ofInt act.data).and o).toBool).checked
      then o.or (rs.RouteStringOptions.ofInt
        (act.setChecked ((rs.RouteStringOptions.ofInt act.data).and o).toBool).data)
      else o.and (rs.RouteStringOptions.ofInt
        (act.setChecked ((rs.RouteStringOptions.ofInt act.data).and o).toBool).data).not) =
      o := by
  have hdata : (act.setChecked ((rs.RouteStringOptions.ofInt act.data).and o).toBool).data =
      act.data := rfl
  have hchk : (act.setChecked ((rs.RouteStringOptions.ofInt act.data).and o).toBool).checked =
      ((rs.RouteStringOptions.ofInt act.data).and o).toBool := rfl
  rw [hdata, hchk]
  apply rs.RouteStringOptions.eq_of_testBit
  intro n
  by_cases hc : ((rs.RouteStringOptions.ofInt act.data).and o).toBool = true
  · rw [if_pos hc, rs.RouteStringOptions.testBit_or]
    -- some bit is in the flag and in the options; it is the only bit of the flag
    have hne : ((rs.RouteStringOptions.ofInt act.data).and o).i ≠ 0 := by
      simpa [rs.RouteStringOptions.toBool] using hc
    obtain ⟨j, hj⟩ := Nat.ne_zero_implies_bit_true hne
    have hj2 : (rs.RouteStringOptions.ofInt act.data).testBit j = true ∧ o.testBit j = true := by
      have := rs.RouteStringOptions.testBit_and (rs.RouteStringOptions.ofInt act.data) o j
      unfold rs.RouteStringOptions.testBit at this ⊢
      rw [hj] at this
      simpa using this.symm
    by_cases hf : (rs.RouteStringOptions.ofInt act.data).testBit n = true
    · have hnj : n = j := by
        rcases hbit with h0 | ⟨k, hk⟩
        · unfold rs.RouteStringOptions.testBit at hf
          rw [h0] at hf
          simp at hf
        · have h1 := hf
          have h2 := hj2.1
          unfold rs.RouteStringOptions.testBit at h1 h2
          rw [hk, Nat.testBit_two_pow] at h1 h2
          have e1 : k = n := by simpa using h1
          have e2 : k = j := by simpa using h2
          omega
      rw [hnj, hj2.2]
      rfl
    · have hf2 : (rs.RouteStringOptions.ofInt act.data).testBit n = false := by simpa using hf
      rw [hf2, Bool.or_false]
  · rw [if_neg hc, rs.RouteStringOptions.testBit_and, rs.RouteStringOptions.testBit_not]
    have hz : ((rs.RouteStringOptions.ofInt act.data).and o).i = 0 := by
      simpa [rs.RouteStringOptions.toBool] using hc
    by_cases ho : o.testBit n = true
    · have hn : n < 32 := by
        by_contra hge
        rw [rs.RouteStringOptions.testBit_of_ge o n (by omega)] at ho
        cases ho
      have hf : (rs.RouteStringOptions.ofInt act.data).testBit n = false := by
        have := rs.RouteStringOptions.testBit_and (rs.RouteStringOptions.ofInt act.data) o n
        rw [ho, Bool.and_true] at this
        rw [← this]
        unfold rs.RouteStringOptions.testBit
        rw [hz]
        simp
      simp [ho, hn, hf]
    · have ho2 : o.testBit n = false := by simpa using ho
      simp [ho2]

/-- C13: for a menu whose actions each carry a flag with at most one bit,
`updateButtonState` followed by `toolButtonOptionsTriggered` leaves the options
as they were. -/
theorem C13_menu_options_round_trip (env : Env) (s : Sys) (action : QAction)
    (hbit : ∀ a ∈ s.dlg.ui.toolButtonRouteStringOptions,
      (rs.RouteStringOptions.ofInt a.data).i = 0 ∨
      ∃ k, (rs.RouteStringOptions.ofInt a.data).i = 2 ^ k) :
    (toolButtonOptionsTriggered (updateButtonState env s) action).dlg.options =
      s.dlg.options := by
  rw [toolButtonOptionsTriggered_options]
  show (s.dlg.ui.toolButtonRouteStringOptions.map fun act =>
      act.setChecked ((rs.RouteStringOptions.ofInt act.data).and s.dlg.options).toBool).foldl
        (fun options act =>
          if act.checked then options.or (rs.RouteStringOptions.ofInt act.data)
          else options.and (rs.RouteStringOptions.ofInt act.data).not)
        s.dlg.options = s.dlg.options
  generalize s.dlg.options = o
  generalize s.dlg.ui.toolButtonRouteStringOptions = acts at hbit ⊢
  induction acts with
  | nil => rfl
  | cons x rest ih =>
    rw [List.map_cons, List.foldl_cons, step_setChecked_eq o x (hbit x (List.mem_cons_self _ _))]
    exact ih (fun a ha => hbit a (List.mem_cons_of_mem _ ha))

/-- Witness of C13: the flags 2 and 1 of the sample menu have one bit each, and
the options 5 of the sample dialog come back after the round trip. -/
theorem C13_menu_options_round_trip_witness :
    (∀ a ∈ Example.menuSys.dlg.ui.toolButtonRouteStringOptions,
      (rs.RouteStringOptions.ofInt a.data).i = 0 ∨
      ∃ k, (rs.RouteStringOptions.ofInt a.data).i = 2 ^ k) ∧
    (toolButtonOptionsTriggered (updateButtonState Example.env Example.menuSys)
        (newOptionAction "" Example.env.DCT)).dlg.options = rs.RouteStringOptions.ofInt 5 :=
  ⟨fun a ha => by
      simp only [Example.menuSys, List.mem_cons, List.mem_singleton, List.not_mem_nil,
        or_false] at ha
      rcases ha with rfl | rfl
      · exact Or.inr ⟨1, rfl⟩
      · exact Or.inr ⟨0, rfl⟩,
   C13_menu_options_round_trip Example.env Example.menuSys (newOptionAction "" Example.env.DCT)
     (fun a ha => by
      simp only [Example.menuSys, List.mem_cons, List.mem_singleton, List.not_mem_nil,
        or_false] at ha
      rcases ha with rfl | rfl
      · exact Or.inr ⟨1, rfl⟩
      · exact Or.inr ⟨0, rfl⟩)⟩

end RouteStringDialog
/-! ## The HTML information builder -/

namespace HtmlInfoBuilder

theorem keepsBuilder_pure {α : Type} (a : α) : KeepsBuilder (pure a : Method α) :=
  ⟨fun _ => .ok (a, []), fun c => by
    simp [StateT.run, Pure.pure, StateT.pure, Except.pure, Except.map]⟩

theorem keepsBuilder_call (x : HtmlCall) : KeepsBuilder (call x) :=
  ⟨fun _ => .ok ((), [x]), fun c => by
    simp [call, StateT.run, modify, modifyGet, MonadStateOf.modifyGet,
      StateT.modifyGet, Pure.pure, Except.pure, Except.map]⟩

theorem keepsBuilder_this : KeepsBuilder this :=
  ⟨fun self => .ok (self, []), fun c => by
    simp [this, StateT.run, Pure.pure, Except.pure, Except.map]⟩

theorem keepsBuilder_throw {α : Type} (e : Fault) : KeepsBuilder (throw e : Method α) :=
  ⟨fun _ => .error e, fun _ => rfl⟩

theorem keepsBuilder_bind {α β : Type} {m : Method α} {g : α → Method β}
    (hm : KeepsBuilder m) (hg : ∀ a, KeepsBuilder (g a)) : KeepsBuilder (m >>= g) := by
  obtain ⟨f, hf⟩ := hm
  choose k hk using hg
  refine ⟨fun self =>
    match f self with
    | .error e => .error e
    | .ok (a, l₁) =>
      match k a self with
      | .error e => .error e
      | .ok (b, l₂) => .ok (b, l₁ ++ l₂), fun c => ?_⟩
  rw [StateT.run_bind, hf c]
  cases h1 : f c.self with
  | error e => simp [Except.map, bind, Except.bind, h1]
  | ok r =>
    obtain ⟨a, l₁⟩ := r
    simp only [Except.map, bind, Except.bind]
    rw [hk a]
    cases h2 : k a c.self with
    | error e => simp [Except.map, h1, h2]
    | ok r2 => simp [Except.map, List.append_assoc, h1, h2]

theorem keepsBuilder_ite {α : Type} {p : Prop} [Decidable p] {m₁ m₂ : Method α}
    (h₁ : KeepsBuilder m₁) (h₂ : KeepsBuilder m₂) : KeepsBuilder (if p then m₁ else m₂) := by
  split
  · exact h₁
  · exact h₂

theorem keepsBuilder_forM {α : Type} (l : List α) {g : α → Method PUnit}
    (hg : ∀ a, KeepsBuilder (g a)) : KeepsBuilder (l.forM g) := by
  induction l with
  | nil => exact keepsBuilder_pure _
  | cons a rest ih => exact keepsBuilder_bind (hg a) (fun _ => ih)

theorem keepsBuilder_deref {α : Type} (p : Option α) : KeepsBuilder (deref p) := by
  cases p with
  | none => exact keepsBuilder_throw _
  | some a => exact keepsBuilder_pure a

theorem keepsBuilder_head (text : String) : KeepsBuilder (head text) :=
  keepsBuilder_bind keepsBuilder_this fun _ =>
    keepsBuilder_ite (keepsBuilder_call _) (keepsBuilder_call _)

theorem keepsBuilder_title (text : String) :
    KeepsBuilder (title text) := by
  unfold title
  repeat' first
    | with_reducible exact keepsBuilder_this
    | with_reducible exact keepsBuilder_call _
    | with_reducible exact keepsBuilder_pure _
    | with_reducible exact keepsBuilder_throw _
    | with_reducible exact keepsBuilder_deref _
    | with_reducible exact keepsBuilder_head _
    | with_reducible apply keepsBuilder_ite
    | with_reducible apply keepsBuilder_bind
    | with_reducible apply keepsBuilder_forM
    | intro _
    | split

theorem keepsBuilder_airportTitle (env : HtmlEnv) (airport : MapAirport) (background : String) :
    KeepsBuilder (airportTitle env airport background) := by
  unfold airportTitle
  repeat' first
    | with_reducible exact keepsBuilder_this
    | with_reducible exact keepsBuilder_call _
    | with_reducible exact keepsBuilder_pure _
    | with_reducible exact keepsBuilder_throw _
    | with_reducible exact keepsBuilder_deref _
    | with_reducible exact keepsBuilder_head _
    | with_reducible apply keepsBuilder_ite
    | with_reducible apply keepsBuilder_bind
    | with_reducible apply keepsBuilder_forM
    | intro _
    | split

theorem keepsBuilder_addScenery (rec : SqlRecord) :
    KeepsBuilder (addScenery rec) := by
  unfold addScenery
  repeat' first
    | with_reducible exact keepsBuilder_this
    | with_reducible exact keepsBuilder_call _
    | with_reducible exact keepsBuilder_pure _
    | with_reducible exact keepsBuilder_throw _
    | with_reducible exact keepsBuilder_deref _
    | with_reducible exact keepsBuilder_head _
    | with_reducible apply keepsBuilder_ite
    | with_reducible apply keepsBuilder_bind
    | with_reducible apply keepsBuilder_forM
    | intro _
    | split

theorem keepsBuilder_addCoordinates (env : HtmlEnv) (rec : Option SqlRecord) :
    KeepsBuilder (addCoordinates env rec) := by
  unfold addCoordinates
  repeat' first
    | with_reducible exact keepsBuilder_this
    | with_reducible exact keepsBuilder_call _
    | with_reducible exact keepsBuilder_pure _
    | with_reducible exact keepsBuilder_throw _
    | with_reducible exact keepsBuilder_deref _
    | with_reducible exact keepsBuilder_head _
    | with_reducible apply keepsBuilder_ite
    | with_reducible apply keepsBuilder_bind
    | with_reducible apply keepsBuilder_forM
    | intro _
    | split

theorem keepsBuilder_rowForFloat (rec : SqlRecord) (colName msg val : String) (precision : Nat) :
    KeepsBuilder (rowForFloat rec colName msg val precision) := by
  unfold rowForFloat
  repeat' first
    | with_reducible exact keepsBuilder_this
    | with_reducible exact keepsBuilder_call _
    | with_reducible exact keepsBuilder_pure _
    | with_reducible exact keepsBuilder_throw _
    | with_reducible exact keepsBuilder_deref _
    | with_reducible exact keepsBuilder_head _
    | with_reducible apply keepsBuilder_ite
    | with_reducible apply keepsBuilder_bind
    | with_reducible apply keepsBuilder_forM
    | intro _
    | split

theorem keepsBuilder_rowForInt (rec : SqlRecord) (colName msg val : String) :
    KeepsBuilder (rowForInt rec colName msg val) := by
  unfold rowForInt
  repeat' first
    | with_reducible exact keepsBuilder_this
    | with_reducible exact keepsBuilder_call _
    | with_reducible exact keepsBuilder_pure _
    | with_reducible exact keepsBuilder_throw _
    | with_reducible exact keepsBuilder_deref _
    | with_reducible exact keepsBuilder_head _
    | with_reducible apply keepsBuilder_ite
    | with_reducible apply keepsBuilder_bind
    | with_reducible apply keepsBuilder_forM
    | intro _
    | split

theorem keepsBuilder_rowForBool (rec : SqlRecord) (colName msg : String) (expected : Bool) :
    KeepsBuilder (rowForBool rec colName msg expected) := by
  unfold rowForBool
  repeat' first
    | with_reducible exact keepsBuilder_this
    | with_reducible exact keepsBuilder_call _
    | with_reducible exact keepsBuilder_pure _
    | with_reducible exact keepsBuilder_throw _
    | with_reducible exact keepsBuilder_deref _
    | with_reducible exact keepsBuilder_head _
    | with_reducible apply keepsBuilder_ite
    | with_reducible apply keepsBuilder_bind
    | with_reducible apply keepsBuilder_forM
    | intro _
    | split

theorem keepsBuilder_rowForStr (rec : SqlRecord) (colName msg val : String) :
    KeepsBuilder (rowForStr rec colName msg val) := by
  unfold rowForStr
  repeat' first
    | with_reducible exact keepsBuilder_this
    | with_reducible exact keepsBuilder_call _
    | with_reducible exact keepsBuilder_pure _
    | with_reducible exact keepsBuilder_throw _
    | with_reducible exact keepsBuilder_deref _
    | with_reducible exact keepsBuilder_head _
    | with_reducible apply keepsBuilder_ite
    | with_reducible apply keepsBuilder_bind
    | with_reducible apply keepsBuilder_forM
    | intro _
    | split

theorem keepsBuilder_rowForStrCap (env : HtmlEnv) (rec : SqlRecord) (colName msg val : String) :
    KeepsBuilder (rowForStrCap env rec colName msg val) := by
  unfold rowForStrCap
  repeat' first
    | with_reducible exact keepsBuilder_this
    | with_reducible exact keepsBuilder_call _
    | with_reducible exact keepsBuilder_pure _
    | with_reducible exact keepsBuilder_throw _
    | with_reducible exact keepsBuilder_deref _
    | with_reducible exact keepsBuilder_head _
    | with_reducible apply keepsBuilder_ite
    | with_reducible apply keepsBuilder_bind
    | with_reducible apply keepsBuilder_forM
    | intro _
    | split

theorem keepsBuilder_airportWeather (airport : MapAirport) (weather : WeatherReporter) :
    KeepsBuilder (airportWeather airport weather) := by
  unfold airportWeather
  repeat' first
    | with_reducible exact keepsBuilder_this
    | with_reducible exact keepsBuilder_call _
    | with_reducible exact keepsBuilder_pure _
    | with_reducible exact keepsBuilder_throw _
    | with_reducible exact keepsBuilder_deref _
    | with_reducible exact keepsBuilder_head _
    | with_reducible apply keepsBuilder_ite
    | with_reducible apply keepsBuilder_bind
    | with_reducible apply keepsBuilder_forM
    | intro _
    | split

theorem keepsBuilder_airportParkingRows (env : HtmlEnv) (rec : SqlRecord) :
    KeepsBuilder (airportParkingRows env rec) := by
  unfold airportParkingRows
  repeat' first
    | with_reducible exact keepsBuilder_this
    | with_reducible exact keepsBuilder_call _
    | with_reducible exact keepsBuilder_pure _
    | with_reducible exact keepsBuilder_throw _
    | with_reducible exact keepsBuilder_deref _
    | with_reducible exact keepsBuilder_head _
    | with_reducible apply keepsBuilder_ite
    | with_reducible apply keepsBuilder_bind
    | with_reducible apply keepsBuilder_forM
    | intro _
    | split

theorem keepsBuilder_airportParking (env : HtmlEnv) (rec : SqlRecord) :
    KeepsBuilder (airportParking env rec) := by
  unfold airportParking
  repeat' first
    | with_reducible exact keepsBuilder_this
    | with_reducible exact keepsBuilder_call _
    | with_reducible exact keepsBuilder_pure _
    | with_reducible exact keepsBuilder_throw _
    | with_reducible exact keepsBuilder_deref _
    | with_reducible exact keepsBuilder_head _
    | with_reducible exact keepsBuilder_airportParkingRows _ _
    | with_reducible apply keepsBuilder_ite
    | with_reducible apply keepsBuilder_bind
    | with_reducible apply keepsBuilder_forM
    | intro _
    | split

theorem keepsBuilder_airportText (env : HtmlEnv) (airport : MapAirport)
    (routeMapObjects : Option RouteMapObjectList) (weather : Option WeatherReporter)
    (background : String) :
    KeepsBuilder (airportText env airport routeMapObjects weather background) := by
  unfold airportText
  repeat' first
    | with_reducible exact keepsBuilder_this
    | with_reducible exact keepsBuilder_call _
    | with_reducible exact keepsBuilder_pure _
    | with_reducible exact keepsBuilder_throw _
    | with_reducible exact keepsBuilder_deref _
    | with_reducible exact keepsBuilder_head _
    | with_reducible exact keepsBuilder_airportTitle _ _ _
    | with_reducible exact keepsBuilder_addCoordinates _ _
    | with_reducible exact keepsBuilder_addScenery _
    | with_reducible exact keepsBuilder_airportWeather _ _
    | with_reducible exact keepsBuilder_airportParking _ _
    | with_reducible apply keepsBuilder_ite
    | with_reducible apply keepsBuilder_bind
    | with_reducible apply keepsBuilder_forM
    | intro _
    | split

theorem keepsBuilder_comRow (env : HtmlEnv) (rec : SqlRecord) :
    KeepsBuilder (comRow env rec) := by
  unfold comRow
  repeat' first
    | with_reducible exact keepsBuilder_this
    | with_reducible exact keepsBuilder_call _
    | with_reducible exact keepsBuilder_pure _
    | with_reducible exact keepsBuilder_throw _
    | with_reducible exact keepsBuilder_deref _
    | with_reducible exact keepsBuilder_head _
    | with_reducible apply keepsBuilder_ite
    | with_reducible apply keepsBuilder_bind
    | with_reducible apply keepsBuilder_forM
    | intro _
    | split

theorem keepsBuilder_comText (env : HtmlEnv) (airport : MapAirport) (background : String) :
    KeepsBuilder (comText env airport background) := by
  unfold comText
  repeat' first
    | with_reducible exact keepsBuilder_this
    | with_reducible exact keepsBuilder_call _
    | with_reducible exact keepsBuilder_pure _
    | with_reducible exact keepsBuilder_throw _
    | with_reducible exact keepsBuilder_deref _
    | with_reducible exact keepsBuilder_head _
    | with_reducible exact keepsBuilder_airportTitle _ _ _
    | with_reducible exact keepsBuilder_comRow _ _
    | with_reducible apply keepsBuilder_ite
    | with_reducible apply keepsBuilder_bind
    | with_reducible apply keepsBuilder_forM
    | intro _
    | split

theorem keepsBuilder_runwayEndIls (env : HtmlEnv) (ilsRec : SqlRecord) :
    KeepsBuilder (runwayEndIls env ilsRec) := by
  unfold runwayEndIls
  repeat' first
    | with_reducible exact keepsBuilder_this
    | with_reducible exact keepsBuilder_call _
    | with_reducible exact keepsBuilder_pure _
    | with_reducible exact keepsBuilder_throw _
    | with_reducible exact keepsBuilder_deref _
    | with_reducible exact keepsBuilder_head _
    | with_reducible exact keepsBuilder_rowForFloat _ _ _ _ _
    | with_reducible exact keepsBuilder_rowForInt _ _ _ _
    | with_reducible exact keepsBuilder_rowForBool _ _ _ _
    | with_reducible exact keepsBuilder_rowForStr _ _ _ _
    | with_reducible exact keepsBuilder_rowForStrCap _ _ _ _ _
    | with_reducible apply keepsBuilder_ite
    | with_reducible apply keepsBuilder_bind
    | with_reducible apply keepsBuilder_forM
    | intro _
    | split

theorem keepsBuilder_runwayEndText (env : HtmlEnv) (rec : Option SqlRecord) (hdgPrim : ℚ) (length : Int) :
    KeepsBuilder (runwayEndText env rec hdgPrim length) := by
  unfold runwayEndText
  repeat' first
    | with_reducible exact keepsBuilder_this
    | with_reducible exact keepsBuilder_call _
    | with_reducible exact keepsBuilder_pure _
    | with_reducible exact keepsBuilder_throw _
    | with_reducible exact keepsBuilder_deref _
    | with_reducible exact keepsBuilder_head _
    | with_reducible exact keepsBuilder_rowForFloat _ _ _ _ _
    | with_reducible exact keepsBuilder_rowForInt _ _ _ _
    | with_reducible exact keepsBuilder_rowForBool _ _ _ _
    | with_reducible exact keepsBuilder_rowForStr _ _ _ _
    | with_reducible exact keepsBuilder_rowForStrCap _ _ _ _ _
    | with_reducible exact keepsBuilder_runwayEndIls _ _
    | with_reducible apply keepsBuilder_ite
    | with_reducible apply keepsBuilder_bind
    | with_reducible apply keepsBuilder_forM
    | intro _
    | split

theorem keepsBuilder_runwayRow (env : HtmlEnv) (airport : MapAirport) (infoQuery : InfoQuery)
    (rec : SqlRecord) :
    KeepsBuilder (runwayRow env airport infoQuery rec) := by
  unfold runwayRow
  repeat' first
    | with_reducible exact keepsBuilder_this
    | with_reducible exact keepsBuilder_call _
    | with_reducible exact keepsBuilder_pure _
    | with_reducible exact keepsBuilder_throw _
    | with_reducible exact keepsBuilder_deref _
    | with_reducible exact keepsBuilder_head _
    | with_reducible exact keepsBuilder_rowForFloat _ _ _ _ _
    | with_reducible exact keepsBuilder_rowForInt _ _ _ _
    | with_reducible exact keepsBuilder_rowForBool _ _ _ _
    | with_reducible exact keepsBuilder_rowForStr _ _ _ _
    | with_reducible exact keepsBuilder_rowForStrCap _ _ _ _ _
    | with_reducible exact keepsBuilder_runwayEndText _ _ _ _
    | with_reducible apply keepsBuilder_ite
    | with_reducible apply keepsBuilder_bind
    | with_reducible apply keepsBuilder_forM
    | intro _
    | split

theorem keepsBuilder_runwayText (env : HtmlEnv) (airport : MapAirport) (background : String) :
    KeepsBuilder (runwayText env airport background) := by
  unfold runwayText
  repeat' first
    | with_reducible exact keepsBuilder_this
    | with_reducible exact keepsBuilder_call _
    | with_reducible exact keepsBuilder_pure _
    | with_reducible exact keepsBuilder_throw _
    | with_reducible exact keepsBuilder_deref _
    | with_reducible exact keepsBuilder_head _
    | with_reducible exact keepsBuilder_airportTitle _ _ _
    | with_reducible exact keepsBuilder_runwayRow _ _ _ _
    | with_reducible apply keepsBuilder_ite
    | with_reducible apply keepsBuilder_bind
    | with_reducible apply keepsBuilder_forM
    | intro _
    | split

theorem keepsBuilder_transitionRow (env : HtmlEnv) (runway : String) (recTrans : SqlRecord) :
    KeepsBuilder (transitionRow env runway recTrans) := by
  unfold transitionRow
  repeat' first
    | with_reducible exact keepsBuilder_this
    | with_reducible exact keepsBuilder_call _
    | with_reducible exact keepsBuilder_pure _
    | with_reducible exact keepsBuilder_throw _
    | with_reducible exact keepsBuilder_deref _
    | with_reducible exact keepsBuilder_head _
    | with_reducible exact keepsBuilder_rowForFloat _ _ _ _ _
    | with_reducible exact keepsBuilder_rowForInt _ _ _ _
    | with_reducible exact keepsBuilder_rowForBool _ _ _ _
    | with_reducible exact keepsBuilder_rowForStr _ _ _ _
    | with_reducible exact keepsBuilder_rowForStrCap _ _ _ _ _
    | with_reducible apply keepsBuilder_ite
    | with_reducible apply keepsBuilder_bind
    | with_reducible apply keepsBuilder_forM
    | intro _
    | split

theorem keepsBuilder_approachRow (env : HtmlEnv) (airport : MapAirport) (infoQuery : InfoQuery)
    (recApp : SqlRecord) :
    KeepsBuilder (approachRow env airport infoQuery recApp) := by
  unfold approachRow
  repeat' first
    | with_reducible exact keepsBuilder_this
    | with_reducible exact keepsBuilder_call _
    | with_reducible exact keepsBuilder_pure _
    | with_reducible exact keepsBuilder_throw _
    | with_reducible exact keepsBuilder_deref _
    | with_reducible exact keepsBuilder_head _
    | with_reducible exact keepsBuilder_rowForFloat _ _ _ _ _
    | with_reducible exact keepsBuilder_rowForInt _ _ _ _
    | with_reducible exact keepsBuilder_rowForBool _ _ _ _
    | with_reducible exact keepsBuilder_rowForStr _ _ _ _
    | with_reducible exact keepsBuilder_rowForStrCap _ _ _ _ _
    | with_reducible exact keepsBuilder_transitionRow _ _ _
    | with_reducible apply keepsBuilder_ite
    | with_reducible apply keepsBuilder_bind
    | with_reducible apply keepsBuilder_forM
    | intro _
    | split

theorem keepsBuilder_approachText (env : HtmlEnv) (airport : MapAirport) (background : String) :
    KeepsBuilder (approachText env airport background) := by
  unfold approachText
  repeat' first
    | with_reducible exact keepsBuilder_this
    | with_reducible exact keepsBuilder_call _
    | with_reducible exact keepsBuilder_pure _
    | with_reducible exact keepsBuilder_throw _
    | with_reducible exact keepsBuilder_deref _
    | with_reducible exact keepsBuilder_head _
    | with_reducible exact keepsBuilder_airportTitle _ _ _
    | with_reducible exact keepsBuilder_approachRow _ _ _ _
    | with_reducible apply keepsBuilder_ite
    | with_reducible apply keepsBuilder_bind
    | with_reducible apply keepsBuilder_forM
    | intro _
    | split

theorem keepsBuilder_vorText (env : HtmlEnv) (vor : MapVor) (background : String) :
    KeepsBuilder (vorText env vor background) := by
  unfold vorText
  repeat' first
    | with_reducible exact keepsBuilder_this
    | with_reducible exact keepsBuilder_call _
    | with_reducible exact keepsBuilder_pure _
    | with_reducible exact keepsBuilder_throw _
    | with_reducible exact keepsBuilder_deref _
    | with_reducible exact keepsBuilder_head _
    | with_reducible exact keepsBuilder_title _
    | with_reducible exact keepsBuilder_addCoordinates _ _
    | with_reducible exact keepsBuilder_addScenery _
    | with_reducible apply keepsBuilder_ite
    | with_reducible apply keepsBuilder_bind
    | with_reducible apply keepsBuilder_forM
    | intro _
    | split

theorem keepsBuilder_ndbText (env : HtmlEnv) (ndb : MapNdb) (background : String) :
    KeepsBuilder (ndbText env ndb background) := by
  unfold ndbText
  repeat' first
    | with_reducible exact keepsBuilder_this
    | with_reducible exact keepsBuilder_call _
    | with_reducible exact keepsBuilder_pure _
    | with_reducible exact keepsBuilder_throw _
    | with_reducible exact keepsBuilder_deref _
    | with_reducible exact keepsBuilder_head _
    | with_reducible exact keepsBuilder_title _
    | with_reducible exact keepsBuilder_addCoordinates _ _
    | with_reducible exact keepsBuilder_addScenery _
    | with_reducible apply keepsBuilder_ite
    | with_reducible apply keepsBuilder_bind
    | with_reducible apply keepsBuilder_forM
    | intro _
    | split

theorem keepsBuilder_waypointText (env : HtmlEnv) (waypoint : MapWaypoint) (background : String) :
    KeepsBuilder (waypointText env waypoint background) := by
  unfold waypointText
  repeat' first
    | with_reducible exact keepsBuilder_this
    | with_reducible exact keepsBuilder_call _
    | with_reducible exact keepsBuilder_pure _
    | with_reducible exact keepsBuilder_throw _
    | with_reducible exact keepsBuilder_deref _
    | with_reducible exact keepsBuilder_head _
    | with_reducible exact keepsBuilder_title _
    | with_reducible exact keepsBuilder_addCoordinates _ _
    | with_reducible exact keepsBuilder_addScenery _
    | with_reducible apply keepsBuilder_ite
    | with_reducible apply keepsBuilder_bind
    | with_reducible apply keepsBuilder_forM
    | intro _
    | split

theorem keepsBuilder_airwayText (env : HtmlEnv) (airway : MapAirway) :
    KeepsBuilder (airwayText env airway) := by
  unfold airwayText
  repeat' first
    | with_reducible exact keepsBuilder_this
    | with_reducible exact keepsBuilder_call _
    | with_reducible exact keepsBuilder_pure _
    | with_reducible exact keepsBuilder_throw _
    | with_reducible exact keepsBuilder_deref _
    | with_reducible exact keepsBuilder_head _
    | with_reducible exact keepsBuilder_title _
    | with_reducible exact keepsBuilder_addCoordinates _ _
    | with_reducible exact keepsBuilder_addScenery _
    | with_reducible apply keepsBuilder_ite
    | with_reducible apply keepsBuilder_bind
    | with_reducible apply keepsBuilder_forM
    | intro _
    | split

theorem keepsBuilder_markerText (m : MapMarker) :
    KeepsBuilder (markerText m) := by
  unfold markerText
  repeat' first
    | with_reducible exact keepsBuilder_this
    | with_reducible exact keepsBuilder_call _
    | with_reducible exact keepsBuilder_pure _
    | with_reducible exact keepsBuilder_throw _
    | with_reducible exact keepsBuilder_deref _
    | with_reducible exact keepsBuilder_head _
    | with_reducible apply keepsBuilder_ite
    | with_reducible apply keepsBuilder_bind
    | with_reducible apply keepsBuilder_forM
    | intro _
    | split

theorem keepsBuilder_towerText (airport : MapAirport) :
    KeepsBuilder (towerText airport) := by
  unfold towerText
  repeat' first
    | with_reducible exact keepsBuilder_this
    | with_reducible exact keepsBuilder_call _
    | with_reducible exact keepsBuilder_pure _
    | with_reducible exact keepsBuilder_throw _
    | with_reducible exact keepsBuilder_deref _
    | with_reducible exact keepsBuilder_head _
    | with_reducible apply keepsBuilder_ite
    | with_reducible apply keepsBuilder_bind
    | with_reducible apply keepsBuilder_forM
    | intro _
    | split

theorem keepsBuilder_parkingText (env : HtmlEnv) (parking : MapParking) :
    KeepsBuilder (parkingText env parking) := by
  unfold parkingText
  repeat' first
    | with_reducible exact keepsBuilder_this
    | with_reducible exact keepsBuilder_call _
    | with_reducible exact keepsBuilder_pure _
    | with_reducible exact keepsBuilder_throw _
    | with_reducible exact keepsBuilder_deref _
    | with_reducible exact keepsBuilder_head _
    | with_reducible apply keepsBuilder_ite
    | with_reducible apply keepsBuilder_bind
    | with_reducible apply keepsBuilder_forM
    | intro _
    | split

theorem keepsBuilder_helipadText (env : HtmlEnv) (helipad : MapHelipad) :
    KeepsBuilder (helipadText env helipad) := by
  unfold helipadText
  repeat' first
    | with_reducible exact keepsBuilder_this
    | with_reducible exact keepsBuilder_call _
    | with_reducible exact keepsBuilder_pure _
    | with_reducible exact keepsBuilder_throw _
    | with_reducible exact keepsBuilder_deref _
    | with_reducible exact keepsBuilder_head _
    | with_reducible apply keepsBuilder_ite
    | with_reducible apply keepsBuilder_bind
    | with_reducible apply keepsBuilder_forM
    | intro _
    | split

theorem keepsBuilder_userpointText (userpoint : MapUserpoint) :
    KeepsBuilder (userpointText userpoint) := by
  unfold userpointText
  repeat' first
    | with_reducible exact keepsBuilder_this
    | with_reducible exact keepsBuilder_call _
    | with_reducible exact keepsBuilder_pure _
    | with_reducible exact keepsBuilder_throw _
    | with_reducible exact keepsBuilder_deref _
    | with_reducible exact keepsBuilder_head _
    | with_reducible apply keepsBuilder_ite
    | with_reducible apply keepsBuilder_bind
    | with_reducible apply keepsBuilder_forM
    | intro _
    | split

theorem keepsBuilder_aircraftTitle (data : SimConnectData) :
    KeepsBuilder (aircraftTitle data) := by
  unfold aircraftTitle
  repeat' first
    | with_reducible exact keepsBuilder_this
    | with_reducible exact keepsBuilder_call _
    | with_reducible exact keepsBuilder_pure _
    | with_reducible exact keepsBuilder_throw _
    | with_reducible exact keepsBuilder_deref _
    | with_reducible exact keepsBuilder_head _
    | with_reducible apply keepsBuilder_ite
    | with_reducible apply keepsBuilder_bind
    | with_reducible apply keepsBuilder_forM
    | intro _
    | split

theorem keepsBuilder_aircraftText (data : SimConnectData) :
    KeepsBuilder (aircraftText data) := by
  unfold aircraftText
  repeat' first
    | with_reducible exact keepsBuilder_this
    | with_reducible exact keepsBuilder_call _
    | with_reducible exact keepsBuilder_pure _
    | with_reducible exact keepsBuilder_throw _
    | with_reducible exact keepsBuilder_deref _
    | with_reducible exact keepsBuilder_head _
    | with_reducible exact keepsBuilder_aircraftTitle _
    | with_reducible apply keepsBuilder_ite
    | with_reducible apply keepsBuilder_bind
    | with_reducible apply keepsBuilder_forM
    | intro _
    | split

theorem keepsBuilder_progressTables (env : HtmlEnv) (data : SimConnectData)
    (rmoList : RouteMapObjectList) (d : RouteDistances) :
    KeepsBuilder (progressTables env data rmoList d) := by
  unfold progressTables
  repeat' first
    | with_reducible exact keepsBuilder_this
    | with_reducible exact keepsBuilder_call _
    | with_reducible exact keepsBuilder_pure _
    | with_reducible exact keepsBuilder_throw _
    | with_reducible exact keepsBuilder_deref _
    | with_reducible exact keepsBuilder_head _
    | with_reducible apply keepsBuilder_ite
    | with_reducible apply keepsBuilder_bind
    | with_reducible apply keepsBuilder_forM
    | intro _
    | split

theorem keepsBuilder_aircraftProgressText (env : HtmlEnv) (data : SimConnectData)
    (rmoList : RouteMapObjectList) :
    KeepsBuilder (aircraftProgressText env data rmoList) := by
  unfold aircraftProgressText
  repeat' first
    | with_reducible exact keepsBuilder_this
    | with_reducible exact keepsBuilder_call _
    | with_reducible exact keepsBuilder_pure _
    | with_reducible exact keepsBuilder_throw _
    | with_reducible exact keepsBuilder_deref _
    | with_reducible exact keepsBuilder_head _
    | with_reducible exact keepsBuilder_aircraftTitle _
    | with_reducible exact keepsBuilder_progressTables _ _ _ _
    | with_reducible apply keepsBuilder_ite
    | with_reducible apply keepsBuilder_bind
    | with_reducible apply keepsBuilder_forM
    | intro _
    | split

end HtmlInfoBuilder

namespace HtmlInfoBuilder

theorem keepsBuilder_method (env : HtmlEnv) (op : TextOp) : KeepsBuilder (op.method env) := by
  cases op with
  | airportText airport routeMapObjects weather background =>
    exact keepsBuilder_airportText env airport routeMapObjects weather background
  | comText airport background => exact keepsBuilder_comText env airport background
  | runwayText airport background => exact keepsBuilder_runwayText env airport background
  | approachText airport background => exact keepsBuilder_approachText env airport background
  | vorText vor background => exact keepsBuilder_vorText env vor background
  | ndbText ndb background => exact keepsBuilder_ndbText env ndb background
  | waypointText waypoint background => exact keepsBuilder_waypointText env waypoint background
  | airwayText airway => exact keepsBuilder_airwayText env airway
  | markerText m => exact keepsBuilder_markerText m
  | towerText airport => exact keepsBuilder_towerText airport
  | parkingText parking => exact keepsBuilder_parkingText env parking
  | helipadText helipad => exact keepsBuilder_helipadText env helipad
  | userpointText userpoint => exact keepsBuilder_userpointText userpoint
  | aircraftText data => exact keepsBuilder_aircraftText data
  | aircraftProgressText data rmoList => exact keepsBuilder_aircraftProgressText env data rmoList

/-- C7: no text operation changes a field of the builder. When an operation
returns, the builder is the one it started with, and the calls it has appended
to the `HtmlBuilder` are the calls that the same operation with the same
arguments appends from then on, whatever the `HtmlBuilder` holds. -/
theorem C7_text_operations_keep_builder (env : HtmlEnv) (op : TextOp) (c c₁ : Ctx)
    (h : (op.method env).run c = .ok ((), c₁)) :
    c₁.self = c.self ∧
    ∃ calls : List HtmlCall, c₁.html = c.html ++ calls ∧
      ∀ html : HtmlBuilder,
        (op.method env).run { self := c₁.self, html := html } =
          .ok ((), { self := c₁.self, html := html ++ calls }) := by
  obtain ⟨f, hf⟩ := keepsBuilder_method env op
  rw [hf c] at h
  cases hfc : f c.self with
  | error e => rw [hfc] at h; cases h
  | ok r =>
    rw [hfc] at h
    simp only [Except.map, Except.ok.injEq, Prod.mk.injEq, true_and] at h
    subst h
    refine ⟨rfl, r.2, rfl, fun html => ?_⟩
    rw [hf]
    simp only [hfc, Except.map]

/-- Witness of C7: `towerText` on the sample builder and airport appends one
call and leaves the builder as it was. -/
theorem C7_text_operations_keep_builder_witness :
    ((TextOp.towerText Example.airport).method Example.htmlEnv).run
        { self := Example.tooltipBuilder, html := [] } =
      .ok ((), { self := Example.tooltipBuilder, html := [HtmlCall.b "Tower: 0"] }) ∧
    ∃ calls : List HtmlCall, [HtmlCall.b "Tower: 0"] = [] ++ calls ∧
      ∀ html : HtmlBuilder,
        ((TextOp.towerText Example.airport).method Example.htmlEnv).run
            { self := Example.tooltipBuilder, html := html } =
          .ok ((), { self := Example.tooltipBuilder, html := html ++ calls }) :=
  ⟨rfl,
   (C7_text_operations_keep_builder Example.htmlEnv (TextOp.towerText Example.airport)
      { self := Example.tooltipBuilder, html := [] }
      { self := Example.tooltipBuilder, html := [HtmlCall.b "Tower: 0"] } rfl).2⟩

/-- C8: a builder whose information format is off, or whose `InfoQuery` is null,
runs `comText`, `runwayText` and `approachText` on every airport without a
fault and without a call on the `HtmlBuilder`; the constructor stores its
arguments `infoDbQuery` and `formatInfo` in the two fields that decide this. -/
theorem C8_com_runway_approach_append_nothing (env : HtmlEnv) (self : HtmlInfoBuilder)
    (h : self.info = false ∨ self.infoQuery = none)
    (airport : MapAirport) (background : String) (html : HtmlBuilder) :
    (comText env airport background).run { self := self, html := html } =
      .ok ((), { self := self, html := html }) ∧
    (runwayText env airport background).run { self := self, html := html } =
      .ok ((), { self := self, html := html }) ∧
    (approachText env airport background).run { self := self, html := html } =
      .ok ((), { self := self, html := html }) ∧
    ∀ (mapDbQuery : MapQuery) (infoDbQuery : Option InfoQuery) (formatInfo : Bool),
      (ctor env mapDbQuery infoDbQuery formatInfo).info = formatInfo ∧
      (ctor env mapDbQuery infoDbQuery formatInfo).infoQuery = infoDbQuery := by
  refine ⟨?_, ?_, ?_, fun _ _ _ => ⟨rfl, rfl⟩⟩
  · rcases h with h | h
    · simp [comText, this, StateT.run, bind, StateT.bind, Except.bind, pure, Except.pure,
        StateT.pure, h]
    · cases hi : self.info <;>
      simp [comText, this, StateT.run, bind, StateT.bind, Except.bind, pure, Except.pure,
        StateT.pure, h, hi]
  · rcases h with h | h
    · simp [runwayText, this, StateT.run, bind, StateT.bind, Except.bind, pure, Except.pure,
        StateT.pure, h]
    · cases hi : self.info <;>
      simp [runwayText, this, StateT.run, bind, StateT.bind, Except.bind, pure, Except.pure,
        StateT.pure, h, hi]
  · rcases h with h | h
    · simp [approachText, this, StateT.run, bind, StateT.bind, Except.bind, pure, Except.pure,
        StateT.pure, h]
    · cases hi : self.info <;>
      simp [approachText, this, StateT.run, bind, StateT.bind, Except.bind, pure, Except.pure,
        StateT.pure, h, hi]

/-- Witness of C8: the sample tooltip builder has the information format off,
and `runwayText` on the sample airport leaves the `HtmlBuilder` empty. -/
theorem C8_com_runway_approach_append_nothing_witness :
    (Example.tooltipBuilder.info = false ∨ Example.tooltipBuilder.infoQuery = none) ∧
    (runwayText Example.htmlEnv Example.airport "white").run
        { self := Example.tooltipBuilder, html := [] } =
      .ok ((), { self := Example.tooltipBuilder, html := [] }) :=
  ⟨Or.inl rfl,
   (C8_com_runway_approach_append_nothing Example.htmlEnv Example.tooltipBuilder (Or.inl rfl)
      Example.airport "white" []).2.1⟩

end HtmlInfoBuilder

/-! ## Calls and tables of the HTML information builder -/

namespace HtmlInfoBuilder

theorem tableDepth_append (d : Nat) (l₁ l₂ : List HtmlCall) :
    tableDepth d (l₁ ++ l₂) = (tableDepth d l₁).bind fun e => tableDepth e l₂ := by
  induction l₁ generalizing d with
  | nil => rfl
  | cons c rest ih =>
    simp only [List.cons_append, tableDepth]
    cases tableStep d c with
    | none => rfl
    | some e => simp [ih]

theorem run_call (x : HtmlCall) (c : Ctx) :
    (call x).run c = .ok ((), { self := c.self, html := c.html ++ [x] }) := rfl

theorem run_this (c : Ctx) : this.run c = .ok (c.self, c) := rfl

theorem run_pure {α : Type} (a : α) (c : Ctx) : (pure a : Method α).run c = .ok (a, c) := rfl

theorem run_bind_ok {α β : Type} (m : Method α) (g : α → Method β) (c c₁ : Ctx) (a : α)
    (h : m.run c = .ok (a, c₁)) : (m >>= g).run c = (g a).run c₁ := by
  rw [StateT.run_bind, h]
  rfl

theorem run_bind_error {α β : Type} (m : Method α) (g : α → Method β) (c : Ctx) (e : Fault)
    (h : m.run c = .error e) : (m >>= g).run c = .error e := by
  rw [StateT.run_bind, h]
  rfl

theorem emits_mono {self : HtmlInfoBuilder} {P Q : List HtmlCall → Prop} {m : Method Unit}
    (h : Emits self P m) (hpq : ∀ calls, P calls → Q calls) : Emits self Q m := by
  intro html
  obtain ⟨calls, hrun, hp⟩ := h html
  exact ⟨calls, hrun, hpq calls hp⟩

theorem emits_call (self : HtmlInfoBuilder) (P : List HtmlCall → Prop) (x : HtmlCall)
    (h : P [x]) : Emits self P (call x) :=
  fun _ => ⟨[x], rfl, h⟩

theorem emits_pure (self : HtmlInfoBuilder) (P : List HtmlCall → Prop) (h : P []) :
    Emits self P (pure ()) :=
  fun html => ⟨[], by rw [List.append_nil]; rfl, h⟩

theorem emits_bind {self : HtmlInfoBuilder} {P₁ P₂ P : List HtmlCall → Prop}
    {m : Method Unit} {g : Unit → Method Unit}
    (h₁ : Emits self P₁ m) (h₂ : Emits self P₂ (g ()))
    (hp : ∀ l₁ l₂, P₁ l₁ → P₂ l₂ → P (l₁ ++ l₂)) : Emits self P (m >>= g) := by
  intro html
  obtain ⟨l₁, hrun₁, hp₁⟩ := h₁ html
  obtain ⟨l₂, hrun₂, hp₂⟩ := h₂ (html ++ l₁)
  refine ⟨l₁ ++ l₂, ?_, hp l₁ l₂ hp₁ hp₂⟩
  rw [run_bind_ok m g _ _ () hrun₁, hrun₂, List.append_assoc]

theorem emits_this_bind {self : HtmlInfoBuilder} {P : List HtmlCall → Prop}
    {g : HtmlInfoBuilder → Method Unit} (h : Emits self P (g self)) :
    Emits self P (this >>= g) := by
  intro html
  obtain ⟨l, hrun, hp⟩ := h html
  exact ⟨l, by rw [run_bind_ok this g _ _ self (run_this _)]; exact hrun, hp⟩

theorem emits_forM {self : HtmlInfoBuilder} {P : List HtmlCall → Prop} {α : Type}
    (l : List α) {g : α → Method Unit} (hnil : P [])
    (happ : ∀ l₁ l₂, P l₁ → P l₂ → P (l₁ ++ l₂)) (hg : ∀ a, Emits self P (g a)) :
    Emits self P (l.forM g) := by
  induction l with
  | nil => exact emits_pure self P hnil
  | cons a rest ih => exact emits_bind (hg a) ih happ

/-! ### Tables -/

theorem runs_pure (d : Nat) : Runs d d (pure ()) :=
  fun self => emits_pure self _ rfl

theorem runs_table (d : Nat) : Runs d (d + 1) (call .table) :=
  fun self => emits_call self _ _ rfl

theorem runs_tableEnd (d : Nat) : Runs (d + 1) d (call .tableEnd) :=
  fun self => emits_call self _ _ (by simp [tableDepth, tableStep])

theorem runs_row2 (d : Nat) (name value : String) :
    Runs (d + 1) (d + 1) (call (.row2 name value)) :=
  fun self => emits_call self _ _ (by simp [tableDepth, tableStep])

theorem runs_row2Int (d : Nat) (name : String) (value : Int) :
    Runs (d + 1) (d + 1) (call (.row2Int name value)) :=
  fun self => emits_call self _ _ (by simp [tableDepth, tableStep])

theorem runs_other (d : Nat) (x : HtmlCall) (h : tableStep 0 x = some 0) :
    Runs d d (call x) :=
  fun self => emits_call self _ _ (by
    cases x <;> simp_all [tableDepth, tableStep])

theorem runs_bind {d e f : Nat} {m : Method Unit} {g : Unit → Method Unit}
    (h₁ : Runs d e m) (h₂ : Runs e f (g ())) : Runs d f (m >>= g) :=
  fun self => emits_bind (h₁ self) (h₂ self) (fun l₁ l₂ hl₁ hl₂ => by
    rw [tableDepth_append, hl₁]
    exact hl₂)

theorem runs_bind_same {d e : Nat} {m : Method Unit} {g : Unit → Method Unit}
    (h₁ : Runs d d m) (h₂ : Runs d e (g ())) : Runs d e (m >>= g) :=
  runs_bind h₁ h₂

theorem runs_this_bind {d e : Nat} {g : HtmlInfoBuilder → Method Unit}
    (h : ∀ a, Runs d e (g a)) : Runs d e (this >>= g) :=
  fun self => emits_this_bind (h self self)

theorem runs_ite {d e : Nat} {p : Prop} [Decidable p] {m₁ m₂ : Method Unit}
    (h₁ : Runs d e m₁) (h₂ : Runs d e m₂) : Runs d e (if p then m₁ else m₂) := by
  split
  · exact h₁
  · exact h₂

theorem runs_forM {d : Nat} {α : Type} (l : List α) {g : α → Method Unit}
    (hg : ∀ a, Runs d d (g a)) : Runs d d (l.forM g) :=
  fun self => emits_forM l rfl
    (fun l₁ l₂ hl₁ hl₂ => by rw [tableDepth_append, hl₁]; exact hl₂) (fun a => hg a self)

theorem runs_head (d : Nat) (text : String) : Runs d d (head text) := by
  unfold head
  repeat' first
    | with_reducible exact runs_pure _
    | with_reducible exact runs_table _
    | with_reducible exact runs_tableEnd _
    | with_reducible exact runs_row2 _ _ _
    | with_reducible exact runs_row2Int _ _ _
    | ((with_reducible refine runs_other _ _ ?_); rfl)
    | (with_reducible apply runs_this_bind; intro _)
    | (with_reducible apply runs_bind_same; split)
    | with_reducible apply runs_bind
    | with_reducible apply runs_ite
    | (with_reducible apply runs_forM; intro _)
    | split

theorem runs_title (d : Nat) (text : String) :
    Runs d d (title text) := by
  unfold title
  repeat' first
    | with_reducible exact runs_pure _
    | with_reducible exact runs_table _
    | with_reducible exact runs_tableEnd _
    | with_reducible exact runs_row2 _ _ _
    | with_reducible exact runs_row2Int _ _ _
    | with_reducible exact runs_head _ _
    | ((with_reducible refine runs_other _ _ ?_); rfl)
    | (with_reducible apply runs_this_bind; intro _)
    | (with_reducible apply runs_bind_same; split)
    | with_reducible apply runs_bind
    | with_reducible apply runs_ite
    | (with_reducible apply runs_forM; intro _)
    | split

theorem runs_airportTitle (d : Nat) (env : HtmlEnv) (airport : MapAirport) (background : String) :
    Runs d d (airportTitle env airport background) := by
  unfold airportTitle
  repeat' first
    | with_reducible exact runs_pure _
    | with_reducible exact runs_table _
    | with_reducible exact runs_tableEnd _
    | with_reducible exact runs_row2 _ _ _
    | with_reducible exact runs_row2Int _ _ _
    | with_reducible exact runs_head _ _
    | ((with_reducible refine runs_other _ _ ?_); rfl)
    | (with_reducible apply runs_this_bind; intro _)
    | (with_reducible apply runs_bind_same; split)
    | with_reducible apply runs_bind
    | with_reducible apply runs_ite
    | (with_reducible apply runs_forM; intro _)
    | split

theorem runs_addScenery (d : Nat) (rec : SqlRecord) :
    Runs d d (addScenery rec) := by
  unfold addScenery
  repeat' first
    | with_reducible exact runs_pure _
    | with_reducible exact runs_table _
    | with_reducible exact runs_tableEnd _
    | with_reducible exact runs_row2 _ _ _
    | with_reducible exact runs_row2Int _ _ _
    | with_reducible exact runs_head _ _
    | ((with_reducible refine runs_other _ _ ?_); rfl)
    | (with_reducible apply runs_this_bind; intro _)
    | (with_reducible apply runs_bind_same; split)
    | with_reducible apply runs_bind
    | with_reducible apply runs_ite
    | (with_reducible apply runs_forM; intro _)
    | split

theorem runs_addCoordinates (d : Nat) (env : HtmlEnv) (rec : Option SqlRecord) :
    Runs (d + 1) (d + 1) (addCoordinates env rec) := by
  unfold addCoordinates
  repeat' first
    | with_reducible exact runs_pure _
    | with_reducible exact runs_table _
    | with_reducible exact runs_tableEnd _
    | with_reducible exact runs_row2 _ _ _
    | with_reducible exact runs_row2Int _ _ _
    | with_reducible exact runs_head _ _
    | ((with_reducible refine runs_other _ _ ?_); rfl)
    | (with_reducible apply runs_this_bind; intro _)
    | (with_reducible apply runs_bind_same; split)
    | with_reducible apply runs_bind
    | with_reducible apply runs_ite
    | (with_reducible apply runs_forM; intro _)
    | split

theorem runs_airportWeather (d : Nat) (airport : MapAirport) (weather : WeatherReporter) :
    Runs d d (airportWeather airport weather) := by
  unfold airportWeather
  repeat' first
    | with_reducible exact runs_pure _
    | with_reducible exact runs_table _
    | with_reducible exact runs_tableEnd _
    | with_reducible exact runs_row2 _ _ _
    | with_reducible exact runs_row2Int _ _ _
    | with_reducible exact runs_head _ _
    | ((with_reducible refine runs_other _ _ ?_); rfl)
    | (with_reducible apply runs_this_bind; intro _)
    | (with_reducible apply runs_bind_same; split)
    | with_reducible apply runs_bind
    | with_reducible apply runs_ite
    | (with_reducible apply runs_forM; intro _)
    | split

theorem runs_airportParkingRows (d : Nat) (env : HtmlEnv) (rec : SqlRecord) :
    Runs (d + 1) (d + 1) (airportParkingRows env rec) := by
  unfold airportParkingRows
  repeat' first
    | with_reducible exact runs_pure _
    | with_reducible exact runs_table _
    | with_reducible exact runs_tableEnd _
    | with_reducible exact runs_row2 _ _ _
    | with_reducible exact runs_row2Int _ _ _
    | with_reducible exact runs_head _ _
    | ((with_reducible refine runs_other _ _ ?_); rfl)
    | (with_reducible apply runs_this_bind; intro _)
    | (with_reducible apply runs_bind_same; split)
    | with_reducible apply runs_bind
    | with_reducible apply runs_ite
    | (with_reducible apply runs_forM; intro _)
    | split

theorem runs_airportParking (d : Nat) (env : HtmlEnv) (rec : SqlRecord) :
    Runs d d (airportParking env rec) := by
  unfold airportParking
  repeat' first
    | with_reducible exact runs_pure _
    | with_reducible exact runs_table _
    | with_reducible exact runs_tableEnd _
    | with_reducible exact runs_row2 _ _ _
    | with_reducible exact runs_row2Int _ _ _
    | with_reducible exact runs_head _ _
    | with_reducible exact runs_airportParkingRows _ _ _
    | ((with_reducible refine runs_other _ _ ?_); rfl)
    | (with_reducible apply runs_this_bind; intro _)
    | (with_reducible apply runs_bind_same; split)
    | with_reducible apply runs_bind
    | with_reducible apply runs_ite
    | (with_reducible apply runs_forM; intro _)
    | split

theorem runs_airportText (d : Nat) (env : HtmlEnv) (airport : MapAirport)
    (routeMapObjects : Option RouteMapObjectList) (weather : Option WeatherReporter)
    (background : String) :
    Runs d d (airportText env airport routeMapObjects weather background) := by
  unfold airportText
  repeat' first
    | with_reducible exact runs_pure _
    | with_reducible exact runs_table _
    | with_reducible exact runs_tableEnd _
    | with_reducible exact runs_row2 _ _ _
    | with_reducible exact runs_row2Int _ _ _
    | with_reducible exact runs_head _ _
    | with_reducible exact runs_airportTitle _ _ _ _
    | with_reducible exact runs_addCoordinates _ _ _
    | with_reducible exact runs_addScenery _ _
    | with_reducible exact runs_airportWeather _ _ _
    | with_reducible exact runs_airportParking _ _ _
    | ((with_reducible refine runs_other _ _ ?_); rfl)
    | (with_reducible apply runs_this_bind; intro _)
    | (with_reducible apply runs_bind_same; split)
    | with_reducible apply runs_bind
    | with_reducible apply runs_ite
    | (with_reducible apply runs_forM; intro _)
    | split

theorem runs_vorText (d : Nat) (env : HtmlEnv) (vor : MapVor) (background : String) :
    Runs d d (vorText env vor background) := by
  unfold vorText
  repeat' first
    | with_reducible exact runs_pure _
    | with_reducible exact runs_table _
    | with_reducible exact runs_tableEnd _
    | with_reducible exact runs_row2 _ _ _
    | with_reducible exact runs_row2Int _ _ _
    | with_reducible exact runs_head _ _
    | with_reducible exact runs_title _ _
    | with_reducible exact runs_addCoordinates _ _ _
    | with_reducible exact runs_addScenery _ _
    | ((with_reducible refine runs_other _ _ ?_); rfl)
    | (with_reducible apply runs_this_bind; intro _)
    | (with_reducible apply runs_bind_same; split)
    | with_reducible apply runs_bind
    | with_reducible apply runs_ite
    | (with_reducible apply runs_forM; intro _)
    | split

theorem runs_ndbText (d : Nat) (env : HtmlEnv) (ndb : MapNdb) (background : String) :
    Runs d d (ndbText env ndb background) := by
  unfold ndbText
  repeat' first
    | with_reducible exact runs_pure _
    | with_reducible exact runs_table _
    | with_reducible exact runs_tableEnd _
    | with_reducible exact runs_row2 _ _ _
    | with_reducible exact runs_row2Int _ _ _
    | with_reducible exact runs_head _ _
    | with_reducible exact runs_title _ _
    | with_reducible exact runs_addCoordinates _ _ _
    | with_reducible exact runs_addScenery _ _
    | ((with_reducible refine runs_other _ _ ?_); rfl)
    | (with_reducible apply runs_this_bind; intro _)
    | (with_reducible apply runs_bind_same; split)
    | with_reducible apply runs_bind
    | with_reducible apply runs_ite
    | (with_reducible apply runs_forM; intro _)
    | split

theorem runs_waypointText (d : Nat) (env : HtmlEnv) (waypoint : MapWaypoint) (background : String) :
    Runs d d (waypointText env waypoint background) := by
  unfold waypointText
  repeat' first
    | with_reducible exact runs_pure _
    | with_reducible exact runs_table _
    | with_reducible exact runs_tableEnd _
    | with_reducible exact runs_row2 _ _ _
    | with_reducible exact runs_row2Int _ _ _
    | with_reducible exact runs_head _ _
    | with_reducible exact runs_title _ _
    | with_reducible exact runs_addCoordinates _ _ _
    | with_reducible exact runs_addScenery _ _
    | ((with_reducible refine runs_other _ _ ?_); rfl)
    | (with_reducible apply runs_this_bind; intro _)
    | (with_reducible apply runs_bind_same; split)
    | with_reducible apply runs_bind
    | with_reducible apply runs_ite
    | (with_reducible apply runs_forM; intro _)
    | split

theorem runs_airwayText (d : Nat) (env : HtmlEnv) (airway : MapAirway) :
    Runs d d (airwayText env airway) := by
  unfold airwayText
  repeat' first
    | with_reducible exact runs_pure _
    | with_reducible exact runs_table _
    | with_reducible exact runs_tableEnd _
    | with_reducible exact runs_row2 _ _ _
    | with_reducible exact runs_row2Int _ _ _
    | with_reducible exact runs_head _ _
    | with_reducible exact runs_title _ _
    | with_reducible exact runs_addCoordinates _ _ _
    | with_reducible exact runs_addScenery _ _
    | ((with_reducible refine runs_other _ _ ?_); rfl)
    | (with_reducible apply runs_this_bind; intro _)
    | (with_reducible apply runs_bind_same; split)
    | with_reducible apply runs_bind
    | with_reducible apply runs_ite
    | (with_reducible apply runs_forM; intro _)
    | split

theorem runs_rowForFloat (d : Nat) (rec : SqlRecord) (colName msg val : String) (precision : Nat) :
    Runs (d + 1) (d + 1) (rowForFloat rec colName msg val precision) := by
  unfold rowForFloat
  repeat' first
    | with_reducible exact runs_pure _
    | with_reducible exact runs_table _
    | with_reducible exact runs_tableEnd _
    | with_reducible exact runs_row2 _ _ _
    | with_reducible exact runs_row2Int _ _ _
    | with_reducible exact runs_head _ _
    | ((with_reducible refine runs_other _ _ ?_); rfl)
    | (with_reducible apply runs_this_bind; intro _)
    | (with_reducible apply runs_bind_same; split)
    | with_reducible apply runs_bind
    | with_reducible apply runs_ite
    | (with_reducible apply runs_forM; intro _)
    | split

theorem runs_rowForInt (d : Nat) (rec : SqlRecord) (colName msg val : String) :
    Runs (d + 1) (d + 1) (rowForInt rec colName msg val) := by
  unfold rowForInt
  repeat' first
    | with_reducible exact runs_pure _
    | with_reducible exact runs_table _
    | with_reducible exact runs_tableEnd _
    | with_reducible exact runs_row2 _ _ _
    | with_reducible exact runs_row2Int _ _ _
    | with_reducible exact runs_head _ _
    | ((with_reducible refine runs_other _ _ ?_); rfl)
    | (with_reducible apply runs_this_bind; intro _)
    | (with_reducible apply runs_bind_same; split)
    | with_reducible apply runs_bind
    | with_reducible apply runs_ite
    | (with_reducible apply runs_forM; intro _)
    | split

theorem runs_rowForBool (d : Nat) (rec : SqlRecord) (colName msg : String) (expected : Bool) :
    Runs (d + 1) (d + 1) (rowForBool rec colName msg expected) := by
  unfold rowForBool
  repeat' first
    | with_reducible exact runs_pure _
    | with_reducible exact runs_table _
    | with_reducible exact runs_tableEnd _
    | with_reducible exact runs_row2 _ _ _
    | with_reducible exact runs_row2Int _ _ _
    | with_reducible exact runs_head _ _
    | ((with_reducible refine runs_other _ _ ?_); rfl)
    | (with_reducible apply runs_this_bind; intro _)
    | (with_reducible apply runs_bind_same; split)
    | with_reducible apply runs_bind
    | with_reducible apply runs_ite
    | (with_reducible apply runs_forM; intro _)
    | split

theorem runs_rowForStr (d : Nat) (rec : SqlRecord) (colName msg val : String) :
    Runs (d + 1) (d + 1) (rowForStr rec colName msg val) := by
  unfold rowForStr
  repeat' first
    | with_reducible exact runs_pure _
    | with_reducible exact runs_table _
    | with_reducible exact runs_tableEnd _
    | with_reducible exact runs_row2 _ _ _
    | with_reducible exact runs_row2Int _ _ _
    | with_reducible exact runs_head _ _
    | ((with_reducible refine runs_other _ _ ?_); rfl)
    | (with_reducible apply runs_this_bind; intro _)
    | (with_reducible apply runs_bind_same; split)
    | with_reducible apply runs_bind
    | with_reducible apply runs_ite
    | (with_reducible apply runs_forM; intro _)
    | split

theorem runs_rowForStrCap (d : Nat) (env : HtmlEnv) (rec : SqlRecord) (colName msg val : String) :
    Runs (d + 1) (d + 1) (rowForStrCap env rec colName msg val) := by
  unfold rowForStrCap
  repeat' first
    | with_reducible exact runs_pure _
    | with_reducible exact runs_table _
    | with_reducible exact runs_tableEnd _
    | with_reducible exact runs_row2 _ _ _
    | with_reducible exact runs_row2Int _ _ _
    | with_reducible exact runs_head _ _
    | ((with_reducible refine runs_other _ _ ?_); rfl)
    | (with_reducible apply runs_this_bind; intro _)
    | (with_reducible apply runs_bind_same; split)
    | with_reducible apply runs_bind
    | with_reducible apply runs_ite
    | (with_reducible apply runs_forM; intro _)
    | split

theorem runs_runwayEndIls (d : Nat) (env : HtmlEnv) (ilsRec : SqlRecord) :
    Runs d d (runwayEndIls env ilsRec) := by
  unfold runwayEndIls
  repeat' first
    | with_reducible exact runs_pure _
    | with_reducible exact runs_table _
    | with_reducible exact runs_tableEnd _
    | with_reducible exact runs_row2 _ _ _
    | with_reducible exact runs_row2Int _ _ _
    | with_reducible exact runs_head _ _
    | with_reducible exact runs_rowForFloat _ _ _ _ _ _
    | with_reducible exact runs_rowForInt _ _ _ _ _
    | with_reducible exact runs_rowForBool _ _ _ _ _
    | with_reducible exact runs_rowForStr _ _ _ _ _
    | with_reducible exact runs_rowForStrCap _ _ _ _ _ _
    | ((with_reducible refine runs_other _ _ ?_); rfl)
    | (with_reducible apply runs_this_bind; intro _)
    | (with_reducible apply runs_bind_same; split)
    | with_reducible apply runs_bind
    | with_reducible apply runs_ite
    | (with_reducible apply runs_forM; intro _)
    | split

theorem emits_of_runs {d e : Nat} {m : Method Unit} (h : Runs d e m) (self : HtmlInfoBuilder) :
    Emits self (fun _ => True) m :=
  emits_mono (h self) (fun _ _ => trivial)

/-- C17: on every builder and for every airport, route list and weather
reporter, null or not, `airportText` returns and the calls it appends have
well-formed tables: `table()` and `tableEnd()` are properly nested and equal in
number, and every row is written while a table is open. -/
theorem C17_airportText_tables_well_formed (env : HtmlEnv) (self : HtmlInfoBuilder)
    (airport : MapAirport) (routeMapObjects : Option RouteMapObjectList)
    (weather : Option WeatherReporter) (background : String) (html : HtmlBuilder) :
    ∃ calls : List HtmlCall,
      (airportText env airport routeMapObjects weather background).run
          { self := self, html := html } =
        .ok ((), { self := self, html := html ++ calls }) ∧
      wellFormedTables calls = true := by
  obtain ⟨calls, hrun, hdepth⟩ :=
    runs_airportText 0 env airport routeMapObjects weather background self html
  exact ⟨calls, hrun, by simp [wellFormedTables, hdepth]⟩

/-! ### Methods that return -/

theorem completes_of_runs {d e : Nat} {m : Method Unit} (h : Runs d e m)
    (self : HtmlInfoBuilder) : Completes self m :=
  emits_of_runs h self

theorem completes_call (self : HtmlInfoBuilder) (x : HtmlCall) : Completes self (call x) :=
  emits_call self _ x trivial

theorem completes_pure (self : HtmlInfoBuilder) : Completes self (pure ()) :=
  emits_pure self _ trivial

theorem completes_bind {self : HtmlInfoBuilder} {m : Method Unit} {g : Unit → Method Unit}
    (h₁ : Completes self m) (h₂ : Completes self (g ())) : Completes self (m >>= g) :=
  emits_bind h₁ h₂ (fun _ _ _ _ => trivial)

theorem completes_this_bind {self : HtmlInfoBuilder} {g : HtmlInfoBuilder → Method Unit}
    (h : Completes self (g self)) : Completes self (this >>= g) :=
  emits_this_bind h

theorem completes_ite {self : HtmlInfoBuilder} {p : Prop} [Decidable p] {m₁ m₂ : Method Unit}
    (h₁ : Completes self m₁) (h₂ : Completes self m₂) :
    Completes self (if p then m₁ else m₂) := by
  split
  · exact h₁
  · exact h₂

theorem completes_forM {self : HtmlInfoBuilder} {α : Type} (l : List α) {g : α → Method Unit}
    (hg : ∀ a, Completes self (g a)) : Completes self (l.forM g) :=
  emits_forM l trivial (fun _ _ _ _ => trivial) hg

/-! ### A piece of the calls -/

theorem around_last (self : HtmlInfoBuilder) (x : HtmlCall) : Around self [x] (call x) :=
  emits_call self _ x ⟨[], [], rfl⟩

theorem around_here {self : HtmlInfoBuilder} {x : HtmlCall} {g : Unit → Method Unit}
    (h : Completes self (g ())) : Around self [x] (call x >>= g) :=
  emits_bind (emits_call self (fun calls => calls = [x]) x rfl) h
    (fun l₁ l₂ h₁ _ => ⟨[], l₂, by rw [h₁]; rfl⟩)

theorem around_skip {self : HtmlInfoBuilder} {seg : List HtmlCall} {m : Method Unit}
    {g : Unit → Method Unit} (h₁ : Completes self m) (h₂ : Around self seg (g ())) :
    Around self seg (m >>= g) :=
  emits_bind h₁ h₂ (fun l₁ l₂ _ h => by
    obtain ⟨pre, post, rfl⟩ := h
    exact ⟨l₁ ++ pre, post, by simp [List.append_assoc]⟩)

theorem around_this {self : HtmlInfoBuilder} {seg : List HtmlCall}
    {g : HtmlInfoBuilder → Method Unit} (h : Around self seg (g self)) :
    Around self seg (this >>= g) :=
  emits_this_bind h

end HtmlInfoBuilder

/-! ## The facilities row -/

namespace HtmlInfoBuilder

theorem ite_snoc {α : Type} (b : Bool) (l : List α) (x : α) :
    (if b = true then l ++ [x] else l) = l ++ (if b = true then [x] else []) := by
  cases b <;> simp

theorem facilitiesList_eq (airport : MapAirport) :
    facilitiesList airport = facilityLabels airport := by
  unfold facilitiesList facilityLabels
  simp only [ite_snoc]
  simp only [List.nil_append, List.append_assoc]

theorem intercalate_go_data (sep acc : String) (l : List String) :
    ∃ r : List Char, (String.intercalate.go acc sep l).data = acc.data ++ r := by
  induction l generalizing acc with
  | nil => exact ⟨[], by simp [String.intercalate.go]⟩
  | cons x rest ih =>
    obtain ⟨r, hr⟩ := ih (acc ++ sep ++ x)
    exact ⟨sep.data ++ x.data ++ r, by
      rw [String.intercalate.go, hr]
      simp [String.data_append, List.append_assoc]⟩

theorem join_cons_data (x : String) (l : List String) (sep : String) :
    ∃ r : List Char, (QStringList.join (x :: l) sep).data = x.data ++ r :=
  intercalate_go_data sep x l

theorem facilityLabels_mem (airport : MapAirport) (x : String) (h : x ∈ facilityLabels airport) :
    x ∈ ["Closed", "Add-on", "Military", "Aprons", "Taxiways", "Tower Object", "Parking",
      "Helipads", "Avgas", "Jetfuel", "Approaches", "ILS", "VASI", "ALS", "Boundary Fence"] := by
  unfold facilityLabels at h
  simp only [List.mem_append, List.mem_ite_nil_right, List.mem_singleton] at h
  simp only [List.mem_cons, List.mem_singleton]
  tauto

theorem facilityLabels_eq_nil (airport : MapAirport) :
    facilityLabels airport = [] ↔
      (airport.closed = false ∧ airport.addon = false ∧ airport.AP_MIL = false ∧
        airport.apron = false ∧ airport.taxiway = false ∧ airport.towerObject = false ∧
        airport.parking = false ∧ airport.helipad = false ∧ airport.AP_AVGAS = false ∧
        airport.AP_JETFUEL = false ∧ airport.AP_APPR = false ∧ airport.AP_ILS = false ∧
        airport.vasi = false ∧ airport.als = false ∧ airport.fence = false) := by
  unfold facilityLabels
  simp only [List.append_eq_nil, ite_eq_right_iff, List.cons_ne_self, imp_false,
    Bool.not_eq_true, and_assoc, reduceCtorEq]

theorem join_labels_data (airport : MapAirport) (x : String) (l : List String)
    (h : facilityLabels airport = x :: l) :
    (QStringList.join (x :: l) ", ").data ≠ "None".data ∧
    (QStringList.join (x :: l) ", ").data ≠ [] := by
  obtain ⟨r, hr⟩ := join_cons_data x l ", "
  have hx := facilityLabels_mem airport x (by rw [h]; exact List.mem_cons_self _ _)
  rw [hr]
  simp only [List.mem_cons, List.mem_singleton, List.not_mem_nil, or_false] at hx
  rcases hx with rfl | rfl | rfl | rfl | rfl | rfl | rfl | rfl | rfl | rfl | rfl | rfl | rfl |
    rfl | rfl <;> exact ⟨fun h => (by cases h), by simp⟩

theorem around_facilities (env : HtmlEnv) (self : HtmlInfoBuilder) (airport : MapAirport)
    (routeMapObjects : Option RouteMapObjectList) (weather : Option WeatherReporter)
    (background : String) :
    Around self
      [.row2 (if self.info then "" else "Facilities:")
        (QStringList.join
          (if (facilitiesList airport).isEmpty then facilitiesList airport ++ ["None"]
            else facilitiesList airport) ", ")]
      (airportText env airport routeMapObjects weather background) := by
  unfold airportText
  repeat' first
    | with_reducible exact completes_call _ _
    | with_reducible exact completes_pure _
    | with_reducible exact completes_of_runs (runs_head 0 _) _
    | with_reducible exact completes_of_runs (runs_airportTitle 0 _ _ _) _
    | with_reducible exact completes_of_runs (runs_addCoordinates 0 _ _) _
    | with_reducible exact completes_of_runs (runs_addScenery 0 _) _
    | with_reducible exact completes_of_runs (runs_airportWeather 0 _ _) _
    | with_reducible exact completes_of_runs (runs_airportParking 0 _ _) _
    | with_reducible apply completes_this_bind
    | with_reducible apply completes_bind
    | with_reducible apply completes_ite
    | with_reducible apply around_this
    | with_reducible apply around_here
    | with_reducible apply around_skip
    | split

/-- C20: `airportText` writes the facilities row; its value is the labels of
the flags that are set, in the fixed order from Closed to Boundary Fence, joined
by a comma and a blank, and `None` when there is no such label. The value is
`None` exactly when none of the flags is set, and it is never the empty text. -/
theorem C20_facilities_row (env : HtmlEnv) (self : HtmlInfoBuilder) (airport : MapAirport)
    (routeMapObjects : Option RouteMapObjectList) (weather : Option WeatherReporter)
    (background : String) (html : HtmlBuilder) :
    ∃ (value : String) (pre post : List HtmlCall),
      (airportText env airport routeMapObjects weather background).run
          { self := self, html := html } =
        .ok ((), { self := self,
                   html := html ++
                     (pre ++ [.row2 (if self.info then "" else "Facilities:") value] ++ post) }) ∧
      value =
        (if facilityLabels airport = [] then "None"
          else QStringList.join (facilityLabels airport) ", ") ∧
      (value = "None" ↔
        (airport.closed = false ∧ airport.addon = false ∧ airport.AP_MIL = false ∧
          airport.apron = false ∧ airport.taxiway = false ∧ airport.towerObject = false ∧
          airport.parking = false ∧ airport.helipad = false ∧ airport.AP_AVGAS = false ∧
          airport.AP_JETFUEL = false ∧ airport.AP_APPR = false ∧ airport.AP_ILS = false ∧
          airport.vasi = false ∧ airport.als = false ∧ airport.fence = false)) ∧
      value ≠ "" := by
  obtain ⟨calls, hrun, pre, post, hcalls⟩ :=
    around_facilities env self airport routeMapObjects weather background html
  rw [hcalls, facilitiesList_eq] at hrun
  refine ⟨_, pre, post, hrun, ?_, ?_, ?_⟩
  · cases h : facilityLabels airport with
    | nil => rfl
    | cons x l => simp
  · rw [← facilityLabels_eq_nil]
    cases h : facilityLabels airport with
    | nil => exact ⟨fun _ => rfl, fun _ => rfl⟩
    | cons x l =>
      have hne := (join_labels_data airport x l h).1
      simp only [List.isEmpty_cons, Bool.false_eq_true, if_false, reduceCtorEq, iff_false]
      exact fun heq => hne (congrArg String.data heq)
  · cases h : facilityLabels airport with
    | nil => exact fun heq => absurd (congrArg String.data heq) (by decide)
    | cons x l =>
      have hne := (join_labels_data airport x l h).2
      simp only [List.isEmpty_cons, Bool.false_eq_true, if_false]
      exact fun heq => hne (congrArg String.data heq)

end HtmlInfoBuilder

/-! ## The builder without `InfoQuery` -/

namespace HtmlInfoBuilder

theorem faults_bind {self : HtmlInfoBuilder} {e : Fault} {m : Method Unit}
    {g : Unit → Method Unit} (h₁ : Completes self m) (h₂ : Faults self e (g ())) :
    Faults self e (m >>= g) := by
  intro html
  obtain ⟨l, hrun, _⟩ := h₁ html
  rw [run_bind_ok m g _ _ () hrun]
  exact h₂ _

theorem faults_this_bind {self : HtmlInfoBuilder} {e : Fault}
    {g : HtmlInfoBuilder → Method Unit} (h : Faults self e (g self)) :
    Faults self e (this >>= g) := by
  intro html
  rw [run_bind_ok this g _ _ self (run_this _)]
  exact h _

theorem faults_deref_none {self : HtmlInfoBuilder} {α : Type} {p : Option α}
    {g : α → Method Unit} (h : p = none) : Faults self Fault.nullPointer (deref p >>= g) := by
  intro html
  subst h
  exact run_bind_error _ g _ Fault.nullPointer rfl

theorem faults_deref_some {self : HtmlInfoBuilder} {e : Fault} {α : Type} {a : α}
    {g : α → Method Unit} (h : Faults self e (g a)) : Faults self e (deref (some a) >>= g) := by
  intro html
  rw [run_bind_ok (deref (some a)) g _ _ a rfl]
  exact h _

theorem faults_runwayEndText (env : HtmlEnv) (self : HtmlInfoBuilder)
    (hq : self.infoQuery = none) (rec : Option SqlRecord) (hdgPrim : ℚ) (length : Int) :
    Faults self Fault.nullPointer (runwayEndText env rec hdgPrim length) := by
  unfold runwayEndText
  cases rec with
  | none => exact faults_deref_none rfl
  | some r =>
    repeat' first
      | with_reducible exact completes_call _ _
      | with_reducible exact completes_pure _
      | with_reducible exact completes_of_runs (runs_rowForFloat 0 _ _ _ _ _) _
      | with_reducible exact completes_of_runs (runs_rowForInt 0 _ _ _ _) _
      | with_reducible exact completes_of_runs (runs_rowForBool 0 _ _ _ _) _
      | with_reducible exact completes_of_runs (runs_rowForStr 0 _ _ _ _) _
      | with_reducible exact completes_of_runs (runs_rowForStrCap 0 _ _ _ _ _) _
      | with_reducible exact faults_deref_none hq
      | with_reducible apply completes_this_bind
      | with_reducible apply completes_bind
      | with_reducible apply completes_ite
      | with_reducible apply faults_deref_some
      | with_reducible apply faults_this_bind
      | with_reducible apply faults_bind

/-- C14: on a builder whose `InfoQuery` is null, whatever its information
format, `airportText`, `vorText`, `ndbText`, `waypointText` and `airwayText`
return and only append calls, and `comText`, `runwayText` and `approachText`
return without a call; no run reaches a dereference of the null pointer. The
one place that dereferences `infoQuery` without a test, `runwayEndText`, faults
on such a builder, and `runwayText`, the only method that calls it, does not
get there. -/
theorem C14_null_InfoQuery_is_safe (env : HtmlEnv) (self : HtmlInfoBuilder)
    (hq : self.infoQuery = none) (html : HtmlBuilder) :
    (∀ (airport : MapAirport) (routeMapObjects : Option RouteMapObjectList)
        (weather : Option WeatherReporter) (background : String),
      ∃ calls : List HtmlCall,
        (airportText env airport routeMapObjects weather background).run
            { self := self, html := html } =
          .ok ((), { self := self, html := html ++ calls })) ∧
    (∀ (airport : MapAirport) (background : String),
      (comText env airport background).run { self := self, html := html } =
        .ok ((), { self := self, html := html })) ∧
    (∀ (airport : MapAirport) (background : String),
      (runwayText env airport background).run { self := self, html := html } =
        .ok ((), { self := self, html := html })) ∧
    (∀ (airport : MapAirport) (background : String),
      (approachText env airport background).run { self := self, html := html } =
        .ok ((), { self := self, html := html })) ∧
    (∀ (vor : MapVor) (background : String),
      ∃ calls : List HtmlCall,
        (vorText env vor background).run { self := self, html := html } =
          .ok ((), { self := self, html := html ++ calls })) ∧
    (∀ (ndb : MapNdb) (background : String),
      ∃ calls : List HtmlCall,
        (ndbText env ndb background).run { self := self, html := html } =
          .ok ((), { self := self, html := html ++ calls })) ∧
    (∀ (waypoint : MapWaypoint) (background : String),
      ∃ calls : List HtmlCall,
        (waypointText env waypoint background).run { self := self, html := html } =
          .ok ((), { self := self, html := html ++ calls })) ∧
    (∀ airway : MapAirway,
      ∃ calls : List HtmlCall,
        (airwayText env airway).run { self := self, html := html } =
          .ok ((), { self := self, html := html ++ calls })) ∧
    (∀ (rec : Option SqlRecord) (hdgPrim : ℚ) (length : Int),
      (runwayEndText env rec hdgPrim length).run { self := self, html := html } =
        .error Fault.nullPointer) := by
  refine ⟨?_, ?_, ?_, ?_, ?_, ?_, ?_, ?_, ?_⟩
  · intro airport routeMapObjects weather background
    obtain ⟨calls, hrun, _⟩ :=
      runs_airportText 0 env airport routeMapObjects weather background self html
    exact ⟨calls, hrun⟩
  · intro airport background
    cases hi : self.info <;>
    simp [comText, this, StateT.run, bind, StateT.bind, Except.bind, pure, Except.pure,
      StateT.pure, hq, hi]
  · intro airport background
    cases hi : self.info <;>
    simp [runwayText, this, StateT.run, bind, StateT.bind, Except.bind, pure, Except.pure,
      StateT.pure, hq, hi]
  · intro airport background
    cases hi : self.info <;>
    simp [approachText, this, StateT.run, bind, StateT.bind, Except.bind, pure, Except.pure,
      StateT.pure, hq, hi]
  · intro vor background
    obtain ⟨calls, hrun, _⟩ := runs_vorText 0 env vor background self html
    exact ⟨calls, hrun⟩
  · intro ndb background
    obtain ⟨calls, hrun, _⟩ := runs_ndbText 0 env ndb background self html
    exact ⟨calls, hrun⟩
  · intro waypoint background
    obtain ⟨calls, hrun, _⟩ := runs_waypointText 0 env waypoint background self html
    exact ⟨calls, hrun⟩
  · intro airway
    obtain ⟨calls, hrun, _⟩ := runs_airwayText 0 env airway self html
    exact ⟨calls, hrun⟩
  · intro rec hdgPrim length
    exact faults_runwayEndText env self hq rec hdgPrim length html

/-- Witness of C14: the sample builder without `InfoQuery` runs `runwayText` on
the sample airport without a call, and `vorText` returns on it. -/
theorem C14_null_InfoQuery_is_safe_witness :
    Example.noQueryBuilder.infoQuery = none ∧
    (runwayText Example.htmlEnv Example.airport "white").run
        { self := Example.noQueryBuilder, html := [] } =
      .ok ((), { self := Example.noQueryBuilder, html := [] }) :=
  ⟨rfl, (C14_null_InfoQuery_is_safe Example.htmlEnv Example.noQueryBuilder rfl []).2.2.1
    Example.airport "white"⟩

end HtmlInfoBuilder

/-! ## The tables of `aircraftProgressText` -/

namespace HtmlInfoBuilder

theorem runs_pure_bind {d e : Nat} {α : Type} {a : α} {g : α → Method Unit}
    (h : Runs d e (g a)) : Runs d e (pure a >>= g) := by
  intro self html
  obtain ⟨l, hrun, hp⟩ := h self html
  exact ⟨l, by rw [run_bind_ok (pure a) g _ _ a rfl]; exact hrun, hp⟩

theorem breaks_bind {d e : Nat} {m : Method Unit} {g : Unit → Method Unit}
    (h₁ : Runs d e m) (h₂ : Breaks e (g ())) : Breaks d (m >>= g) :=
  fun self => emits_bind (h₁ self) (h₂ self) (fun l₁ l₂ hl₁ hl₂ => by
    rw [tableDepth_append, hl₁]
    exact hl₂)

theorem breaks_this_bind {d : Nat} {g : HtmlInfoBuilder → Method Unit}
    (h : ∀ a, Breaks d (g a)) : Breaks d (this >>= g) :=
  fun self => emits_this_bind (h self self)

theorem breaks_row2_bind (name value : String) {g : Unit → Method Unit}
    (h : ∀ self, Completes self (g ())) : Breaks 0 (call (.row2 name value) >>= g) :=
  fun self => emits_bind (emits_call self (fun l => l = [HtmlCall.row2 name value]) _ rfl)
    (h self) (fun l₁ l₂ hl₁ _ => by
      subst hl₁
      rfl)

theorem faults_here {self : HtmlInfoBuilder} {e : Fault} {m : Method Unit}
    {g : Unit → Method Unit} (h : Faults self e m) : Faults self e (m >>= g) :=
  fun html => run_bind_error m g _ e (h html)

theorem faults_throw_bind (self : HtmlInfoBuilder) (e : Fault) {α : Type}
    (g : α → Method Unit) : Faults self e ((throw e : Method α) >>= g) :=
  fun _ => run_bind_error _ g _ e rfl

theorem runs_aircraftTitle (d : Nat) (data : SimConnectData) :
    Runs d d (aircraftTitle data) := by
  unfold aircraftTitle
  repeat' first
    | with_reducible exact runs_pure _
    | with_reducible exact runs_table _
    | with_reducible exact runs_tableEnd _
    | with_reducible exact runs_row2 _ _ _
    | with_reducible exact runs_row2Int _ _ _
    | with_reducible exact runs_head _ _
    | ((with_reducible refine runs_other _ _ ?_); rfl)
    | (with_reducible apply runs_this_bind; intro _)
    | (with_reducible apply runs_pure_bind)
    | (with_reducible apply runs_bind_same; split)
    | with_reducible apply runs_bind
    | with_reducible apply runs_ite
    | (with_reducible apply runs_forM; intro _)
    | split

theorem runs_progressTables (env : HtmlEnv) (data : SimConnectData)
    (rmoList : RouteMapObjectList) (d : RouteDistances) (rmo : RouteMapObject)
    (hat : rmoList.at d.nearestLegIndex = some rmo) :
    Runs 0 0 (progressTables env data rmoList d) := by
  unfold progressTables
  simp only [hat]
  repeat' first
    | with_reducible exact runs_pure _
    | with_reducible exact runs_table _
    | with_reducible exact runs_tableEnd _
    | with_reducible exact runs_row2 _ _ _
    | with_reducible exact runs_row2Int _ _ _
    | with_reducible exact runs_head _ _
    | ((with_reducible refine runs_other _ _ ?_); rfl)
    | (with_reducible apply runs_this_bind; intro _)
    | (with_reducible apply runs_pure_bind)
    | (with_reducible apply runs_bind_same; split)
    | with_reducible apply runs_bind
    | with_reducible apply runs_ite
    | (with_reducible apply runs_forM; intro _)
    | split

theorem faults_progressTables (env : HtmlEnv) (data : SimConnectData)
    (rmoList : RouteMapObjectList) (d : RouteDistances)
    (hat : rmoList.at d.nearestLegIndex = none) (self : HtmlInfoBuilder) :
    Faults self Fault.outOfRange (progressTables env data rmoList d) := by
  unfold progressTables
  simp only [hat]
  repeat' first
    | with_reducible exact completes_call _ _
    | with_reducible exact completes_pure _
    | with_reducible exact completes_of_runs (runs_head 0 _) _
    | with_reducible exact completes_of_runs (runs_aircraftTitle 0 _) _
    | with_reducible exact faults_throw_bind _ _ _
    | with_reducible apply completes_this_bind
    | with_reducible apply completes_bind
    | with_reducible apply completes_ite
    | with_reducible apply faults_this_bind
    | with_reducible apply faults_bind

/-- With the route statement of `aircraftProgressText` leaving no table open,
the row "Coordinates:" is written with no table open. -/
theorem breaks_aircraftProgressText (env : HtmlEnv) (data : SimConnectData)
    (rmoList : RouteMapObjectList)
    (hroute : ¬ rmoList.isEmpty = true → (routeDistancesOf data rmoList).found = true →
      Runs 0 0 (progressTables env data rmoList (routeDistancesOf data rmoList))) :
    Breaks 0 (aircraftProgressText env data rmoList) := by
  unfold aircraftProgressText
  by_cases hE : rmoList.isEmpty = true
  · simp only [hE, Bool.not_true, Bool.false_eq_true, if_false]
    repeat' first
      | with_reducible exact runs_pure _
      | with_reducible exact runs_table _
      | with_reducible exact runs_tableEnd _
      | with_reducible exact runs_row2 _ _ _
      | with_reducible exact runs_row2Int _ _ _
      | with_reducible exact runs_head _ _
      | with_reducible exact runs_aircraftTitle _ _
      | ((with_reducible refine runs_other _ _ ?_); rfl)
      | (with_reducible refine breaks_row2_bind _ _ ?_; intro _; exact completes_call _ _)
      | (with_reducible apply runs_this_bind; intro _)
      | (with_reducible apply breaks_this_bind; intro _)
      | (with_reducible apply runs_bind_same; split)
      | with_reducible apply runs_bind
      | with_reducible apply breaks_bind
      | with_reducible apply runs_ite
      | split
  · by_cases hF : (routeDistancesOf data rmoList).found = true
    · have hpt := hroute hE hF
      simp only [Bool.not_eq_true] at hE
      simp only [hE, hF, Bool.not_false, if_true]
      repeat' first
        | with_reducible exact runs_pure _
        | with_reducible exact runs_table _
        | with_reducible exact runs_tableEnd _
        | with_reducible exact runs_row2 _ _ _
        | with_reducible exact runs_row2Int _ _ _
        | with_reducible exact runs_head _ _
        | with_reducible exact runs_aircraftTitle _ _
        | with_reducible exact hpt
        | ((with_reducible refine runs_other _ _ ?_); rfl)
        | (with_reducible refine breaks_row2_bind _ _ ?_; intro _; exact completes_call _ _)
        | (with_reducible apply runs_this_bind; intro _)
        | (with_reducible apply breaks_this_bind; intro _)
        | (with_reducible apply runs_bind_same; split)
        | with_reducible apply runs_bind
        | with_reducible apply breaks_bind
        | with_reducible apply runs_ite
        | split
    · simp only [Bool.not_eq_true] at hE hF
      simp only [hE, hF, Bool.not_false, if_true, Bool.false_eq_true, if_false]
      repeat' first
        | with_reducible exact runs_pure _
        | with_reducible exact runs_table _
        | with_reducible exact runs_tableEnd _
        | with_reducible exact runs_row2 _ _ _
        | with_reducible exact runs_row2Int _ _ _
        | with_reducible exact runs_head _ _
        | with_reducible exact runs_aircraftTitle _ _
        | ((with_reducible refine runs_other _ _ ?_); rfl)
        | (with_reducible refine breaks_row2_bind _ _ ?_; intro _; exact completes_call _ _)
        | (with_reducible apply runs_this_bind; intro _)
        | (with_reducible apply breaks_this_bind; intro _)
        | (with_reducible apply runs_bind_same; split)
        | with_reducible apply runs_bind
        | with_reducible apply breaks_bind
        | with_reducible apply runs_ite
        | split

/-- With a route whose nearest leg is not in the list, `aircraftProgressText`
stops at `rmoList.at`. -/
theorem faults_aircraftProgressText (env : HtmlEnv) (data : SimConnectData)
    (rmoList : RouteMapObjectList) (hE : rmoList.isEmpty = false)
    (hF : (routeDistancesOf data rmoList).found = true)
    (hat : rmoList.at (routeDistancesOf data rmoList).nearestLegIndex = none)
    (self : HtmlInfoBuilder) :
    Faults self Fault.outOfRange (aircraftProgressText env data rmoList) := by
  have hpt := faults_progressTables env data rmoList (routeDistancesOf data rmoList) hat self
  unfold aircraftProgressText
  simp only [hE, hF, Bool.not_false, if_true]
  repeat' first
    | with_reducible exact completes_call _ _
    | with_reducible exact completes_pure _
    | with_reducible exact completes_of_runs (runs_head 0 _) _
    | with_reducible exact completes_of_runs (runs_aircraftTitle 0 _) _
    | with_reducible exact faults_throw_bind _ _ _
    | with_reducible exact faults_here hpt
    | with_reducible apply completes_this_bind
    | with_reducible apply completes_bind
    | with_reducible apply completes_ite
    | with_reducible apply faults_this_bind
    | with_reducible apply faults_bind

/-- C16: `aircraftProgressText` never emits well-formed tables. On every input
the run either stops at `rmoList.at` with an index outside the route, or it
returns and its calls, read from the start with no table open, write a row
outside a table or close a table that is not open: after the table of
"Environment" is closed, "Position" opens no table, and the row
"Coordinates:" and one more `tableEnd` follow. The sample aircraft without a
flight plan is such a run that returns. -/
theorem C16_aircraftProgressText_tables_not_well_formed :
    (∀ (env : HtmlEnv) (data : SimConnectData) (rmoList : RouteMapObjectList)
        (self : HtmlInfoBuilder) (html : HtmlBuilder),
      (aircraftProgressText env data rmoList).run { self := self, html := html } =
          .error Fault.outOfRange ∨
      ∃ calls : List HtmlCall,
        (aircraftProgressText env data rmoList).run { self := self, html := html } =
          .ok ((), { self := self, html := html ++ calls }) ∧
        tableDepth 0 calls = none ∧ wellFormedTables calls = false) ∧
    (∃ calls : List HtmlCall,
      callsOf (aircraftProgressText Example.htmlEnv Example.aircraft Example.noRoute)
          Example.infoBuilder = some calls ∧
        wellFormedTables calls = false) := by
  constructor
  · intro env data rmoList self html
    cases hat : rmoList.at (routeDistancesOf data rmoList).nearestLegIndex with
    | some rmo =>
      right
      obtain ⟨calls, hrun, hdepth⟩ := breaks_aircraftProgressText env data rmoList
        (fun _ _ => runs_progressTables env data rmoList _ rmo hat) self html
      exact ⟨calls, hrun, hdepth, by simp [wellFormedTables, hdepth]⟩
    | none =>
      by_cases hE : rmoList.isEmpty = true
      · right
        obtain ⟨calls, hrun, hdepth⟩ := breaks_aircraftProgressText env data rmoList
          (fun h _ => absurd hE h) self html
        exact ⟨calls, hrun, hdepth, by simp [wellFormedTables, hdepth]⟩
      · by_cases hF : (routeDistancesOf data rmoList).found = true
        · left
          simp only [Bool.not_eq_true] at hE
          exact faults_aircraftProgressText env data rmoList hE hF hat self html
        · right
          obtain ⟨calls, hrun, hdepth⟩ := breaks_aircraftProgressText env data rmoList
            (fun _ h => absurd h hF) self html
          exact ⟨calls, hrun, hdepth, by simp [wellFormedTables, hdepth]⟩
  · obtain ⟨calls, hrun, hdepth⟩ := breaks_aircraftProgressText Example.htmlEnv
      Example.aircraft Example.noRoute (fun h _ => absurd rfl h) Example.infoBuilder []
    refine ⟨calls, ?_, by simp [wellFormedTables, hdepth]⟩
    unfold callsOf
    rw [hrun]
    rfl

end HtmlInfoBuilder

/-! ## The airway rows of `waypointText` -/

namespace HtmlInfoBuilder

theorem emits_forM_call {self : HtmlInfoBuilder} {α : Type} (l : List α) (f : α → HtmlCall) :
    Emits self (fun calls => calls = l.map f) (l.forM (fun a => call (f a))) := by
  induction l with
  | nil => exact emits_pure self _ rfl
  | cons a rest ih =>
    exact emits_bind (emits_call self (fun calls => calls = [f a]) (f a) rfl) ih
      (fun l₁ l₂ h₁ h₂ => by rw [h₁, h₂]; rfl)

theorem around_forM_here {self : HtmlInfoBuilder} {α : Type} (l : List α) (f : α → HtmlCall)
    {g : Unit → Method Unit} (h : Completes self (g ())) :
    Around self (l.map f) (l.forM (fun a => call (f a)) >>= g) :=
  emits_bind (emits_forM_call l f) h (fun l₁ l₂ h₁ _ => ⟨[], l₂, by rw [h₁]; rfl⟩)

theorem around_ite_pos {self : HtmlInfoBuilder} {seg : List HtmlCall} {p : Prop} [Decidable p]
    (hp : p) {m₁ m₂ : Method Unit} (h : Around self seg m₁) :
    Around self seg (if p then m₁ else m₂) := by
  rw [if_pos hp]
  exact h

theorem around_in {self : HtmlInfoBuilder} {seg : List HtmlCall} {m : Method Unit}
    {g : Unit → Method Unit} (h₁ : Around self seg m) (h₂ : Completes self (g ())) :
    Around self seg (m >>= g) :=
  emits_bind h₁ h₂ (fun l₁ l₂ h _ => by
    obtain ⟨pre, post, rfl⟩ := h
    exact ⟨pre, post ++ l₂, by simp [List.append_assoc]⟩)

/-- When the waypoint has airways, `waypointText` writes one row for every
entry of the vector `airwayTexts` as `std::sort` and `std::unique` leave it, in
the order of the vector. -/
theorem around_airwayRows (env : HtmlEnv) (waypoint : MapWaypoint) (background : String)
    (self : HtmlInfoBuilder)
    (h1 : (!(self.mapQuery.getAirwaysForWaypoint waypoint.id).isEmpty) = true) :
    Around self
      ((sortedAirwayTexts env self.locale (self.mapQuery.getAirwaysForWaypoint waypoint.id)).map
        (fun aw => HtmlCall.row2 aw.1 aw.2))
      (waypointText env waypoint background) := by
  have h2 : (!((self.mapQuery.getAirwaysForWaypoint waypoint.id).map
      (airwayTextPair env self.locale)).isEmpty) = true := by
    cases hl : self.mapQuery.getAirwaysForWaypoint waypoint.id with
    | nil =>
      rw [hl] at h1
      exact absurd h1 (by decide)
    | cons a rest => rfl
  unfold waypointText
  repeat' first
    | with_reducible exact completes_call _ _
    | with_reducible exact completes_pure _
    | with_reducible exact completes_of_runs (runs_head 0 _) _
    | with_reducible exact completes_of_runs (runs_title 0 _) _
    | with_reducible exact completes_of_runs (runs_addCoordinates 0 _ _) _
    | with_reducible exact completes_of_runs (runs_addScenery 0 _) _
    | with_reducible apply completes_this_bind
    | with_reducible apply completes_bind
    | with_reducible apply completes_ite
    | with_reducible apply around_this
    | with_reducible apply around_forM_here
    | (with_reducible refine around_in (around_ite_pos (by first | exact h1 | exact h2) ?_) ?_)
    | (with_reducible refine around_ite_pos (by first | exact h1 | exact h2) ?_)
    | with_reducible apply around_skip
    | split

/-- C18: the airway rows of `waypointText` can hold the same row twice. For
a waypoint with the segments A of type Victor, A of type Jet and A of type
Victor, in this order, `std::sort` compares the names only and leaves the
three entries in place, `std::unique` finds no equal neighbours, and the rows
A Victor, A Jet, A Victor are written: the row A Victor appears twice. -/
theorem C18_airway_rows_with_duplicate :
    sortedAirwayTexts Example.airwayEnv Example.airwayBuilder.locale
        (Example.airwayBuilder.mapQuery.getAirwaysForWaypoint Example.waypoint.id) =
      [("A", "Victor"), ("A", "Jet"), ("A", "Victor")] ∧
    ∃ pre post : List HtmlCall,
      callsOf (waypointText Example.airwayEnv Example.waypoint "white") Example.airwayBuilder =
        some (pre ++ [HtmlCall.row2 "A" "Victor", HtmlCall.row2 "A" "Jet",
          HtmlCall.row2 "A" "Victor"] ++ post) := by
  have hs : sortedAirwayTexts Example.airwayEnv Example.airwayBuilder.locale
      (Example.airwayBuilder.mapQuery.getAirwaysForWaypoint Example.waypoint.id) =
      [("A", "Victor"), ("A", "Jet"), ("A", "Victor")] := by
    simp [sortedAirwayTexts, stdSort, insertSorted, stdUnique, airwayTextPair,
      Example.airwayBuilder, HtmlInfoBuilder.ctor, Example.airwayQuery, Example.airwayEnv]
  refine ⟨hs, ?_⟩
  obtain ⟨calls, hrun, pre, post, hcalls⟩ :=
    around_airwayRows Example.airwayEnv Example.waypoint "white" Example.airwayBuilder rfl []
  refine ⟨pre, post, ?_⟩
  unfold callsOf
  rw [hrun, hcalls, hs]
  rfl

end HtmlInfoBuilder

/-! ## The threshold rows of `runwayEndText` -/

namespace HtmlInfoBuilder

theorem avoids_pure (self : HtmlInfoBuilder) (p : HtmlCall → Bool) :
    Avoids self p (pure ()) :=
  emits_pure self _ rfl

theorem avoids_call (self : HtmlInfoBuilder) (p : HtmlCall → Bool) (x : HtmlCall)
    (h : p x = false) : Avoids self p (call x) :=
  emits_call self _ x (by simp [List.filter, h])

theorem avoids_bind {self : HtmlInfoBuilder} {p : HtmlCall → Bool} {m : Method Unit}
    {g : Unit → Method Unit} (h₁ : Avoids self p m) (h₂ : Avoids self p (g ())) :
    Avoids self p (m >>= g) :=
  emits_bind h₁ h₂ (fun l₁ l₂ hl₁ hl₂ => by
    rw [List.filter_append, hl₁, hl₂]
    rfl)

theorem avoids_this_bind {self : HtmlInfoBuilder} {p : HtmlCall → Bool}
    {g : HtmlInfoBuilder → Method Unit} (h : Avoids self p (g self)) :
    Avoids self p (this >>= g) :=
  emits_this_bind h

theorem avoids_ite {self : HtmlInfoBuilder} {p : HtmlCall → Bool} {c : Prop} [Decidable c]
    {m₁ m₂ : Method Unit} (h₁ : Avoids self p m₁) (h₂ : Avoids self p m₂) :
    Avoids self p (if c then m₁ else m₂) := by
  split
  · exact h₁
  · exact h₂

theorem avoids_deref_eq {self : HtmlInfoBuilder} {p : HtmlCall → Bool} {α : Type}
    {o : Option α} {a : α} {g : α → Method Unit} (ho : o = some a)
    (h : Avoids self p (g a)) : Avoids self p (deref o >>= g) := by
  subst ho
  intro html
  obtain ⟨l, hrun, hp⟩ := h html
  exact ⟨l, by rw [run_bind_ok (deref (some a)) g _ _ a rfl]; exact hrun, hp⟩

theorem selects_of_avoids {self : HtmlInfoBuilder} {p : HtmlCall → Bool} {m : Method Unit}
    (h : Avoids self p m) : Selects self p [] m :=
  h

theorem selects_call (self : HtmlInfoBuilder) (p : HtmlCall → Bool) (x : HtmlCall) :
    Selects self p ([x].filter p) (call x) :=
  emits_call self _ x rfl

theorem selects_pure (self : HtmlInfoBuilder) (p : HtmlCall → Bool) :
    Selects self p [] (pure ()) :=
  emits_pure self _ rfl

theorem selects_bind {self : HtmlInfoBuilder} {p : HtmlCall → Bool} {s₁ s₂ : List HtmlCall}
    {m : Method Unit} {g : Unit → Method Unit} (h₁ : Selects self p s₁ m)
    (h₂ : Selects self p s₂ (g ())) : Selects self p (s₁ ++ s₂) (m >>= g) :=
  emits_bind h₁ h₂ (fun l₁ l₂ hl₁ hl₂ => by
    rw [List.filter_append, hl₁, hl₂])

theorem selects_bind_avoids {self : HtmlInfoBuilder} {p : HtmlCall → Bool} {s : List HtmlCall}
    {m : Method Unit} {g : Unit → Method Unit} (h₂ : Selects self p s (g ()))
    (h₁ : Avoids self p m) : Selects self p s (m >>= g) :=
  emits_bind h₁ h₂ (fun l₁ l₂ hl₁ hl₂ => by
    rw [List.filter_append, hl₁, hl₂]
    rfl)

theorem selects_ite {self : HtmlInfoBuilder} {p : HtmlCall → Bool} {s₁ s₂ : List HtmlCall}
    {c : Prop} [Decidable c] {m₁ m₂ : Method Unit} (h₁ : Selects self p s₁ m₁)
    (h₂ : Selects self p s₂ m₂) :
    Selects self p (if c then s₁ else s₂) (if c then m₁ else m₂) := by
  split
  · exact h₁
  · exact h₂

theorem selects_this_bind {self : HtmlInfoBuilder} {p : HtmlCall → Bool} {s : List HtmlCall}
    {g : HtmlInfoBuilder → Method Unit} (h : Selects self p s (g self)) :
    Selects self p s (this >>= g) :=
  emits_this_bind h

theorem selects_deref_eq {self : HtmlInfoBuilder} {p : HtmlCall → Bool} {s : List HtmlCall}
    {α : Type} {o : Option α} {a : α} {g : α → Method Unit} (ho : o = some a)
    (h : Selects self p s (g a)) : Selects self p s (deref o >>= g) := by
  subst ho
  intro html
  obtain ⟨l, hrun, hp⟩ := h html
  exact ⟨l, by rw [run_bind_ok (deref (some a)) g _ _ a rfl]; exact hrun, hp⟩

theorem int32_of_fits (z : Int) (h : fitsInt32 z) : int32 z = z := by
  unfold fitsInt32 at h
  unfold int32
  omega

/-- On a builder with an `InfoQuery`, `runwayEndText` writes the two threshold
rows, one after the other, when the offset threshold is positive, and neither of
them otherwise. -/
theorem selects_runwayEndText (env : HtmlEnv) (self : HtmlInfoBuilder) (q : InfoQuery)
    (hq : self.infoQuery = some q) (rec : SqlRecord) (hdgPrim : ℚ) (length : Int) :
    Selects self isThresholdRow
      (if rec.valueInt "offset_threshold" > 0 then
        [.row2 "Offset Threshold:" (QString.argInt "%1 ft" (rec.valueInt "offset_threshold")),
         .row2 "Effective Landing Distance:"
           (QString.argInt "%1 ft" (int32 (length - rec.valueInt "offset_threshold")))]
      else [])
      (runwayEndText env (some rec) hdgPrim length) := by
  have h : ∃ sel, Selects self isThresholdRow sel (runwayEndText env (some rec) hdgPrim length) ∧
      sel = (if rec.valueInt "offset_threshold" > 0 then
        [.row2 "Offset Threshold:" (QString.argInt "%1 ft" (rec.valueInt "offset_threshold")),
         .row2 "Effective Landing Distance:"
           (QString.argInt "%1 ft" (int32 (length - rec.valueInt "offset_threshold")))]
      else []) := by
    apply Exists.intro
    apply And.intro
    case left =>
      unfold runwayEndText runwayEndIls rowForInt rowForBool rowForStr rowForStrCap rowForFloat
      repeat' first
        | with_reducible exact selects_pure _ _
        | with_reducible exact selects_call _ _ _
        | with_reducible exact avoids_pure _ _
        | ((with_reducible refine avoids_call _ _ _ ?_); rfl)
        | with_reducible apply selects_deref_eq rfl
        | with_reducible apply selects_deref_eq hq
        | with_reducible apply selects_this_bind
        | with_reducible apply selects_bind
        | with_reducible apply selects_ite
        | (with_reducible apply selects_of_avoids; split)
        | with_reducible apply avoids_this_bind
        | with_reducible apply avoids_bind
        | with_reducible apply avoids_ite
    case right =>
      simp [List.filter, isThresholdRow]
  obtain ⟨sel, hsel, rfl⟩ := h
  exact hsel

/-- C19: on a builder with an `InfoQuery`, for a runway length and an offset
threshold that are values of `int`, `runwayEndText` returns, and among its
calls the rows "Offset Threshold:" and "Effective Landing Distance:" are there
together, in this order and once each, when the offset threshold is positive,
and neither is there otherwise. The distance shown is the difference of runway
length and offset threshold as the `int` subtraction gives it. For a runway
length that is not negative, and for every length whose exact difference to
the threshold is a value of `int`, it is the exact difference, and it is
smaller than the runway length. -/
theorem C19_threshold_rows_and_effective_distance (env : HtmlEnv) (self : HtmlInfoBuilder)
    (q : InfoQuery) (hq : self.infoQuery = some q) (rec : SqlRecord) (hdgPrim : ℚ)
    (length : Int) (hlen : fitsInt32 length)
    (hthr : fitsInt32 (rec.valueInt "offset_threshold")) (html : HtmlBuilder) :
    ∃ calls : List HtmlCall,
      (runwayEndText env (some rec) hdgPrim length).run { self := self, html := html } =
        .ok ((), { self := self, html := html ++ calls }) ∧
      (rec.valueInt "offset_threshold" ≤ 0 → calls.filter isThresholdRow = []) ∧
      (rec.valueInt "offset_threshold" > 0 →
        ∃ shown : Int,
          calls.filter isThresholdRow =
            [.row2 "Offset Threshold:"
               (QString.argInt "%1 ft" (rec.valueInt "offset_threshold")),
             .row2 "Effective Landing Distance:" (QString.argInt "%1 ft" shown)] ∧
          shown = int32 (length - rec.valueInt "offset_threshold") ∧
          (0 ≤ length ∨ fitsInt32 (length - rec.valueInt "offset_threshold") →
            shown = length - rec.valueInt "offset_threshold" ∧ shown < length)) := by
  obtain ⟨calls, hrun, hsel⟩ := selects_runwayEndText env self q hq rec hdgPrim length html
  refine ⟨calls, hrun, ?_, ?_⟩
  · intro hle
    rw [hsel, if_neg (by omega)]
  · intro hpos
    refine ⟨int32 (length - rec.valueInt "offset_threshold"), ?_, rfl, ?_⟩
    · rw [hsel, if_pos hpos]
    · intro hdef
      have hfit : fitsInt32 (length - rec.valueInt "offset_threshold") := by
        rcases hdef with h0 | hf
        · unfold fitsInt32 at hlen hthr ⊢
          omega
        · exact hf
      rw [int32_of_fits _ hfit]
      exact ⟨rfl, by omega⟩

/-- Witness of C19: the sample runway end with an offset threshold of 1 ft on
a runway of 3000 ft. -/
theorem C19_threshold_rows_and_effective_distance_witness :
    Example.tooltipBuilder.infoQuery = some Example.infoQuery ∧
    fitsInt32 3000 ∧
    fitsInt32 (Example.runwayEnd.valueInt "offset_threshold") ∧
    ∃ calls : List HtmlCall,
      (runwayEndText Example.htmlEnv (some Example.runwayEnd) 90 3000).run
          { self := Example.tooltipBuilder, html := [] } =
        .ok ((), { self := Example.tooltipBuilder, html := [] ++ calls }) ∧
      (Example.runwayEnd.valueInt "offset_threshold" ≤ 0 →
        calls.filter isThresholdRow = []) ∧
      (Example.runwayEnd.valueInt "offset_threshold" > 0 →
        ∃ shown : Int,
          calls.filter isThresholdRow =
            [.row2 "Offset Threshold:"
               (QString.argInt "%1 ft" (Example.runwayEnd.valueInt "offset_threshold")),
             .row2 "Effective Landing Distance:" (QString.argInt "%1 ft" shown)] ∧
          shown = int32 (3000 - Example.runwayEnd.valueInt "offset_threshold") ∧
          (0 ≤ (3000 : Int) ∨
              fitsInt32 (3000 - Example.runwayEnd.valueInt "offset_threshold") →
            shown = 3000 - Example.runwayEnd.valueInt "offset_threshold" ∧ shown < 3000)) :=
  ⟨rfl, by decide, by decide,
    C19_threshold_rows_and_effective_distance Example.htmlEnv Example.tooltipBuilder
      Example.infoQuery rfl Example.runwayEnd 90 3000 (by decide) (by decide) []⟩

end HtmlInfoBuilder

/-! ## The weather section of `airportText` -/

namespace HtmlInfoBuilder

theorem writes_airportWeather (self : HtmlInfoBuilder) (airport : MapAirport)
    (weather : WeatherReporter) :
    Emits self (fun calls => calls = weatherSectionSpec self.info airport weather)
      (airportWeather airport weather) := by
  have h : ∃ sel, Selects self (fun _ => true) sel (airportWeather airport weather) ∧
      sel = weatherSectionSpec self.info airport weather := by
    apply Exists.intro
    apply And.intro
    case left =>
      unfold airportWeather head
      repeat' first
        | with_reducible exact selects_pure _ _
        | with_reducible exact selects_call _ _ _
        | with_reducible apply selects_this_bind
        | with_reducible apply selects_bind
        | with_reducible apply selects_ite
    case right =>
      have he : "".isEmpty = true := rfl
      unfold weatherSectionSpec metarRowsSpec metarLocals
      cases hi : self.info <;> cases ha : weather.hasAsnWeather <;>
        cases h1 : (weather.getAsnMetar airport.ident).isEmpty <;>
        cases h2 : (weather.getNoaaMetar airport.ident).isEmpty <;>
        cases h3 : (weather.getVatsimMetar airport.ident).isEmpty <;>
        simp [List.filter, he, hi, ha, h1, h2, h3]
  obtain ⟨sel, hsel, rfl⟩ := h
  exact emits_mono hsel (fun calls hc => by simpa using hc)

theorem filter_weatherSection (info : Bool) (airport : MapAirport) (weather : WeatherReporter) :
    (weatherSectionSpec info airport weather).filter isMetarRow = metarRowsSpec info airport weather := by
  unfold weatherSectionSpec metarRowsSpec
  cases hi : info <;> cases ha : weather.hasAsnWeather <;>
    cases h1 : (weather.getAsnMetar airport.ident).isEmpty <;>
    cases h2 : (weather.getNoaaMetar airport.ident).isEmpty <;>
    cases h3 : (weather.getVatsimMetar airport.ident).isEmpty <;>
    simp [List.filter, isMetarRow, hi, ha, h1, h2, h3]

theorem selects_airportWeather (self : HtmlInfoBuilder) (airport : MapAirport)
    (weather : WeatherReporter) :
    Selects self isMetarRow (metarRowsSpec self.info airport weather)
      (airportWeather airport weather) :=
  emits_mono (writes_airportWeather self airport weather) (fun calls hc => by
    rw [hc]
    exact filter_weatherSection _ _ _)

/-- With a weather reporter the METAR rows of `airportText` are the rows of its
weather section. -/
theorem selects_airportText_weather (env : HtmlEnv) (self : HtmlInfoBuilder)
    (airport : MapAirport) (routeMapObjects : Option RouteMapObjectList)
    (weather : WeatherReporter) (background : String) :
    Selects self isMetarRow (metarRowsSpec self.info airport weather)
      (airportText env airport routeMapObjects (some weather) background) := by
  have h : ∃ sel, Selects self isMetarRow sel
      (airportText env airport routeMapObjects (some weather) background) ∧
      sel = metarRowsSpec self.info airport weather := by
    apply Exists.intro
    apply And.intro
    case left =>
      unfold airportText airportParking airportParkingRows addScenery addCoordinates
        airportTitle head
      repeat' first
        | with_reducible exact selects_airportWeather _ _ _
        | with_reducible exact selects_pure _ _
        | with_reducible exact avoids_pure _ _
        | ((with_reducible refine avoids_call _ _ _ ?_); first | rfl | (split <;> rfl))
        | ((with_reducible apply selects_of_avoids);
            (with_reducible refine avoids_call _ _ _ ?_); first | rfl | (split <;> rfl))
        | with_reducible apply selects_this_bind
        | with_reducible apply selects_bind
        | with_reducible apply selects_ite
        | (with_reducible apply selects_of_avoids; split)
        | with_reducible apply avoids_this_bind
        | with_reducible apply avoids_bind
        | with_reducible apply avoids_ite
        | split
    case right =>
      simp
  obtain ⟨sel, hsel, rfl⟩ := h
  exact hsel

/-- Without a weather reporter `airportText` writes no METAR row. -/
theorem avoids_airportText_no_weather (env : HtmlEnv) (self : HtmlInfoBuilder)
    (airport : MapAirport) (routeMapObjects : Option RouteMapObjectList) (background : String) :
    Avoids self isMetarRow (airportText env airport routeMapObjects none background) := by
  have h : ∃ sel, Selects self isMetarRow sel
      (airportText env airport routeMapObjects none background) ∧ sel = [] := by
    apply Exists.intro
    apply And.intro
    case left =>
      unfold airportText airportParking airportParkingRows addScenery addCoordinates
        airportTitle head
      repeat' first
        | with_reducible exact selects_airportWeather _ _ _
        | with_reducible exact selects_pure _ _
        | with_reducible exact avoids_pure _ _
        | ((with_reducible refine avoids_call _ _ _ ?_); first | rfl | (split <;> rfl))
        | ((with_reducible apply selects_of_avoids);
            (with_reducible refine avoids_call _ _ _ ?_); first | rfl | (split <;> rfl))
        | with_reducible apply selects_this_bind
        | with_reducible apply selects_bind
        | with_reducible apply selects_ite
        | (with_reducible apply selects_of_avoids; split)
        | with_reducible apply avoids_this_bind
        | with_reducible apply avoids_bind
        | with_reducible apply avoids_ite
        | split
    case right =>
      simp
  obtain ⟨sel, hsel, rfl⟩ := h
  exact hsel

/-- C15, as amended: the weather section of `airportText` writes the calls of
`weatherSectionSpec`, and the METAR rows among all calls of `airportText` are
the rows of `metarRowsSpec`. In the tooltip format there is at most one METAR
row, and the sources are called by priority: ASN alone when ASN weather is
available, otherwise NOAA, and Vatsim only when the NOAA METAR is empty. In the
information format NOAA and Vatsim are called always and ASN only when ASN
weather is available; every source that is called and has a METAR gets its own
row. A METAR local holds the answer of its source when the source was called
and is empty otherwise. The table is written exactly when there is a METAR
row. -/
theorem C15_weather_rows_by_source (env : HtmlEnv) (self : HtmlInfoBuilder)
    (airport : MapAirport) (routeMapObjects : Option RouteMapObjectList)
    (weather : WeatherReporter) (background : String) (html : HtmlBuilder) :
    (airportWeather airport weather).run { self := self, html := html } =
      .ok ((), { self := self, html := html ++ weatherSectionSpec self.info airport weather }) ∧
    (∃ calls : List HtmlCall,
      (airportText env airport routeMapObjects (some weather) background).run
          { self := self, html := html } =
        .ok ((), { self := self, html := html ++ calls }) ∧
      calls.filter isMetarRow = metarRowsSpec self.info airport weather) ∧
    (metarRowsSpec false airport weather).length ≤ 1 ∧
    (metarLocals false airport weather).calls =
      (if weather.hasAsnWeather then [WeatherSource.asn]
      else WeatherSource.noaa ::
        (if (weather.getNoaaMetar airport.ident).isEmpty then [WeatherSource.vatsim] else [])) ∧
    (metarLocals true airport weather).calls =
      (if weather.hasAsnWeather then [WeatherSource.asn] else []) ++
        [WeatherSource.noaa, WeatherSource.vatsim] ∧
    (∀ info : Bool,
      (metarLocals info airport weather).asnMetar =
        (if WeatherSource.asn ∈ (metarLocals info airport weather).calls
          then weather.getAsnMetar airport.ident else "") ∧
      (metarLocals info airport weather).noaaMetar =
        (if WeatherSource.noaa ∈ (metarLocals info airport weather).calls
          then weather.getNoaaMetar airport.ident else "") ∧
      (metarLocals info airport weather).vatsimMetar =
        (if WeatherSource.vatsim ∈ (metarLocals info airport weather).calls
          then weather.getVatsimMetar airport.ident else "")) := by
  refine ⟨?_, selects_airportText_weather env self airport routeMapObjects weather background html,
    ?_, ?_, ?_, ?_⟩
  · obtain ⟨calls, hrun, hc⟩ := writes_airportWeather self airport weather html
    rw [hrun, hc]
  · unfold metarRowsSpec
    cases ha : weather.hasAsnWeather <;>
      cases h1 : (weather.getAsnMetar airport.ident).isEmpty <;>
      cases h2 : (weather.getNoaaMetar airport.ident).isEmpty <;>
      cases h3 : (weather.getVatsimMetar airport.ident).isEmpty <;>
      simp [ha, h1, h2, h3]
  · unfold metarLocals
    cases ha : weather.hasAsnWeather <;>
      cases h2 : (weather.getNoaaMetar airport.ident).isEmpty <;> simp [ha, h2]
  · unfold metarLocals
    cases ha : weather.hasAsnWeather <;> simp [ha]
  · intro info
    unfold metarLocals
    cases hi : info <;> cases ha : weather.hasAsnWeather <;>
      cases h2 : (weather.getNoaaMetar airport.ident).isEmpty <;> simp [hi, ha, h2]

/-- Counterexample to C15 as stated: in the information format, with a weather
reporter that has no ASN weather, `airportText` calls the NOAA and the Vatsim
source only; the ASN source is not called. The rows are those of NOAA and
Vatsim. -/
theorem C15_information_format_does_not_query_ASN :
    Example.infoBuilder.info = true ∧
    Example.weatherNoAsn.hasAsnWeather = false ∧
    (metarLocals Example.infoBuilder.info Example.airport Example.weatherNoAsn).calls =
      [WeatherSource.noaa, WeatherSource.vatsim] ∧
    WeatherSource.asn ∉
      (metarLocals Example.infoBuilder.info Example.airport Example.weatherNoAsn).calls ∧
    ∃ calls : List HtmlCall,
      callsOf (airportText Example.htmlEnv Example.airport none (some Example.weatherNoAsn)
        "white") Example.infoBuilder = some calls ∧
      calls.filter isMetarRow =
        [HtmlCall.row2 "NOAA:" "EDDF 301150Z 23007KT", HtmlCall.row2 "Vatsim:" "EDDF 301200Z"] := by
  refine ⟨rfl, rfl, by decide, by decide, ?_⟩
  obtain ⟨calls, hrun, hsel⟩ := selects_airportText_weather Example.htmlEnv Example.infoBuilder
    Example.airport none Example.weatherNoAsn "white" []
  refine ⟨calls, ?_, ?_⟩
  · unfold callsOf
    rw [hrun]
    rfl
  · rw [hsel]
    decide

end HtmlInfoBuilder
